import Mathlib

/-!
# Mercado Fresh: the warehouses service, the buyers / employees controllers, the
employees repository, the route table

A shallow embedding of

* `internal/warehouses/service.go` (the `warehouseService` methods),
* `cmd/server/controller/buyers.go` and `cmd/server/controller/employees.go`
  (the gin handlers and their error-to-status switches),
* `internal/employees/repository.go` (the SQL statements, evaluated over tables, and
  the driver calls around them),
* `cmd/server/main.go` (the route groups and the routes registered on them),

together with the properties they satisfy.

Conventions of the embedding.

* A Go result pair `(T, error)` is a Lean pair `T × Option GoError`; `none` is the
  nil error.  Both components are kept, because the Go code returns both.
* Code that talks to a store is written in explicit state-passing style: a method
  of an injected interface is a function `σ → result × σ` over an arbitrary store
  type `σ`.
* `uint64` / `uint32` values are natural numbers; no arithmetic is done on them in
  the embedded code, so no wrap-around can occur.
-/

namespace MercadoFresh

/-! ## Go values -/

/-- Go `error` values, compared by identity as the `switch err` statements and the
`err != nil` tests of the source do.  The six sentinels are the package-level
`errors.New` values named in the source; `NumError num outOfRange` is the error of
`strconv.ParseUint` on the input `num` (a syntax error or a range error);
`ValidationErrors structName fields` is the error of the binding validator for the
listed fields of a request struct; `ErrNoRows` is the value `sql.ErrNoRows` that
`Scan` returns when a `QueryRow` has no row; `other msg` is any other error value (a
driver error, a JSON decoding error, the result of `fmt.Errorf`) with its message. -/
inductive GoError where
  | ExistsWarehouseCodeError
  | WarehouseNotFoundError
  | BuyerNotFoundError
  | ExistsBuyerCardNumberIdError
  | EmployeeNotFoundError
  | ExistsCardNumberIdError
  | NumError (num : String) (outOfRange : Bool)
  | ValidationErrors (structName : String) (fields : List String)
  | ErrNoRows
  | other (msg : String)
  deriving DecidableEq, Repr

/-- A Go `float32`, kept as its IEEE-754 bit pattern (a number below `2 ^ 32`).
Only the comparison with zero is ever made on it. -/
structure float32 where
  bits : Nat
  deriving DecidableEq, Repr

/-- The Go test `f == 0` on a float32: true for `+0` and for `-0`, whose bit
patterns are `0` and `2 ^ 31`. -/
def float32.isZero (f : float32) : Bool :=
  f.bits % 2 ^ 31 == 0

/-- The record `database.Warehouse`.  Its declaration is in a package that is not
among the sources; the fields are the ones `service.go` reads and writes, plus the
locality reference that `Create` receives. -/
structure Warehouse where
  Id : Nat
  Code : String
  Address : String
  Telephone : String
  MinimunCapacity : Nat
  MinimumTemperature : float32
  LocalityId : String
  deriving DecidableEq, Repr

/-- The Go zero value `database.Warehouse{}`. -/
def Warehouse.empty : Warehouse :=
  { Id := 0, Code := "", Address := "", Telephone := "", MinimunCapacity := 0,
    MinimumTemperature := { bits := 0 }, LocalityId := "" }

/-! ## `mergo.Merge(&dst, src, mergo.WithOverride)` on a Warehouse -/

/-- mergo's `isEmptyValue` on a string: its length is zero. -/
def isEmptyString (v : String) : Bool := decide (v = "")

/-- mergo's `isEmptyValue` on an unsigned integer: it is zero. -/
def isEmptyUint (v : Nat) : Bool := decide (v = 0)

/-- mergo's `isEmptyValue` on a float: it compares equal to zero. -/
def isEmptyFloat (v : float32) : Bool := v.isZero

/-- mergo's decision for a leaf field:
`(isEmptyValue(dst) || overwrite) && (!isEmptyValue(src) || overwriteWithEmptySrc)`. -/
def mustSet (dstEmpty srcEmpty overwrite overwriteWithEmptySrc : Bool) : Bool :=
  (dstEmpty || overwrite) && (!srcEmpty || overwriteWithEmptySrc)

/-- One leaf of the merge with `WithOverride` (overwrite on, overwrite-with-empty
off): the destination takes the source value when `mustSet` says so. -/
def mergeLeaf {α : Type} (isEmpty : α → Bool) (dst src : α) : α :=
  if mustSet (isEmpty dst) (isEmpty src) true false then src else dst

/-- The effect of `mergo.Merge(&dst, src, mergo.WithOverride)` on two warehouses:
the struct is merged field by field. -/
def mergoMergeWithOverride (dst src : Warehouse) : Warehouse :=
  { Id := mergeLeaf isEmptyUint dst.Id src.Id
    Code := mergeLeaf isEmptyString dst.Code src.Code
    Address := mergeLeaf isEmptyString dst.Address src.Address
    Telephone := mergeLeaf isEmptyString dst.Telephone src.Telephone
    MinimunCapacity := mergeLeaf isEmptyUint dst.MinimunCapacity src.MinimunCapacity
    MinimumTemperature := mergeLeaf isEmptyFloat dst.MinimumTemperature src.MinimumTemperature
    LocalityId := mergeLeaf isEmptyString dst.LocalityId src.LocalityId }

/-! ## The warehouses service (`internal/warehouses/service.go`) -/

/-- The interface `WarehouseRepository` injected into the service.  Its declaration
is not among the sources; the methods and their signatures are the ones
`service.go` calls.  Every method may read and write the store `σ`. -/
structure WarehouseRepository (σ : Type) where
  GetAll : σ → (List Warehouse × Option GoError) × σ
  Create : String → String → String → Nat → float32 → String → σ →
    (Warehouse × Option GoError) × σ
  Get : Nat → σ → (Warehouse × Option GoError) × σ
  Delete : Nat → σ → Option GoError × σ
  Update : Warehouse → σ → (Warehouse × Option GoError) × σ
  ExistsWarehouseCode : String → σ → (Bool × Option GoError) × σ

namespace warehouseService

variable {σ : Type}

/-- The method `warehouseService.GetAll`. -/
def GetAll (warehouseRepo : WarehouseRepository σ) (s : σ) :
    (List Warehouse × Option GoError) × σ :=
  warehouseRepo.GetAll s

/-- The method `warehouseService.Create`. -/
def Create (warehouseRepo : WarehouseRepository σ) (code address telephone : String)
    (minimumCapacity : Nat) (minimumTemperature : float32) (localityId : String) (s : σ) :
    (Warehouse × Option GoError) × σ :=
  match warehouseRepo.ExistsWarehouseCode code s with
  | ((_, some err), s1) => ((Warehouse.empty, some err), s1)
  | ((isUsedCid, none), s1) =>
    if isUsedCid then
      ((Warehouse.empty, some GoError.ExistsWarehouseCodeError), s1)
    else
      warehouseRepo.Create code address telephone minimumCapacity minimumTemperature
        localityId s1

/-- The method `warehouseService.Get`. -/
def Get (warehouseRepo : WarehouseRepository σ) (id : Nat) (s : σ) :
    (Warehouse × Option GoError) × σ :=
  match warehouseRepo.Get id s with
  | ((_, some _), s1) => ((Warehouse.empty, some GoError.WarehouseNotFoundError), s1)
  | ((foundWarehouse, none), s1) => ((foundWarehouse, none), s1)

/-- The method `warehouseService.Delete`. -/
def Delete (warehouseRepo : WarehouseRepository σ) (id : Nat) (s : σ) :
    Option GoError × σ :=
  warehouseRepo.Delete id s

/-- The record `updatedWarehouse` that `Update` builds from its arguments; the
locality is not among them and stays at its zero value. -/
def updatedWarehouse (id : Nat) (code address telephone : String)
    (minimumCapacity : Nat) (minimumTemperature : float32) : Warehouse :=
  { Id := id, Code := code, Address := address, Telephone := telephone,
    MinimunCapacity := minimumCapacity, MinimumTemperature := minimumTemperature,
    LocalityId := "" }

/-- The method `warehouseService.Update`. -/
def Update (warehouseRepo : WarehouseRepository σ) (id : Nat)
    (code address telephone : String) (minimumCapacity : Nat)
    (minimumTemperature : float32) (s : σ) : (Warehouse × Option GoError) × σ :=
  match warehouseRepo.Get id s with
  | ((_, some _), s1) => ((Warehouse.empty, some GoError.WarehouseNotFoundError), s1)
  | ((foundWarehouse, none), s1) =>
    match warehouseRepo.ExistsWarehouseCode code s1 with
    | ((_, some err), s2) => ((Warehouse.empty, some err), s2)
    | ((isUsedCid, none), s2) =>
      if isUsedCid then
        ((Warehouse.empty, some GoError.ExistsWarehouseCodeError), s2)
      else
        match warehouseRepo.Update
            (mergoMergeWithOverride foundWarehouse
              (updatedWarehouse id code address telephone minimumCapacity minimumTemperature))
            s2 with
        | ((_, some _), s3) =>
          ((Warehouse.empty, some (GoError.other "error: internal server error")), s3)
        | ((newWarehouse, none), s3) => ((newWarehouse, none), s3)

end warehouseService

/-! ## Observing which repository methods a service call invokes -/

/-- One invocation of a repository method, with its arguments. -/
inductive RepoCall where
  | GetAll
  | Create (code address telephone : String) (minimumCapacity : Nat)
      (minimumTemperature : float32) (localityId : String)
  | Get (id : Nat)
  | Delete (id : Nat)
  | Update (w : Warehouse)
  | ExistsWarehouseCode (code : String)
  deriving DecidableEq, Repr

/-- A repository that behaves as `repo` and also appends every invocation to a
log kept next to the store. -/
def recording {σ : Type} (repo : WarehouseRepository σ) :
    WarehouseRepository (σ × List RepoCall) where
  GetAll := fun st => ((repo.GetAll st.1).1, ((repo.GetAll st.1).2, st.2 ++ [RepoCall.GetAll]))
  Create := fun code address telephone cap temp loc st =>
    ((repo.Create code address telephone cap temp loc st.1).1,
      ((repo.Create code address telephone cap temp loc st.1).2,
        st.2 ++ [RepoCall.Create code address telephone cap temp loc]))
  Get := fun id st => ((repo.Get id st.1).1, ((repo.Get id st.1).2, st.2 ++ [RepoCall.Get id]))
  Delete := fun id st =>
    ((repo.Delete id st.1).1, ((repo.Delete id st.1).2, st.2 ++ [RepoCall.Delete id]))
  Update := fun w st =>
    ((repo.Update w st.1).1, ((repo.Update w st.1).2, st.2 ++ [RepoCall.Update w]))
  ExistsWarehouseCode := fun code st =>
    ((repo.ExistsWarehouseCode code st.1).1,
      ((repo.ExistsWarehouseCode code st.1).2, st.2 ++ [RepoCall.ExistsWarehouseCode code]))

/-! ## The store behind the warehouses repository -/

/-- Modelled from the spec: the warehouses table.  The repository implementation
(`internal/warehouses/repository.go`) is not among the sources, so the store is the
one the spec describes: a table of flat records, each created by one INSERT that
generates its identifier. -/
structure WarehouseTable where
  rows : List Warehouse
  lastInsertId : Nat
  deriving DecidableEq, Repr

namespace warehouseRepository

/-- Modelled from the spec: repository `GetAll`, every stored record. -/
def GetAll (t : WarehouseTable) : (List Warehouse × Option GoError) × WarehouseTable :=
  ((t.rows, none), t)

/-- Modelled from the spec: repository `Create`, "insert; return the new record
including a generated identifier". -/
def Create (code address telephone : String) (minimumCapacity : Nat)
    (minimumTemperature : float32) (localityId : String) (t : WarehouseTable) :
    (Warehouse × Option GoError) × WarehouseTable :=
  (({ Id := t.lastInsertId + 1, Code := code, Address := address, Telephone := telephone,
      MinimunCapacity := minimumCapacity, MinimumTemperature := minimumTemperature,
      LocalityId := localityId }, none),
   { rows := t.rows ++ [{ Id := t.lastInsertId + 1, Code := code, Address := address,
                          Telephone := telephone, MinimunCapacity := minimumCapacity,
                          MinimumTemperature := minimumTemperature,
                          LocalityId := localityId }],
     lastInsertId := t.lastInsertId + 1 })

/-- Modelled from the spec: repository `Get`, "fetch existing record (fails with
NotFound if absent)". -/
def Get (id : Nat) (t : WarehouseTable) : (Warehouse × Option GoError) × WarehouseTable :=
  match t.rows.find? (fun r => decide (r.Id = id)) with
  | some w => ((w, none), t)
  | none => ((Warehouse.empty, some GoError.WarehouseNotFoundError), t)

/-- Modelled from the spec: repository `Delete`, "remove by id; fails with NotFound
if the id does not exist". -/
def Delete (id : Nat) (t : WarehouseTable) : Option GoError × WarehouseTable :=
  if t.rows.any (fun r => decide (r.Id = id)) then
    (none, { t with rows := t.rows.filter (fun r => !decide (r.Id = id)) })
  else
    (some GoError.WarehouseNotFoundError, t)

/-- Modelled from the spec: repository `Update`, "persist; return the merged
record": the row with the record's id is replaced by the record. -/
def Update (w : Warehouse) (t : WarehouseTable) :
    (Warehouse × Option GoError) × WarehouseTable :=
  ((w, none), { t with rows := t.rows.map (fun r => if r.Id = w.Id then w else r) })

/-- Modelled from the spec: the uniqueness predicate of the business key, "does this
code already exist", answered by one lookup of the code over the stored records. -/
def ExistsWarehouseCode (code : String) (t : WarehouseTable) :
    (Bool × Option GoError) × WarehouseTable :=
  ((t.rows.any (fun r => decide (r.Code = code)), none), t)

end warehouseRepository

/-- Modelled from the spec: the warehouses repository over the table, the value
`NewService` receives. -/
def tableRepository : WarehouseRepository WarehouseTable where
  GetAll := warehouseRepository.GetAll
  Create := warehouseRepository.Create
  Get := warehouseRepository.Get
  Delete := warehouseRepository.Delete
  Update := warehouseRepository.Update
  ExistsWarehouseCode := warehouseRepository.ExistsWarehouseCode

/-- The primary key of the table: no two rows share an id. -/
def WarehouseTable.uniqueIds (t : WarehouseTable) : Prop :=
  (t.rows.map (fun r => r.Id)).Nodup

instance (t : WarehouseTable) : Decidable t.uniqueIds := by
  unfold WarehouseTable.uniqueIds; infer_instance

/-! ## Sample data -/

/-- A sample stored warehouse. -/
def sampleWarehouse : Warehouse :=
  { Id := 1, Code := "W1", Address := "Rua A, 10", Telephone := "1199", MinimunCapacity := 5,
    MinimumTemperature := { bits := 1065353216 }, LocalityId := "6700" }

/-- A second sample stored warehouse. -/
def otherWarehouse : Warehouse :=
  { Id := 2, Code := "W2", Address := "Rua B, 20", Telephone := "1188", MinimunCapacity := 7,
    MinimumTemperature := { bits := 0 }, LocalityId := "6701" }

/-- A sample table holding the two sample warehouses. -/
def sampleTable : WarehouseTable :=
  { rows := [sampleWarehouse, otherWarehouse], lastInsertId := 2 }

/-! ## The HTTP boundary: statuses, errors texts, the envelope, the gin context -/

namespace http

/-- The constant `http.StatusOK`. -/
def StatusOK : Nat := 200
/-- The constant `http.StatusCreated`. -/
def StatusCreated : Nat := 201
/-- The constant `http.StatusNoContent`. -/
def StatusNoContent : Nat := 204
/-- The constant `http.StatusBadRequest`. -/
def StatusBadRequest : Nat := 400
/-- The constant `http.StatusNotFound`. -/
def StatusNotFound : Nat := 404
/-- The constant `http.StatusConflict`. -/
def StatusConflict : Nat := 409
/-- The constant `http.StatusUnprocessableEntity`. -/
def StatusUnprocessableEntity : Nat := 422
/-- The constant `http.StatusInternalServerError`. -/
def StatusInternalServerError : Nat := 500

end http

/-- The message texts that are fixed outside the sources at hand: the messages of the
sentinels of packages `buyers` and `employees`, and the texts that `strconv` and the
binding validator give their errors. -/
structure ErrorTexts where
  BuyerNotFoundError : String
  ExistsBuyerCardNumberIdError : String
  EmployeeNotFoundError : String
  ExistsCardNumberIdError : String
  NumError : String → Bool → String
  ValidationErrors : String → List String → String

/-- The method `err.Error()`. -/
def GoError.Error (m : ErrorTexts) : GoError → String
  | GoError.ExistsWarehouseCodeError => "warehouses code already exists"
  | GoError.WarehouseNotFoundError => "warehouses not found"
  | GoError.BuyerNotFoundError => m.BuyerNotFoundError
  | GoError.ExistsBuyerCardNumberIdError => m.ExistsBuyerCardNumberIdError
  | GoError.EmployeeNotFoundError => m.EmployeeNotFoundError
  | GoError.ExistsCardNumberIdError => m.ExistsCardNumberIdError
  | GoError.NumError num outOfRange => m.NumError num outOfRange
  | GoError.ValidationErrors structName fields => m.ValidationErrors structName fields
  | GoError.ErrNoRows => "sql: no rows in result set"
  | GoError.other msg => msg

namespace strconv

/-- The value `maxVal` of `ParseUint` for `bitSize` 64. -/
def maxVal : Nat := 2 ^ 64 - 1

/-- The value `cutoff` of `ParseUint` for base 10: `maxUint64/10 + 1`. -/
def cutoff : Nat := (2 ^ 64 - 1) / 10 + 1

/-- The loop of `strconv.ParseUint(s, 10, 64)` over the rest of the input, with the
accumulator `n`.  A decimal digit is accumulated, with the two overflow tests of the
source on 64-bit arithmetic; anything else is a syntax error: a letter is a digit
value of at least 10, which is not below the base, and an underscore is accepted
only for base 0.  The source loops over bytes; every byte of a non-ASCII character is
above `z`, so looping over characters gives the same result. -/
def ParseUintLoop (s0 : String) : List Char → Nat → Nat × Option GoError
  | [], n => (n, none)
  | c :: cs, n =>
    if 48 ≤ c.toNat ∧ c.toNat ≤ 57 then
      if n ≥ cutoff then
        (maxVal, some (GoError.NumError s0 true))
      else if (n * 10 % 2 ^ 64 + (c.toNat - 48)) % 2 ^ 64 < n * 10 % 2 ^ 64 ∨
          (n * 10 % 2 ^ 64 + (c.toNat - 48)) % 2 ^ 64 > maxVal then
        (maxVal, some (GoError.NumError s0 true))
      else
        ParseUintLoop s0 cs ((n * 10 % 2 ^ 64 + (c.toNat - 48)) % 2 ^ 64)
    else
      (0, some (GoError.NumError s0 false))

/-- The call `strconv.ParseUint(s, 10, 64)`: the parsed value and the error. -/
def ParseUint (s : String) : Nat × Option GoError :=
  if s = "" then (0, some (GoError.NumError s false))
  else ParseUintLoop s s.toList 0

end strconv

namespace web

/-- Modelled from the spec: the envelope type `web.Response` of package `pkg/web`,
which is not among the sources: "Uniform response envelope:
{ status: int, data: T|null, error: string }". -/
structure Response (D : Type) where
  status : Nat
  data : Option D
  error : String
  deriving DecidableEq, Repr

/-- Modelled from the spec: the constructor `web.NewResponse(status, data, err)` of the
envelope, which is not among the sources. -/
def NewResponse {D : Type} (status : Nat) (data : Option D) (err : String) : Response D :=
  { status := status, data := data, error := err }

end web

namespace gin

/-- The second argument of a call `ctx.JSON(code, obj)` in the controllers: an
envelope, the map `gin.H{"error": msg}`, or `nil`. -/
inductive Obj (D : Type) where
  | response (r : web.Response D)
  | H (error : String)
  | null
  deriving DecidableEq, Repr

/-- The call `ctx.JSON(code, obj)` a handler ends with. -/
structure JSON (D : Type) where
  code : Nat
  obj : Obj D
  deriving DecidableEq, Repr

/-- The outcome of decoding the JSON body of a request into the request struct
`Req`: a decoding error, or the struct with the decoded fields (a field absent from
the body has its zero value). -/
inductive Decoded (Req : Type) where
  | failure (err : GoError)
  | value (req : Req)

/-- What the handlers read from a `*gin.Context`: the path parameter `id`, the query
parameter `id` when the query has one, and the JSON body. -/
structure Context (Req : Type) where
  Param_id : String
  Query_id : Option String
  body : Decoded Req

/-- The function `bodyAllowedForStatus` of gin: no body is written for the statuses
100 to 199, 204 and 304. -/
def bodyAllowedForStatus (status : Nat) : Bool :=
  if 100 ≤ status ∧ status ≤ 199 then false
  else if status = 204 then false
  else if status = 304 then false
  else true

/-- The body that `ctx.JSON(code, obj)` writes: gin's `Render` sets the status and
writes `obj` only when the status allows a body. -/
def JSON.written {D : Type} (r : JSON D) : Option (Obj D) :=
  if bodyAllowedForStatus r.code then some r.obj else none

/-- A response is uniform when it has no body, or its body is the envelope and the
status field of the envelope is the HTTP status of the response. -/
def JSON.uniform {D : Type} (r : JSON D) : Prop :=
  match r.written with
  | none => True
  | some (Obj.response e) => e.status = r.code
  | some (Obj.H _) => False
  | some Obj.null => False

instance {D : Type} (r : JSON D) : Decidable r.uniform := by
  unfold JSON.uniform; split <;> infer_instance

end gin

/-- The struct `createBuyersRequest`; every field is tagged `binding:"required"`. -/
structure createBuyersRequest where
  CardNumberId : String
  FirstName : String
  LastName : String
  deriving DecidableEq, Repr

/-- The struct `updateBuyersRequest`; no field is required. -/
structure updateBuyersRequest where
  CardNumberId : String
  FirstName : String
  LastName : String
  deriving DecidableEq, Repr

/-- The struct `CreateEmployeeRequest`; every field is tagged `binding:"required"`. -/
structure CreateEmployeeRequest where
  CardNumberId : String
  FirstName : String
  LastName : String
  WarehouseId : Nat
  deriving DecidableEq, Repr

/-- The struct `UpdateEmployeeRequest`; no field is required. -/
structure UpdateEmployeeRequest where
  CardNumberId : String
  FirstName : String
  LastName : String
  WarehouseId : Nat
  deriving DecidableEq, Repr

/-- The `required` rule of the binding validator on a string field: the field name
is reported when the value is the zero value. -/
def requiredString (name : String) (v : String) : List String :=
  if v = "" then [name] else []

/-- The `required` rule of the binding validator on an unsigned field. -/
def requiredUint (name : String) (v : Nat) : List String :=
  if v = 0 then [name] else []

/-- The call `ctx.ShouldBindJSON(&req)` for a request struct: the value of `req`
after the call and the error.  The body is decoded, then the `required` tags are
checked; `zero` is the value `req` is declared with, `missing` lists the required
fields that have their zero value. -/
def ShouldBindJSON {Req : Type} (zero : Req) (structName : String)
    (missing : Req → List String) (ctx : gin.Context Req) : Req × Option GoError :=
  match ctx.body with
  | gin.Decoded.failure err => (zero, some err)
  | gin.Decoded.value req =>
    if missing req = [] then (req, none)
    else (req, some (GoError.ValidationErrors structName (missing req)))

/-- The binding of a `createBuyersRequest`. -/
def createBuyersRequest.ShouldBindJSON (ctx : gin.Context createBuyersRequest) :
    createBuyersRequest × Option GoError :=
  MercadoFresh.ShouldBindJSON { CardNumberId := "", FirstName := "", LastName := "" }
    "createBuyersRequest"
    (fun req => requiredString "CardNumberId" req.CardNumberId ++
      requiredString "FirstName" req.FirstName ++ requiredString "LastName" req.LastName) ctx

/-- The binding of an `updateBuyersRequest`. -/
def updateBuyersRequest.ShouldBindJSON (ctx : gin.Context updateBuyersRequest) :
    updateBuyersRequest × Option GoError :=
  MercadoFresh.ShouldBindJSON { CardNumberId := "", FirstName := "", LastName := "" }
    "updateBuyersRequest" (fun _ => []) ctx

/-- The binding of a `CreateEmployeeRequest`. -/
def CreateEmployeeRequest.ShouldBindJSON (ctx : gin.Context CreateEmployeeRequest) :
    CreateEmployeeRequest × Option GoError :=
  MercadoFresh.ShouldBindJSON
    { CardNumberId := "", FirstName := "", LastName := "", WarehouseId := 0 }
    "CreateEmployeeRequest"
    (fun req => requiredString "CardNumberId" req.CardNumberId ++
      requiredString "FirstName" req.FirstName ++ requiredString "LastName" req.LastName ++
      requiredUint "WarehouseId" req.WarehouseId) ctx

/-- The binding of an `UpdateEmployeeRequest`. -/
def UpdateEmployeeRequest.ShouldBindJSON (ctx : gin.Context UpdateEmployeeRequest) :
    UpdateEmployeeRequest × Option GoError :=
  MercadoFresh.ShouldBindJSON
    { CardNumberId := "", FirstName := "", LastName := "", WarehouseId := 0 }
    "UpdateEmployeeRequest" (fun _ => []) ctx

/-! ## The buyers controller (`cmd/server/controller/buyers.go`) -/

/-- The interface `buyers.BuyerService` injected into the controller.  Its
declaration is not among the sources; the methods are the ones the handlers call.
The result types are parameters: `B` a buyer, `Bs` the result of `GetAll`, `R` and
`Rs` the results of the two report operations. -/
structure BuyerService (σ B Bs R Rs : Type) where
  Create : String → String → String → σ → (B × Option GoError) × σ
  GetAll : σ → (Bs × Option GoError) × σ
  Get : Nat → σ → (B × Option GoError) × σ
  CountPurchaseOrdersByBuyer : Nat → σ → (R × Option GoError) × σ
  CountPurchaseOrdersByBuyers : σ → (Rs × Option GoError) × σ
  Delete : Nat → σ → Option GoError × σ
  Update : Nat → String → String → String → σ → (B × Option GoError) × σ

/-- The function `buyerErrorHandler`. -/
def buyerErrorHandler (err : GoError) : Nat :=
  if err = GoError.BuyerNotFoundError then http.StatusNotFound
  else if err = GoError.ExistsBuyerCardNumberIdError then http.StatusConflict
  else http.StatusInternalServerError

namespace buyerController

variable {σ B Bs R Rs Req : Type}

/-- The handler `buyerController.Create`. -/
def Create (m : ErrorTexts) (buyerService : BuyerService σ B Bs R Rs)
    (ctx : gin.Context createBuyersRequest) (s : σ) : gin.JSON B × σ :=
  match createBuyersRequest.ShouldBindJSON ctx with
  | (_, some err) =>
    ({ code := http.StatusUnprocessableEntity,
       obj := gin.Obj.response
         (web.NewResponse http.StatusUnprocessableEntity none (err.Error m)) }, s)
  | (req, none) =>
    match buyerService.Create req.CardNumberId req.FirstName req.LastName s with
    | ((_, some err), s1) =>
      ({ code := buyerErrorHandler err,
         obj := gin.Obj.response (web.NewResponse (buyerErrorHandler err) none (err.Error m)) },
        s1)
    | ((buyer, none), s1) =>
      ({ code := http.StatusCreated,
         obj := gin.Obj.response (web.NewResponse http.StatusCreated (some buyer) "") }, s1)

/-- The handler `buyerController.GetAll`. -/
def GetAll (m : ErrorTexts) (buyerService : BuyerService σ B Bs R Rs)
    (_ctx : gin.Context Req) (s : σ) : gin.JSON Bs × σ :=
  match buyerService.GetAll s with
  | ((_, some err), s1) =>
    ({ code := buyerErrorHandler err,
       obj := gin.Obj.response (web.NewResponse (buyerErrorHandler err) none (err.Error m)) },
      s1)
  | ((buyers, none), s1) =>
    ({ code := http.StatusOK,
       obj := gin.Obj.response (web.NewResponse http.StatusOK (some buyers) "") }, s1)

/-- The handler `buyerController.Get`. -/
def Get (m : ErrorTexts) (buyerService : BuyerService σ B Bs R Rs)
    (ctx : gin.Context Req) (s : σ) : gin.JSON B × σ :=
  match strconv.ParseUint ctx.Param_id with
  | (_, some err) => ({ code := http.StatusNotFound, obj := gin.Obj.H (err.Error m) }, s)
  | (id, none) =>
    match buyerService.Get id s with
    | ((_, some err), s1) =>
      ({ code := buyerErrorHandler err,
         obj := gin.Obj.response (web.NewResponse (buyerErrorHandler err) none (err.Error m)) },
        s1)
    | ((buyer, none), s1) =>
      ({ code := http.StatusOK,
         obj := gin.Obj.response (web.NewResponse http.StatusOK (some buyer) "") }, s1)

/-- The handler `buyerController.CountPurchaseOrdersByBuyers`.  With an `id` in the
query the parse error of `ParseUint` is discarded and the parsed value is used. -/
def CountPurchaseOrdersByBuyers (m : ErrorTexts) (buyerService : BuyerService σ B Bs R Rs)
    (ctx : gin.Context Req) (s : σ) : gin.JSON (R ⊕ Rs) × σ :=
  match ctx.Query_id with
  | some id =>
    match buyerService.CountPurchaseOrdersByBuyer (strconv.ParseUint id).1 s with
    | ((_, some err), s1) =>
      ({ code := buyerErrorHandler err,
         obj := gin.Obj.response (web.NewResponse (buyerErrorHandler err) none (err.Error m)) },
        s1)
    | ((buyers, none), s1) =>
      ({ code := http.StatusOK,
         obj := gin.Obj.response (web.NewResponse http.StatusOK (some (Sum.inl buyers)) "") },
        s1)
  | none =>
    match buyerService.CountPurchaseOrdersByBuyers s with
    | ((_, some err), s1) =>
      ({ code := buyerErrorHandler err,
         obj := gin.Obj.response (web.NewResponse (buyerErrorHandler err) none (err.Error m)) },
        s1)
    | ((buyers, none), s1) =>
      ({ code := http.StatusOK,
         obj := gin.Obj.response (web.NewResponse http.StatusOK (some (Sum.inr buyers)) "") },
        s1)

/-- The handler `buyerController.Delete`. -/
def Delete (m : ErrorTexts) (buyerService : BuyerService σ B Bs R Rs)
    (ctx : gin.Context Req) (s : σ) : gin.JSON Empty × σ :=
  match strconv.ParseUint ctx.Param_id with
  | (_, some err) => ({ code := http.StatusNotFound, obj := gin.Obj.H (err.Error m) }, s)
  | (id, none) =>
    match buyerService.Delete id s with
    | (some err, s1) =>
      ({ code := buyerErrorHandler err,
         obj := gin.Obj.response (web.NewResponse (buyerErrorHandler err) none (err.Error m)) },
        s1)
    | (none, s1) => ({ code := http.StatusNoContent, obj := gin.Obj.null }, s1)

/-- The handler `buyerController.Update`. -/
def Update (m : ErrorTexts) (buyerService : BuyerService σ B Bs R Rs)
    (ctx : gin.Context updateBuyersRequest) (s : σ) : gin.JSON B × σ :=
  match strconv.ParseUint ctx.Param_id with
  | (_, some err) => ({ code := http.StatusBadRequest, obj := gin.Obj.H (err.Error m) }, s)
  | (id, none) =>
    match updateBuyersRequest.ShouldBindJSON ctx with
    | (_, some err) =>
      ({ code := http.StatusUnprocessableEntity, obj := gin.Obj.H (err.Error m) }, s)
    | (req, none) =>
      match buyerService.Update id req.CardNumberId req.FirstName req.LastName s with
      | ((_, some err), s1) =>
        ({ code := buyerErrorHandler err,
           obj := gin.Obj.response
             (web.NewResponse (buyerErrorHandler err) none (err.Error m)) }, s1)
      | ((buyer, none), s1) =>
        ({ code := http.StatusOK,
           obj := gin.Obj.response (web.NewResponse http.StatusOK (some buyer) "") }, s1)

end buyerController

/-- One invocation of a method of the buyers service, with its arguments. -/
inductive BuyerCall where
  | Create (cardNumberId firstName lastName : String)
  | GetAll
  | Get (id : Nat)
  | CountPurchaseOrdersByBuyer (id : Nat)
  | CountPurchaseOrdersByBuyers
  | Delete (id : Nat)
  | Update (id : Nat) (cardNumberId firstName lastName : String)
  deriving DecidableEq, Repr

/-- A buyers service that behaves as `svc` and also appends every invocation to a
log kept next to the store. -/
def recordingBuyers {σ B Bs R Rs : Type} (svc : BuyerService σ B Bs R Rs) :
    BuyerService (σ × List BuyerCall) B Bs R Rs where
  Create := fun c f l st =>
    ((svc.Create c f l st.1).1, ((svc.Create c f l st.1).2, st.2 ++ [BuyerCall.Create c f l]))
  GetAll := fun st => ((svc.GetAll st.1).1, ((svc.GetAll st.1).2, st.2 ++ [BuyerCall.GetAll]))
  Get := fun id st => ((svc.Get id st.1).1, ((svc.Get id st.1).2, st.2 ++ [BuyerCall.Get id]))
  CountPurchaseOrdersByBuyer := fun id st =>
    ((svc.CountPurchaseOrdersByBuyer id st.1).1,
      ((svc.CountPurchaseOrdersByBuyer id st.1).2,
        st.2 ++ [BuyerCall.CountPurchaseOrdersByBuyer id]))
  CountPurchaseOrdersByBuyers := fun st =>
    ((svc.CountPurchaseOrdersByBuyers st.1).1,
      ((svc.CountPurchaseOrdersByBuyers st.1).2,
        st.2 ++ [BuyerCall.CountPurchaseOrdersByBuyers]))
  Delete := fun id st =>
    ((svc.Delete id st.1).1, ((svc.Delete id st.1).2, st.2 ++ [BuyerCall.Delete id]))
  Update := fun id c f l st =>
    ((svc.Update id c f l st.1).1,
      ((svc.Update id c f l st.1).2, st.2 ++ [BuyerCall.Update id c f l]))

/-! ## The employees controller (`cmd/server/controller/employees.go`) -/

/-- The record `models.Employee`, with the fields `employees/repository.go` scans. -/
structure Employee where
  Id : Nat
  CardNumberId : String
  FirstName : String
  LastName : String
  WarehouseId : Nat
  deriving DecidableEq, Repr

/-- The record `models.ReportInboundOrders`, with the fields
`employees/repository.go` scans. -/
structure ReportInboundOrders where
  Id : Nat
  CardNumberId : String
  FirstName : String
  LastName : String
  WarehouseId : Nat
  InboundOrdersCount : Nat
  deriving DecidableEq, Repr

/-- The interface `employees.EmployeeService` injected into the controller.  Its
declaration is not among the sources; the methods are the ones the handlers call,
with the record types of the employees repository. -/
structure EmployeeService (σ : Type) where
  Create : String → String → String → Nat → σ → (Employee × Option GoError) × σ
  Get : Nat → σ → (Employee × Option GoError) × σ
  Update : Nat → String → String → String → Nat → σ → (Employee × Option GoError) × σ
  GetAll : σ → (List Employee × Option GoError) × σ
  Delete : Nat → σ → Option GoError × σ
  CountInboundOrdersByEmployeeId : Nat → σ → (ReportInboundOrders × Option GoError) × σ
  CountInboundOrders : σ → (List ReportInboundOrders × Option GoError) × σ

/-- The function `employeeErrorHandler`. -/
def employeeErrorHandler (err : GoError) : Nat :=
  if err = GoError.ExistsCardNumberIdError then http.StatusConflict
  else if err = GoError.EmployeeNotFoundError then http.StatusNotFound
  else http.StatusInternalServerError

namespace EmployeeController

variable {σ Req : Type}

/-- The handler `EmployeeController.Create`. -/
def Create (m : ErrorTexts) (employeeService : EmployeeService σ)
    (ctx : gin.Context CreateEmployeeRequest) (s : σ) : gin.JSON Employee × σ :=
  match CreateEmployeeRequest.ShouldBindJSON ctx with
  | (_, some err) =>
    ({ code := http.StatusUnprocessableEntity, obj := gin.Obj.H (err.Error m) }, s)
  | (req, none) =>
    match employeeService.Create req.CardNumberId req.FirstName req.LastName
        req.WarehouseId s with
    | ((_, some err), s1) =>
      ({ code := employeeErrorHandler err,
         obj := gin.Obj.response
           (web.NewResponse (employeeErrorHandler err) none (err.Error m)) }, s1)
    | ((employee, none), s1) =>
      ({ code := http.StatusCreated,
         obj := gin.Obj.response (web.NewResponse http.StatusCreated (some employee) "") }, s1)

/-- The handler `EmployeeController.Get`. -/
def Get (m : ErrorTexts) (employeeService : EmployeeService σ)
    (ctx : gin.Context Req) (s : σ) : gin.JSON Employee × σ :=
  match strconv.ParseUint ctx.Param_id with
  | (_, some err) => ({ code := http.StatusNotFound, obj := gin.Obj.H (err.Error m) }, s)
  | (id, none) =>
    match employeeService.Get id s with
    | ((_, some err), s1) =>
      ({ code := employeeErrorHandler err,
         obj := gin.Obj.response
           (web.NewResponse (employeeErrorHandler err) none (err.Error m)) }, s1)
    | ((employee, none), s1) =>
      ({ code := http.StatusOK,
         obj := gin.Obj.response (web.NewResponse http.StatusOK (some employee) "") }, s1)

/-- The handler `EmployeeController.Update`. -/
def Update (m : ErrorTexts) (employeeService : EmployeeService σ)
    (ctx : gin.Context UpdateEmployeeRequest) (s : σ) : gin.JSON Employee × σ :=
  match strconv.ParseUint ctx.Param_id with
  | (_, some err) => ({ code := http.StatusBadRequest, obj := gin.Obj.H (err.Error m) }, s)
  | (id, none) =>
    match UpdateEmployeeRequest.ShouldBindJSON ctx with
    | (_, some err) =>
      ({ code := http.StatusUnprocessableEntity, obj := gin.Obj.H (err.Error m) }, s)
    | (req, none) =>
      match employeeService.Update id req.CardNumberId req.FirstName req.LastName
          req.WarehouseId s with
      | ((_, some err), s1) =>
        ({ code := employeeErrorHandler err,
           obj := gin.Obj.response
             (web.NewResponse (employeeErrorHandler err) none (err.Error m)) }, s1)
      | ((employee, none), s1) =>
        ({ code := http.StatusOK,
           obj := gin.Obj.response (web.NewResponse http.StatusOK (some employee) "") }, s1)

/-- The handler `EmployeeController.GetAll`. -/
def GetAll (m : ErrorTexts) (employeeService : EmployeeService σ)
    (_ctx : gin.Context Req) (s : σ) : gin.JSON (List Employee) × σ :=
  match employeeService.GetAll s with
  | ((_, some err), s1) =>
    ({ code := employeeErrorHandler err,
       obj := gin.Obj.response
         (web.NewResponse (employeeErrorHandler err) none (err.Error m)) }, s1)
  | ((employees, none), s1) =>
    ({ code := http.StatusOK,
       obj := gin.Obj.response (web.NewResponse http.StatusOK (some employees) "") }, s1)

/-- The handler `EmployeeController.Delete`. -/
def Delete (m : ErrorTexts) (employeeService : EmployeeService σ)
    (ctx : gin.Context Req) (s : σ) : gin.JSON Empty × σ :=
  match strconv.ParseUint ctx.Param_id with
  | (_, some err) => ({ code := http.StatusNotFound, obj := gin.Obj.H (err.Error m) }, s)
  | (id, none) =>
    match employeeService.Delete id s with
    | (some err, s1) =>
      ({ code := employeeErrorHandler err,
         obj := gin.Obj.response
           (web.NewResponse (employeeErrorHandler err) none (err.Error m)) }, s1)
    | (none, s1) =>
      ({ code := http.StatusNoContent,
         obj := gin.Obj.response (web.NewResponse http.StatusNoContent none "") }, s1)

/-- The handler `EmployeeController.CountInboundOrders`.  With an `id` in the query
the parse error of `ParseUint` is discarded and the parsed value is used. -/
def CountInboundOrders (m : ErrorTexts) (employeeService : EmployeeService σ)
    (ctx : gin.Context Req) (s : σ) :
    gin.JSON (ReportInboundOrders ⊕ List ReportInboundOrders) × σ :=
  match ctx.Query_id with
  | some id =>
    match employeeService.CountInboundOrdersByEmployeeId (strconv.ParseUint id).1 s with
    | ((_, some err), s1) =>
      ({ code := employeeErrorHandler err,
         obj := gin.Obj.response
           (web.NewResponse (employeeErrorHandler err) none (err.Error m)) }, s1)
    | ((report, none), s1) =>
      ({ code := http.StatusOK,
         obj := gin.Obj.response (web.NewResponse http.StatusOK (some (Sum.inl report)) "") },
        s1)
  | none =>
    match employeeService.CountInboundOrders s with
    | ((_, some err), s1) =>
      ({ code := employeeErrorHandler err,
         obj := gin.Obj.response
           (web.NewResponse (employeeErrorHandler err) none (err.Error m)) }, s1)
    | ((reports, none), s1) =>
      ({ code := http.StatusOK,
         obj := gin.Obj.response (web.NewResponse http.StatusOK (some (Sum.inr reports)) "") },
        s1)

end EmployeeController

/-- One invocation of a method of the employees service, with its arguments. -/
inductive EmployeeCall where
  | Create (cardNumberId firstName lastName : String) (warehouseId : Nat)
  | Get (id : Nat)
  | Update (id : Nat) (cardNumberId firstName lastName : String) (warehouseId : Nat)
  | GetAll
  | Delete (id : Nat)
  | CountInboundOrdersByEmployeeId (id : Nat)
  | CountInboundOrders
  deriving DecidableEq, Repr

/-- An employees service that behaves as `svc` and also appends every invocation to
a log kept next to the store. -/
def recordingEmployees {σ : Type} (svc : EmployeeService σ) :
    EmployeeService (σ × List EmployeeCall) where
  Create := fun c f l w st =>
    ((svc.Create c f l w st.1).1,
      ((svc.Create c f l w st.1).2, st.2 ++ [EmployeeCall.Create c f l w]))
  Get := fun id st => ((svc.Get id st.1).1, ((svc.Get id st.1).2, st.2 ++ [EmployeeCall.Get id]))
  Update := fun id c f l w st =>
    ((svc.Update id c f l w st.1).1,
      ((svc.Update id c f l w st.1).2, st.2 ++ [EmployeeCall.Update id c f l w]))
  GetAll := fun st =>
    ((svc.GetAll st.1).1, ((svc.GetAll st.1).2, st.2 ++ [EmployeeCall.GetAll]))
  Delete := fun id st =>
    ((svc.Delete id st.1).1, ((svc.Delete id st.1).2, st.2 ++ [EmployeeCall.Delete id]))
  CountInboundOrdersByEmployeeId := fun id st =>
    ((svc.CountInboundOrdersByEmployeeId id st.1).1,
      ((svc.CountInboundOrdersByEmployeeId id st.1).2,
        st.2 ++ [EmployeeCall.CountInboundOrdersByEmployeeId id]))
  CountInboundOrders := fun st =>
    ((svc.CountInboundOrders st.1).1,
      ((svc.CountInboundOrders st.1).2, st.2 ++ [EmployeeCall.CountInboundOrders]))

/-! ## The store of the employees repository: tables, driver calls, the two report queries -/

/-- The Go zero value `models.Employee{}`. -/
def Employee.empty : Employee :=
  { Id := 0, CardNumberId := "", FirstName := "", LastName := "", WarehouseId := 0 }

/-- The Go zero value `models.ReportInboundOrders{}`. -/
def ReportInboundOrders.empty : ReportInboundOrders :=
  { Id := 0, CardNumberId := "", FirstName := "", LastName := "", WarehouseId := 0,
    InboundOrdersCount := 0 }

/-- A row of the table `inbound_orders`, with the two columns the queries of
`employees/repository.go` read: `id` and `employee_id`. -/
structure InboundOrder where
  Id : Nat
  EmployeeId : Nat
  deriving DecidableEq, Repr

namespace sql

/-- The store behind `*sql.DB`: the table `employees` (a row is an `Employee`,
column by column), the table `inbound_orders`, the last identifier generated for an
inserted employee, and a script for the coming driver calls: the next call fails with
the error at the head of `faults` when there is one, and succeeds when the head is
`none` or the script is used up. -/
structure DB where
  employees : List Employee
  inbound_orders : List InboundOrder
  lastInsertId : Nat
  faults : List (Option GoError)
  deriving DecidableEq, Repr

/-- One call into the driver: its error, and the store with the script advanced. -/
def DB.call (db : DB) : Option GoError × DB :=
  match db.faults with
  | [] => (none, db)
  | f :: fs => (f, { db with faults := fs })

/-- The effect of `INSERT INTO employees(id_card_number, first_name, last_name,
warehouse_id) VALUES(?, ?, ?, ?)`: a row with the next generated identifier. -/
def DB.insertEmployee (db : DB) (cardNumberId firstName lastName : String)
    (wareHouseId : Nat) : DB :=
  { db with
    employees := db.employees ++
      [{ Id := db.lastInsertId + 1, CardNumberId := cardNumberId, FirstName := firstName,
         LastName := lastName, WarehouseId := wareHouseId }]
    lastInsertId := db.lastInsertId + 1 }

/-- The rows that a LEFT JOIN on `employees.id = inbound_orders.employee_id` yields
for one employee: the employee paired with each of its orders, or with NULL columns
(`none`) when it has no order. -/
def joinRows (orders : List InboundOrder) (e : Employee) :
    List (Employee × Option InboundOrder) :=
  match orders.filter (fun o => decide (o.EmployeeId = e.Id)) with
  | [] => [(e, none)]
  | o :: os => (o :: os).map (fun x => (e, some x))

/-- The rows of `employees LEFT JOIN inbound_orders ON employees.id =
inbound_orders.employee_id`. -/
def leftJoin (employees : List Employee) (orders : List InboundOrder) :
    List (Employee × Option InboundOrder) :=
  employees.flatMap (joinRows orders)

/-- The distinct values of a list, in the order of their first occurrence. -/
def distinct : List Nat → List Nat
  | [] => []
  | k :: ks => k :: (distinct ks).filter (fun x => !decide (x = k))

/-- The groups of `GROUP BY employees.id`: one group per distinct `employees.id`,
holding the rows with that id. -/
def groupByEmployeeId (rows : List (Employee × Option InboundOrder)) :
    List (List (Employee × Option InboundOrder)) :=
  (distinct (rows.map (fun r => r.1.Id))).map
    (fun k => rows.filter (fun r => decide (r.1.Id = k)))

/-- The aggregate `COUNT(inbound_orders.id)` over a group: the number of rows whose
`inbound_orders.id` is not NULL. -/
def countOrderId (group : List (Employee × Option InboundOrder)) : Nat :=
  (group.filter (fun r => r.2.isSome)).length

/-- The select list `employees.id, id_card_number, first_name, last_name,
employees.warehouse_id, COUNT(inbound_orders.id)` over a group: the employee columns
are read from the first row of the group. -/
def selectReport (group : List (Employee × Option InboundOrder)) : List ReportInboundOrders :=
  match group with
  | [] => []
  | (e, _) :: _ =>
    [{ Id := e.Id, CardNumberId := e.CardNumberId, FirstName := e.FirstName,
       LastName := e.LastName, WarehouseId := e.WarehouseId,
       InboundOrdersCount := countOrderId group }]

/-- The result set of the query of `CountInboundOrders`. -/
def DB.queryCountInboundOrders (db : DB) : List ReportInboundOrders :=
  (groupByEmployeeId (leftJoin db.employees db.inbound_orders)).flatMap selectReport

/-- The result set of the query of `CountInboundOrdersByEmployeeId`: the same query
with `WHERE employees.id = ?` applied to the joined rows before the grouping. -/
def DB.queryCountInboundOrdersByEmployeeId (db : DB) (id : Nat) : List ReportInboundOrders :=
  (groupByEmployeeId
    ((leftJoin db.employees db.inbound_orders).filter (fun r => decide (r.1.Id = id)))).flatMap
    selectReport

/-- The loop over a result set: `for stmt.Next()`, with one `stmt.Scan` and one
`append` per row.  `Next` and `Scan` are driver calls.  When `Next` fails it returns false: the loop
ends and the rows read so far are returned with a nil error, because the source does
not read `stmt.Err()`.  When `Scan` fails the results are dropped and its error is
returned. -/
def scanRows {α : Type} : List α → List α → DB → (List α × Option GoError) × DB
  | [], acc, db => ((acc, none), (db.call).2)
  | row :: rest, acc, db =>
    match db.call with
    | (some _, db1) => ((acc, none), db1)
    | (none, db1) =>
      match db1.call with
      | (some err, db2) => (([], some err), db2)
      | (none, db2) => scanRows rest (acc ++ [row]) db2

/-- The report row the aggregation is meant to give for an employee: the fields of
the employee and the number of inbound orders whose `employee_id` is its id. -/
def expectedReport (orders : List InboundOrder) (e : Employee) : ReportInboundOrders :=
  { Id := e.Id, CardNumberId := e.CardNumberId, FirstName := e.FirstName,
    LastName := e.LastName, WarehouseId := e.WarehouseId,
    InboundOrdersCount := (orders.filter (fun o => decide (o.EmployeeId = e.Id))).length }

/-- The primary key of the table `employees`: no two rows share an id. -/
def DB.uniqueEmployeeIds (db : DB) : Prop :=
  (db.employees.map (fun e => e.Id)).Nodup

instance (db : DB) : Decidable db.uniqueEmployeeIds := by
  unfold DB.uniqueEmployeeIds; infer_instance

end sql

/-! ## The employees repository (`internal/employees/repository.go`) -/

namespace employeeRepository

/-- The method `employeeRepository.Create`.  The driver calls are `Prepare`, `Exec`
and `LastInsertId`; the error of `LastInsertId` is discarded by the source, and the
identifier read is then zero. -/
def Create (cardNumberId firstName lastName : String) (wareHouseId : Nat) (db : sql.DB) :
    (Employee × Option GoError) × sql.DB :=
  match db.call with
  | (some err, db1) => ((Employee.empty, some err), db1)
  | (none, db1) =>
    match db1.call with
    | (some err, db2) => ((Employee.empty, some err), db2)
    | (none, db2) =>
      match (db2.insertEmployee cardNumberId firstName lastName wareHouseId).call with
      | (some _, db3) =>
        (({ Id := 0, CardNumberId := cardNumberId, FirstName := firstName,
            LastName := lastName, WarehouseId := wareHouseId }, none), db3)
      | (none, db3) =>
        (({ Id := db3.lastInsertId, CardNumberId := cardNumberId, FirstName := firstName,
            LastName := lastName, WarehouseId := wareHouseId }, none), db3)

/-- The method `employeeRepository.CountInboundOrdersByEmployeeId`.  `QueryRow` keeps
the error of the query for `Scan`, which is the one driver call that reports; on an
empty result set `Scan` returns `sql.ErrNoRows`, otherwise it reads the first row. -/
def CountInboundOrdersByEmployeeId (id : Nat) (db : sql.DB) :
    (ReportInboundOrders × Option GoError) × sql.DB :=
  match db.call with
  | (some err, db1) => ((ReportInboundOrders.empty, some err), db1)
  | (none, db1) =>
    match db1.queryCountInboundOrdersByEmployeeId id with
    | [] => ((ReportInboundOrders.empty, some GoError.ErrNoRows), db1)
    | report :: _ => ((report, none), db1)

/-- The method `employeeRepository.CountInboundOrders`. -/
def CountInboundOrders (db : sql.DB) : (List ReportInboundOrders × Option GoError) × sql.DB :=
  match db.call with
  | (some err, db1) => (([], some err), db1)
  | (none, db1) => sql.scanRows db1.queryCountInboundOrders [] db1

/-- The method `employeeRepository.Get`: `QueryRow` of `SELECT ... FROM employees
WHERE id = ?` and its `Scan`, the one driver call that reports; on an empty result
set `Scan` returns `sql.ErrNoRows`, otherwise it reads the first row. -/
def Get (id : Nat) (db : sql.DB) : (Employee × Option GoError) × sql.DB :=
  match db.call with
  | (some err, db1) => ((Employee.empty, some err), db1)
  | (none, db1) =>
    match db1.employees.filter (fun e => decide (e.Id = id)) with
    | [] => ((Employee.empty, some GoError.ErrNoRows), db1)
    | myEmployee :: _ => ((myEmployee, none), db1)

/-- The method `employeeRepository.GetAll`: `Query` of `SELECT ... FROM employees`,
then the scan loop over its rows. -/
def GetAll (db : sql.DB) : (List Employee × Option GoError) × sql.DB :=
  match db.call with
  | (some err, db1) => (([], some err), db1)
  | (none, db1) => sql.scanRows db1.employees [] db1

/-- The method `employeeRepository.Update`.  The driver calls are `Prepare` and
`Exec`; the statement sets the four columns of the rows `WHERE id = ?`, and the record
handed in is returned. -/
def Update (updatedEmployee : Employee) (db : sql.DB) : (Employee × Option GoError) × sql.DB :=
  match db.call with
  | (some err, db1) => ((Employee.empty, some err), db1)
  | (none, db1) =>
    match db1.call with
    | (some err, db2) => ((Employee.empty, some err), db2)
    | (none, db2) =>
      ((updatedEmployee, none),
        { db2 with
          employees := db2.employees.map (fun r =>
            if r.Id = updatedEmployee.Id then
              { r with CardNumberId := updatedEmployee.CardNumberId,
                       FirstName := updatedEmployee.FirstName,
                       LastName := updatedEmployee.LastName,
                       WarehouseId := updatedEmployee.WarehouseId }
            else r) })

/-- The method `employeeRepository.Delete`.  The driver calls are `Prepare` and
`Exec`; the statement `DELETE FROM employees WHERE id = ?` removes the rows with the
id, and the number of rows it removed is not read.  No constraint between the tables
is part of the store, so the table `inbound_orders` is left as it is. -/
def Delete (id : Nat) (db : sql.DB) : Option GoError × sql.DB :=
  match db.call with
  | (some err, db1) => (some err, db1)
  | (none, db1) =>
    match db1.call with
    | (some err, db2) => (some err, db2)
    | (none, db2) =>
      (none, { db2 with employees := db2.employees.filter (fun e => !decide (e.Id = id)) })

/-- The method `employeeRepository.ExistsEmployeeCardNumberId`: `Query` of `SELECT ...
FROM employees WHERE id_card_number = ?`, then a loop that returns inside its first
round.  The driver calls are `Query`, `Next` and `Scan`; when `Next` returns false,
at the end of the rows or on a failure that the source does not read, the answer is
false with a nil error. -/
def ExistsEmployeeCardNumberId (cardNumberId : String) (db : sql.DB) :
    (Bool × Option GoError) × sql.DB :=
  match db.call with
  | (some err, db1) => ((false, some err), db1)
  | (none, db1) =>
    match db1.employees.filter (fun e => decide (e.CardNumberId = cardNumberId)) with
    | [] => ((false, none), (db1.call).2)
    | _ :: _ =>
      match db1.call with
      | (some _, db2) => ((false, none), db2)
      | (none, db2) =>
        match db2.call with
        | (some err, db3) => ((false, some err), db3)
        | (none, db3) => ((true, none), db3)

/-- The method `employeeRepository.ExistsEmployee`, whose only result is a bool:
`QueryRow` of `SELECT EXISTS(SELECT ID from employees WHERE id = ?)` and its `Scan`
into `result`, which starts at zero; the error of `Scan` is not read, so on a failure
`result` stays zero. -/
def ExistsEmployee (id : Nat) (db : sql.DB) : Bool × sql.DB :=
  match db.call with
  | (some _, db1) => (false, db1)
  | (none, db1) =>
    if (if db1.employees.any (fun e => decide (e.Id = id)) then 1 else 0) = 0 then (false, db1)
    else (true, db1)

end employeeRepository

/-- A sample store: three employees, the second without orders. -/
def sampleDB : sql.DB :=
  { employees :=
      [{ Id := 1, CardNumberId := "E-77", FirstName := "Ana", LastName := "Lima",
         WarehouseId := 2 },
       { Id := 2, CardNumberId := "E-78", FirstName := "Rui", LastName := "Sa",
         WarehouseId := 2 },
       { Id := 5, CardNumberId := "E-79", FirstName := "Eva", LastName := "Reis",
         WarehouseId := 1 }]
    inbound_orders :=
      [{ Id := 10, EmployeeId := 1 }, { Id := 11, EmployeeId := 5 },
       { Id := 12, EmployeeId := 1 }, { Id := 13, EmployeeId := 9 }]
    lastInsertId := 5
    faults := [] }

/-! ## Stand-in services, in the manner of the mocks of the controller tests -/

/-- A buyers service that answers every call with the fixed results and the fixed
error, and counts the calls in its store. -/
def mockBuyerService {B Bs R Rs : Type} (result : B) (results : Bs) (report : R)
    (reports : Rs) (err : Option GoError) : BuyerService Nat B Bs R Rs where
  Create := fun _ _ _ n => ((result, err), n + 1)
  GetAll := fun n => ((results, err), n + 1)
  Get := fun _ n => ((result, err), n + 1)
  CountPurchaseOrdersByBuyer := fun _ n => ((report, err), n + 1)
  CountPurchaseOrdersByBuyers := fun n => ((reports, err), n + 1)
  Delete := fun _ n => (err, n + 1)
  Update := fun _ _ _ _ n => ((result, err), n + 1)

/-- An employees service that answers every call with the fixed results and the
fixed error, and counts the calls in its store. -/
def mockEmployeeService (result : Employee) (results : List Employee)
    (report : ReportInboundOrders) (reports : List ReportInboundOrders)
    (err : Option GoError) : EmployeeService Nat where
  Create := fun _ _ _ _ n => ((result, err), n + 1)
  Get := fun _ n => ((result, err), n + 1)
  Update := fun _ _ _ _ _ n => ((result, err), n + 1)
  GetAll := fun n => ((results, err), n + 1)
  Delete := fun _ n => (err, n + 1)
  CountInboundOrdersByEmployeeId := fun _ n => ((report, err), n + 1)
  CountInboundOrders := fun n => ((reports, err), n + 1)

/-- A sample employee. -/
def sampleEmployee : Employee :=
  { Id := 1, CardNumberId := "E-77", FirstName := "Ana", LastName := "Lima", WarehouseId := 2 }

/-- A sample inbound-orders report row. -/
def sampleReport : ReportInboundOrders :=
  { Id := 1, CardNumberId := "E-77", FirstName := "Ana", LastName := "Lima", WarehouseId := 2,
    InboundOrdersCount := 3 }

/-- Sample message texts. -/
def sampleTexts : ErrorTexts :=
  { BuyerNotFoundError := "buyer not found"
    ExistsBuyerCardNumberIdError := "buyer card number id already exists"
    EmployeeNotFoundError := "employee not found"
    ExistsCardNumberIdError := "employee card number id already exists"
    NumError := fun num outOfRange =>
      "strconv.ParseUint: parsing " ++ num ++
        (if outOfRange then ": value out of range" else ": invalid syntax")
    ValidationErrors := fun structName fields =>
      structName ++ ": required " ++ String.intercalate ", " fields }

/-- A sample request for the buyers handlers: path id `12`, a complete body. -/
def sampleBuyerCreate : gin.Context createBuyersRequest :=
  { Param_id := "12", Query_id := none,
    body := gin.Decoded.value { CardNumberId := "B-1", FirstName := "Rui", LastName := "Sa" } }

/-- A sample PATCH request for the buyers handlers: path id `12`, one field set. -/
def sampleBuyerUpdate : gin.Context updateBuyersRequest :=
  { Param_id := "12", Query_id := none,
    body := gin.Decoded.value { CardNumberId := "", FirstName := "Rui", LastName := "" } }

/-- A sample request without a body: path id `12`. -/
def sampleIdRequest : gin.Context Unit :=
  { Param_id := "12", Query_id := none, body := gin.Decoded.value () }

/-- A sample request for the employees Create handler. -/
def sampleEmployeeCreate : gin.Context CreateEmployeeRequest :=
  { Param_id := "12", Query_id := none,
    body := gin.Decoded.value
      { CardNumberId := "E-77", FirstName := "Ana", LastName := "Lima", WarehouseId := 2 } }

/-- A sample PATCH request for the employees handlers. -/
def sampleEmployeeUpdate : gin.Context UpdateEmployeeRequest :=
  { Param_id := "12", Query_id := none,
    body := gin.Decoded.value
      { CardNumberId := "", FirstName := "", LastName := "Lima", WarehouseId := 0 } }

/-- A sample request with an `id` in the query that is not a number. -/
def sampleBadQuery : gin.Context Unit :=
  { Param_id := "", Query_id := some "abc", body := gin.Decoded.value () }

/-- A sample request with an `id` in the query. -/
def sampleQuery : gin.Context Unit :=
  { Param_id := "", Query_id := some "12", body := gin.Decoded.value () }

/-- A sample request without an `id` in the query. -/
def sampleNoQuery : gin.Context Unit :=
  { Param_id := "", Query_id := none, body := gin.Decoded.value () }

/-- A sample request whose path id is not a number. -/
def sampleBadId : gin.Context Unit :=
  { Param_id := "abc", Query_id := none, body := gin.Decoded.value () }

/-- A sample PATCH request for the buyers handlers whose path id is not a number. -/
def sampleBuyerUpdateBadId : gin.Context updateBuyersRequest :=
  { Param_id := "1x", Query_id := none,
    body := gin.Decoded.value { CardNumberId := "", FirstName := "Rui", LastName := "" } }

/-- A sample PATCH request for the employees handlers whose path id is out of range. -/
def sampleEmployeeUpdateBadId : gin.Context UpdateEmployeeRequest :=
  { Param_id := "18446744073709551616", Query_id := none,
    body := gin.Decoded.value
      { CardNumberId := "", FirstName := "", LastName := "Lima", WarehouseId := 0 } }

/-- A warehouses repository over the table whose `Update` always fails with a driver
error; the other methods are those of `tableRepository`. -/
def brokenUpdateRepository : WarehouseRepository WarehouseTable :=
  { tableRepository with
    Update := fun _ t => ((Warehouse.empty, some (GoError.other "driver: bad connection")), t) }

/-- A sample request for the employees Create handler without a warehouse id. -/
def sampleEmployeeCreateNoWarehouse : gin.Context CreateEmployeeRequest :=
  { Param_id := "", Query_id := none,
    body := gin.Decoded.value
      { CardNumberId := "E-77", FirstName := "Ana", LastName := "Lima", WarehouseId := 0 } }

/-- The sample store with a script in which the first driver call fails. -/
def sampleDBFirstCallFails : sql.DB :=
  { sampleDB with faults := [some (GoError.other "driver: bad connection")] }

/-- The sample store with a script in which the second driver call fails. -/
def sampleDBSecondCallFails : sql.DB :=
  { sampleDB with faults := [none, some (GoError.other "driver: bad connection")] }

/-- The sample store with a script in which the third driver call fails. -/
def sampleDBThirdCallFails : sql.DB :=
  { sampleDB with faults := [none, none, some (GoError.other "driver: bad connection")] }

/-- The sample store with a script in which the fifth driver call fails: in a scan
loop that is the `Scan` of the second row. -/
def sampleDBFifthCallFails : sql.DB :=
  { sampleDB with
    faults := [none, none, none, none, some (GoError.other "driver: bad connection")] }

/-! ## The route table (`cmd/server/main.go`) -/

namespace gin

/-- A route registered on the engine: the HTTP method, the base path of the router
group it is registered on (empty for a route registered on the engine itself), the
relative path, and the handler, by name. -/
structure RouteInfo where
  Method : String
  group : String
  path : String
  handler : String
  deriving DecidableEq, Repr

/-- The `*gin.Engine` as far as `main.go` uses it: the router groups created and the
routes registered so far. -/
structure Engine where
  groups : List String
  routes : List RouteInfo
  deriving DecidableEq, Repr

/-- The engine `gin.Default()` starts with: no group, no route. -/
def Default : Engine := { groups := [], routes := [] }

/-- The call `server.Group(relativePath)`. -/
def Engine.Group (server : Engine) (relativePath : String) : Engine :=
  { server with groups := server.groups ++ [relativePath] }

/-- The registration of one route on a group. -/
def Engine.Handle (server : Engine) (method group relativePath handler : String) : Engine :=
  { server with
    routes := server.routes ++
      [{ Method := method, group := group, path := relativePath, handler := handler }] }

/-- The call `group.GET(relativePath, handler)`. -/
def Engine.GET (server : Engine) (group relativePath handler : String) : Engine :=
  server.Handle "GET" group relativePath handler

/-- The call `group.POST(relativePath, handler)`. -/
def Engine.POST (server : Engine) (group relativePath handler : String) : Engine :=
  server.Handle "POST" group relativePath handler

/-- The call `group.PATCH(relativePath, handler)`. -/
def Engine.PATCH (server : Engine) (group relativePath handler : String) : Engine :=
  server.Handle "PATCH" group relativePath handler

/-- The call `group.DELETE(relativePath, handler)`. -/
def Engine.DELETE (server : Engine) (group relativePath handler : String) : Engine :=
  server.Handle "DELETE" group relativePath handler

/-- Whether a route with the method and the relative path is registered on the
group. -/
def Engine.registers (server : Engine) (group method relativePath : String) : Bool :=
  server.routes.any (fun r =>
    decide (r.Method = method) && decide (r.group = group) && decide (r.path = relativePath))

/-- Whether the group registers all five routes of the common shape: `GET /`,
`GET /:id`, `POST /`, `PATCH /:id` and `DELETE /:id`. -/
def Engine.registersAllFive (server : Engine) (group : String) : Bool :=
  server.registers group "GET" "/" && server.registers group "GET" "/:id" &&
    server.registers group "POST" "/" && server.registers group "PATCH" "/:id" &&
    server.registers group "DELETE" "/:id"

/-- The routes registered on a group, as pairs of method and relative path. -/
def Engine.routesOf (server : Engine) (group : String) : List (String × String) :=
  (server.routes.filter (fun r => decide (r.group = group))).map (fun r => (r.Method, r.path))

end gin

/-- The function `carriersHandlers`. -/
def carriersHandlers (server : gin.Engine) : gin.Engine :=
  server.Group "/api/v1/carries"
    |>.GET "/api/v1/carries" "/reportCarries" "carrierController.GetAllCarrierInfo"
    |>.POST "/api/v1/carries" "/" "carrierController.Create"

/-- The function `sellersHandlers`. -/
def sellersHandlers (server : gin.Engine) : gin.Engine :=
  server.Group "/api/v1/sellers"
    |>.GET "/api/v1/sellers" "/" "sellerController.FindAll"
    |>.GET "/api/v1/sellers" "/:id" "sellerController.FindOne"
    |>.POST "/api/v1/sellers" "/" "sellerController.Create"
    |>.PATCH "/api/v1/sellers" "/:id" "sellerController.Update"
    |>.DELETE "/api/v1/sellers" "/:id" "sellerController.Delete"

/-- The function `warehousesHandlers`. -/
def warehousesHandlers (server : gin.Engine) : gin.Engine :=
  server.Group "/api/v1/warehouses"
    |>.GET "/api/v1/warehouses" "/" "warehouseController.GetAll"
    |>.GET "/api/v1/warehouses" "/:id" "warehouseController.Get"
    |>.POST "/api/v1/warehouses" "/" "warehouseController.Create"
    |>.PATCH "/api/v1/warehouses" "/:id" "warehouseController.Update"
    |>.DELETE "/api/v1/warehouses" "/:id" "warehouseController.Delete"

/-- The function `productHandlers`. -/
def productHandlers (server : gin.Engine) : gin.Engine :=
  server.Group "/api/v1/products"
    |>.GET "/api/v1/products" "/" "productHandler.GetAll"
    |>.GET "/api/v1/products" "/:id" "productHandler.Get"
    |>.GET "/api/v1/products" "/reportrecords" "productHandler.GetAllReportRecords"
    |>.POST "/api/v1/products" "/" "productHandler.Create"
    |>.PATCH "/api/v1/products" "/:id" "productHandler.Update"
    |>.DELETE "/api/v1/products" "/:id" "productHandler.Delete"

/-- The function `productRecordsHandlers`. -/
def productRecordsHandlers (server : gin.Engine) : gin.Engine :=
  server.Group "/api/v1/productRecords"
    |>.POST "/api/v1/productRecords" "/" "productRecordsHandler.Create"

/-- The function `sectionHandlers`. -/
def sectionHandlers (server : gin.Engine) : gin.Engine :=
  server.Group "/api/v1/sections"
    |>.GET "/api/v1/sections" "/" "sectionHandler.GetAll"
    |>.GET "/api/v1/sections" "/:id" "sectionHandler.Get"
    |>.POST "/api/v1/sections" "/" "sectionHandler.Create"
    |>.PATCH "/api/v1/sections" "/:id" "sectionHandler.Update"
    |>.DELETE "/api/v1/sections" "/:id" "sectionHandler.Delete"

/-- The function `employeeHandlers`. -/
def employeeHandlers (server : gin.Engine) : gin.Engine :=
  server.Group "/api/v1/employees"
    |>.GET "/api/v1/employees" "/" "employeeHandler.GetAll"
    |>.POST "/api/v1/employees" "/" "employeeHandler.Create"
    |>.DELETE "/api/v1/employees" "/:id" "employeeHandler.Delete"
    |>.GET "/api/v1/employees" "/:id" "employeeHandler.Get"
    |>.PATCH "/api/v1/employees" "/:id" "employeeHandler.Update"
    |>.GET "/api/v1/employees" "/reportInboundOrders" "employeeHandler.CountInboundOrders"

/-- The function `inboundOrderHandlers`. -/
def inboundOrderHandlers (server : gin.Engine) : gin.Engine :=
  server.Group "/api/v1/inboundOrders"
    |>.POST "/api/v1/inboundOrders" "/" "cInboundOrders.Create"

/-- The function `buyerHandlers`. -/
def buyerHandlers (server : gin.Engine) : gin.Engine :=
  server.Group "/api/v1/buyers"
    |>.GET "/api/v1/buyers" "/reportPurchaseOrders" "cBuyers.CountPurchaseOrdersByBuyers"
    |>.GET "/api/v1/buyers" "/" "cBuyers.GetAll"
    |>.GET "/api/v1/buyers" "/:id" "cBuyers.Get"
    |>.POST "/api/v1/buyers" "/" "cBuyers.Create"
    |>.PATCH "/api/v1/buyers" "/:id" "cBuyers.Update"
    |>.DELETE "/api/v1/buyers" "/:id" "cBuyers.Delete"

/-- The function `localitiesHandlers`. -/
def localitiesHandlers (server : gin.Engine) : gin.Engine :=
  server.Group "/api/v1/localities"
    |>.POST "/api/v1/localities" "/" "localityController.Create"
    |>.GET "/api/v1/localities" "/reportSellers" "localityController.GetLocalityInfo"

/-- The function `productBatchesHandlers`; its last route is registered on the
engine itself, not on a group. -/
def productBatchesHandlers (server : gin.Engine) : gin.Engine :=
  server.Group "/api/v1/productBatches"
    |>.POST "/api/v1/productBatches" "/" "batchesController.Create"
    |>.GET "" "/api/v1/sections/reportProducts" "batchesController.CountProductsBySections"

/-- The function `purchaseOrdersHandlers`. -/
def purchaseOrdersHandlers (server : gin.Engine) : gin.Engine :=
  server.Group "/api/v1/"
    |>.POST "/api/v1/" "/purchaseOrders" "purchaseOrderHandler.Create"

/-- The route registrations of the function `main`, in its order. -/
def main : gin.Engine :=
  gin.Default
    |> sellersHandlers
    |> warehousesHandlers
    |> sectionHandlers
    |> productHandlers
    |> buyerHandlers
    |> employeeHandlers
    |> inboundOrderHandlers
    |> localitiesHandlers
    |> carriersHandlers
    |> productBatchesHandlers
    |> productRecordsHandlers
    |> purchaseOrdersHandlers

/-! ## Properties of the merge and of the table -/

theorem mergeLeaf_override {α : Type} (isEmpty : α → Bool) (dst src : α) :
    mergeLeaf isEmpty dst src = if isEmpty src then dst else src := by
  unfold mergeLeaf mustSet
  cases isEmpty src <;> simp

theorem mergeLeaf_self {α : Type} (isEmpty : α → Bool) (v : α) :
    mergeLeaf isEmpty v v = v := by
  rw [mergeLeaf_override]; split <;> rfl

theorem mergeLeaf_empty_src {α : Type} (isEmpty : α → Bool) (dst src : α)
    (h : isEmpty src = true) : mergeLeaf isEmpty dst src = dst := by
  rw [mergeLeaf_override, h]; rfl

theorem find_of_mem_unique (rows : List Warehouse) (w : Warehouse) (hw : w ∈ rows)
    (hu : (rows.map (fun r => r.Id)).Nodup) :
    rows.find? (fun r => decide (r.Id = w.Id)) = some w := by
  induction rows with
  | nil => cases hw
  | cons r rs ih =>
    rw [List.map_cons, List.nodup_cons] at hu
    rcases List.mem_cons.mp hw with h | h
    · subst h; simp
    · have hne : r.Id ≠ w.Id := by
        intro he
        apply hu.1
        rw [he]
        exact List.mem_map.mpr ⟨w, h, rfl⟩
      rw [List.find?_cons_of_neg _ (by simpa using hne)]
      exact ih h hu.2

theorem replace_self_of_unique (rows : List Warehouse) (w : Warehouse) (hw : w ∈ rows)
    (hu : (rows.map (fun r => r.Id)).Nodup) :
    rows.map (fun r => if r.Id = w.Id then w else r) = rows := by
  induction rows with
  | nil => rfl
  | cons r rs ih =>
    rw [List.map_cons, List.nodup_cons] at hu
    rcases List.mem_cons.mp hw with h | h
    · subst h
      have hrest : ∀ x ∈ rs, (if x.Id = w.Id then w else x) = x := by
        intro x hx
        have : x.Id ≠ w.Id := by
          intro he
          apply hu.1
          rw [← he]
          exact List.mem_map.mpr ⟨x, hx, rfl⟩
        simp [this]
      simp only [List.map_cons, if_true]
      congr 1
      calc rs.map (fun r => if r.Id = w.Id then w else r) = rs.map id :=
            List.map_congr_left (fun x hx => hrest x hx)
        _ = rs := List.map_id rs
    · have hne : r.Id ≠ w.Id := by
        intro he
        apply hu.1
        rw [he]
        exact List.mem_map.mpr ⟨w, h, rfl⟩
      simp only [List.map_cons, if_neg hne]
      rw [ih h hu.2]

/-! ## The warehouses service: theorems -/

/-- C1. Update merge law: when repository `Get id` returns the stored record `w`, the
code lookup reports the payload code as unused, and repository `Update` succeeds on
the record it is handed (storing and returning it), then `warehouseService.Update`
calls `Get`, the lookup and `Update` once each, the record it persists is the one it
returns, and each of Code, Address, Telephone, MinimunCapacity and
MinimumTemperature of that record is the payload value when that value is non-zero
and the prior value of `w` when the payload value is zero. -/
theorem update_merge_law {σ : Type} (repo : WarehouseRepository σ) (id : Nat)
    (code address telephone : String) (minimumCapacity : Nat)
    (minimumTemperature : float32) (w : Warehouse) (s s1 s2 s3 : σ)
    (hGet : repo.Get id s = ((w, none), s1))
    (hCode : repo.ExistsWarehouseCode code s1 = ((false, none), s2))
    (hUpdate : repo.Update
        (mergoMergeWithOverride w
          (warehouseService.updatedWarehouse id code address telephone minimumCapacity
            minimumTemperature)) s2 =
      ((mergoMergeWithOverride w
          (warehouseService.updatedWarehouse id code address telephone minimumCapacity
            minimumTemperature), none), s3)) :
    ∃ m : Warehouse,
      warehouseService.Update repo id code address telephone minimumCapacity
          minimumTemperature s = ((m, none), s3) ∧
      (warehouseService.Update (recording repo) id code address telephone minimumCapacity
          minimumTemperature (s, [])).2.2 =
        [RepoCall.Get id, RepoCall.ExistsWarehouseCode code, RepoCall.Update m] ∧
      m.Code = (if code = "" then w.Code else code) ∧
      m.Address = (if address = "" then w.Address else address) ∧
      m.Telephone = (if telephone = "" then w.Telephone else telephone) ∧
      m.MinimunCapacity = (if minimumCapacity = 0 then w.MinimunCapacity else minimumCapacity) ∧
      m.MinimumTemperature =
        (if minimumTemperature.isZero = true then w.MinimumTemperature
         else minimumTemperature) := by
  refine ⟨mergoMergeWithOverride w
    (warehouseService.updatedWarehouse id code address telephone minimumCapacity
      minimumTemperature), ?_, ?_, ?_, ?_, ?_, ?_, ?_⟩
  · simp only [warehouseService.Update, hGet, hCode, hUpdate]
    simp
  · simp only [warehouseService.Update, recording, hGet, hCode, hUpdate]
    simp
  all_goals
    simp only [mergoMergeWithOverride, warehouseService.updatedWarehouse, mergeLeaf_override,
      isEmptyString, isEmptyUint, isEmptyFloat, decide_eq_true_eq]

/-- The merge law of C1 at the sample table: the payload changes the address and the
capacity of warehouse 1 and leaves the other fields at their zero values. -/
theorem update_merge_law_witness :
    ∃ m : Warehouse,
      warehouseService.Update tableRepository 1 "" "Rua C, 30" "" 9 { bits := 0 } sampleTable =
        ((m, none),
          { rows := [{ sampleWarehouse with Address := "Rua C, 30", MinimunCapacity := 9 },
                     otherWarehouse], lastInsertId := 2 }) ∧
      (warehouseService.Update (recording tableRepository) 1 "" "Rua C, 30" "" 9 { bits := 0 }
          (sampleTable, [])).2.2 =
        [RepoCall.Get 1, RepoCall.ExistsWarehouseCode "", RepoCall.Update m] ∧
      m.Code = (if "" = "" then sampleWarehouse.Code else "") ∧
      m.Address = (if "Rua C, 30" = "" then sampleWarehouse.Address else "Rua C, 30") ∧
      m.Telephone = (if "" = "" then sampleWarehouse.Telephone else "") ∧
      m.MinimunCapacity = (if 9 = 0 then sampleWarehouse.MinimunCapacity else 9) ∧
      m.MinimumTemperature =
        (if float32.isZero { bits := 0 } = true then sampleWarehouse.MinimumTemperature
         else { bits := 0 }) :=
  update_merge_law tableRepository 1 "" "Rua C, 30" "" 9 { bits := 0 } sampleWarehouse
    sampleTable sampleTable sampleTable
    { rows := [{ sampleWarehouse with Address := "Rua C, 30", MinimunCapacity := 9 },
               otherWarehouse], lastInsertId := 2 }
    (by decide) (by decide) (by decide)

/-- C2, as stated, fails: at the sample table, repeating the current record of
warehouse 1 (its own code included) as the payload of `Update` does not succeed; the
call answers `ExistsWarehouseCodeError` with an empty record, because the lookup of
the code finds the record itself. -/
theorem update_repeat_conflict :
    sampleWarehouse ∈ sampleTable.rows ∧ sampleTable.uniqueIds ∧
    warehouseService.Update tableRepository sampleWarehouse.Id sampleWarehouse.Code
        sampleWarehouse.Address sampleWarehouse.Telephone sampleWarehouse.MinimunCapacity
        sampleWarehouse.MinimumTemperature sampleTable =
      ((Warehouse.empty, some GoError.ExistsWarehouseCodeError), sampleTable) ∧
    (warehouseService.Update tableRepository sampleWarehouse.Id sampleWarehouse.Code
        sampleWarehouse.Address sampleWarehouse.Telephone sampleWarehouse.MinimunCapacity
        sampleWarehouse.MinimumTemperature sampleTable).1 ≠ (sampleWarehouse, none) := by
  decide

/-- C2, amended. For every table with unique ids and every stored warehouse `w`:
(a) `Update` with the id of `w` and a payload that repeats the address, telephone,
minimum capacity and minimum temperature of `w` and leaves the code empty succeeds,
returns `w` and leaves the table unchanged, provided no stored record has the empty
code; (b) the same call with the current code of `w` in the payload is refused with
`ExistsWarehouseCodeError` and an empty record, and the table is unchanged too. -/
theorem update_repeat_noop (t : WarehouseTable) (w : Warehouse) (hw : w ∈ t.rows)
    (hu : t.uniqueIds) :
    ((∀ r ∈ t.rows, r.Code ≠ "") →
      warehouseService.Update tableRepository w.Id "" w.Address w.Telephone
        w.MinimunCapacity w.MinimumTemperature t = ((w, none), t)) ∧
    warehouseService.Update tableRepository w.Id w.Code w.Address w.Telephone
        w.MinimunCapacity w.MinimumTemperature t =
      ((Warehouse.empty, some GoError.ExistsWarehouseCodeError), t) := by
  have hfind := find_of_mem_unique t.rows w hw hu
  constructor
  · intro hcodes
    have hany : t.rows.any (fun r => decide (r.Code = "")) = false := by
      rw [List.any_eq_false]
      intro r hr
      simpa using hcodes r hr
    have hmerge : mergoMergeWithOverride w
        (warehouseService.updatedWarehouse w.Id "" w.Address w.Telephone w.MinimunCapacity
          w.MinimumTemperature) = w := by
      simp only [mergoMergeWithOverride, warehouseService.updatedWarehouse, mergeLeaf_self]
      rw [mergeLeaf_empty_src isEmptyString w.Code "" (by decide),
        mergeLeaf_empty_src isEmptyString w.LocalityId "" (by decide)]
    simp only [warehouseService.Update, tableRepository, warehouseRepository.Get,
      warehouseRepository.ExistsWarehouseCode, warehouseRepository.Update, hfind, hany,
      hmerge, replace_self_of_unique t.rows w hw hu]
    simp
  · have hany : t.rows.any (fun r => decide (r.Code = w.Code)) = true := by
      rw [List.any_eq_true]
      exact ⟨w, hw, by simp⟩
    simp only [warehouseService.Update, tableRepository, warehouseRepository.Get,
      warehouseRepository.ExistsWarehouseCode, hfind, hany]
    simp

/-- The amended C2 at the sample table and its first warehouse. -/
theorem update_repeat_noop_witness :
    sampleWarehouse ∈ sampleTable.rows ∧ sampleTable.uniqueIds ∧
    (∀ r ∈ sampleTable.rows, r.Code ≠ "") ∧
    warehouseService.Update tableRepository sampleWarehouse.Id "" sampleWarehouse.Address
        sampleWarehouse.Telephone sampleWarehouse.MinimunCapacity
        sampleWarehouse.MinimumTemperature sampleTable = ((sampleWarehouse, none), sampleTable) ∧
    warehouseService.Update tableRepository sampleWarehouse.Id sampleWarehouse.Code
        sampleWarehouse.Address sampleWarehouse.Telephone sampleWarehouse.MinimunCapacity
        sampleWarehouse.MinimumTemperature sampleTable =
      ((Warehouse.empty, some GoError.ExistsWarehouseCodeError), sampleTable) :=
  ⟨by decide, by decide, by decide,
    (update_repeat_noop sampleTable sampleWarehouse (by decide) (by decide)).1 (by decide),
    (update_repeat_noop sampleTable sampleWarehouse (by decide) (by decide)).2⟩

/-- C3. When the lookup `ExistsWarehouseCode code` reports the code as already used,
`warehouseService.Create` returns `ExistsWarehouseCodeError` with an empty Warehouse,
the store is the one the lookup left, and the lookup is the only repository method
invoked: repository `Create` is never called. -/
theorem create_conflict {σ : Type} (repo : WarehouseRepository σ)
    (code address telephone : String) (minimumCapacity : Nat)
    (minimumTemperature : float32) (localityId : String) (s s1 : σ)
    (hCode : repo.ExistsWarehouseCode code s = ((true, none), s1)) :
    warehouseService.Create repo code address telephone minimumCapacity minimumTemperature
        localityId s = ((Warehouse.empty, some GoError.ExistsWarehouseCodeError), s1) ∧
    (warehouseService.Create (recording repo) code address telephone minimumCapacity
        minimumTemperature localityId (s, [])).2.2 = [RepoCall.ExistsWarehouseCode code] := by
  constructor
  · simp only [warehouseService.Create, hCode]
    simp
  · simp only [warehouseService.Create, recording, hCode]
    simp

/-- C3 at the sample table: creating a warehouse with the code of a stored one. -/
theorem create_conflict_witness :
    warehouseService.Create tableRepository "W2" "Rua D, 40" "1177" 3 { bits := 0 } "6702"
        sampleTable = ((Warehouse.empty, some GoError.ExistsWarehouseCodeError), sampleTable) ∧
    (warehouseService.Create (recording tableRepository) "W2" "Rua D, 40" "1177" 3 { bits := 0 }
        "6702" (sampleTable, [])).2.2 = [RepoCall.ExistsWarehouseCode "W2"] :=
  create_conflict tableRepository "W2" "Rua D, 40" "1177" 3 { bits := 0 } "6702" sampleTable
    sampleTable (by decide)

/-- C4. When the lookup `ExistsWarehouseCode code` succeeds and reports the code as
unused, `warehouseService.Create` returns exactly the result (record, error and store)
of repository `Create` applied to the same code, address, telephone, minimum capacity,
minimum temperature and locality id, and repository `Create` is invoked exactly once,
after the lookup, with those arguments. -/
theorem create_delegates {σ : Type} (repo : WarehouseRepository σ)
    (code address telephone : String) (minimumCapacity : Nat)
    (minimumTemperature : float32) (localityId : String) (s s1 : σ)
    (hCode : repo.ExistsWarehouseCode code s = ((false, none), s1)) :
    warehouseService.Create repo code address telephone minimumCapacity minimumTemperature
        localityId s =
      repo.Create code address telephone minimumCapacity minimumTemperature localityId s1 ∧
    (warehouseService.Create (recording repo) code address telephone minimumCapacity
        minimumTemperature localityId (s, [])).2.2 =
      [RepoCall.ExistsWarehouseCode code,
       RepoCall.Create code address telephone minimumCapacity minimumTemperature localityId] := by
  constructor
  · simp only [warehouseService.Create, hCode]
    simp
  · simp only [warehouseService.Create, recording, hCode]
    simp

/-- C4 at the sample table: creating a warehouse with a fresh code. -/
theorem create_delegates_witness :
    warehouseService.Create tableRepository "W3" "Rua D, 40" "1177" 3 { bits := 0 } "6702"
        sampleTable =
      tableRepository.Create "W3" "Rua D, 40" "1177" 3 { bits := 0 } "6702" sampleTable ∧
    (warehouseService.Create (recording tableRepository) "W3" "Rua D, 40" "1177" 3 { bits := 0 }
        "6702" (sampleTable, [])).2.2 =
      [RepoCall.ExistsWarehouseCode "W3",
       RepoCall.Create "W3" "Rua D, 40" "1177" 3 { bits := 0 } "6702"] :=
  create_delegates tableRepository "W3" "Rua D, 40" "1177" 3 { bits := 0 } "6702" sampleTable
    sampleTable (by decide)

/-- C5. When repository `Get id` fails (with whatever error), `warehouseService.Get`
and `warehouseService.Update` both return `WarehouseNotFoundError` with an empty
Warehouse, whatever the payload; `Update` invokes no repository method other than
that `Get`: neither the code lookup nor repository `Update` runs, so the answer is
NotFound even for a payload whose code is in use. -/
theorem get_update_not_found {σ : Type} (repo : WarehouseRepository σ) (id : Nat)
    (code address telephone : String) (minimumCapacity : Nat)
    (minimumTemperature : float32) (s : σ)
    (hGet : (repo.Get id s).1.2 ≠ none) :
    warehouseService.Get repo id s =
      ((Warehouse.empty, some GoError.WarehouseNotFoundError), (repo.Get id s).2) ∧
    warehouseService.Update repo id code address telephone minimumCapacity
        minimumTemperature s =
      ((Warehouse.empty, some GoError.WarehouseNotFoundError), (repo.Get id s).2) ∧
    (warehouseService.Update (recording repo) id code address telephone minimumCapacity
        minimumTemperature (s, [])).2.2 = [RepoCall.Get id] := by
  rcases hres : repo.Get id s with ⟨⟨found, err⟩, s1⟩
  rw [hres] at hGet
  cases err with
  | none => exact absurd rfl hGet
  | some e =>
    refine ⟨?_, ?_, ?_⟩
    · simp only [warehouseService.Get, hres]
    · simp only [warehouseService.Update, hres]
    · simp only [warehouseService.Update, recording, hres]
      simp

/-- C5 at the sample table: id 7 is not stored, and the payload carries the code of
a stored warehouse. -/
theorem get_update_not_found_witness :
    warehouseService.Get tableRepository 7 sampleTable =
      ((Warehouse.empty, some GoError.WarehouseNotFoundError),
        (tableRepository.Get 7 sampleTable).2) ∧
    warehouseService.Update tableRepository 7 "W1" "Rua E, 50" "" 0 { bits := 0 } sampleTable =
      ((Warehouse.empty, some GoError.WarehouseNotFoundError),
        (tableRepository.Get 7 sampleTable).2) ∧
    (warehouseService.Update (recording tableRepository) 7 "W1" "Rua E, 50" "" 0 { bits := 0 }
        (sampleTable, [])).2.2 = [RepoCall.Get 7] :=
  get_update_not_found tableRepository 7 "W1" "Rua E, 50" "" 0 { bits := 0 } sampleTable
    (by decide)

/-- C6. `warehouseService.Delete` hands back the repository's answer as it is, for
every repository; over the table repository, for every id that no stored record has,
`warehouseService.Delete id` fails with `WarehouseNotFoundError` and the table is
unchanged. -/
theorem delete_not_found (t : WarehouseTable) (id : Nat)
    (habsent : ∀ r ∈ t.rows, r.Id ≠ id) :
    (∀ (σ : Type) (repo : WarehouseRepository σ) (s : σ),
      warehouseService.Delete repo id s = repo.Delete id s) ∧
    warehouseService.Delete tableRepository id t =
      (some GoError.WarehouseNotFoundError, t) := by
  refine ⟨fun _ _ _ => rfl, ?_⟩
  have hany : t.rows.any (fun r => decide (r.Id = id)) = false := by
    rw [List.any_eq_false]
    intro r hr
    simpa using habsent r hr
  simp only [warehouseService.Delete, tableRepository, warehouseRepository.Delete, hany]
  simp

/-- C6 at the sample table: id 7 is not stored. -/
theorem delete_not_found_witness :
    (∀ r ∈ sampleTable.rows, r.Id ≠ 7) ∧
    warehouseService.Delete tableRepository 7 sampleTable =
      (some GoError.WarehouseNotFoundError, sampleTable) :=
  ⟨by decide, (delete_not_found sampleTable 7 (by decide)).2⟩

/-- C7. When repository `Get id` returns a stored record and the lookup
`ExistsWarehouseCode` reports the payload code as already used,
`warehouseService.Update` returns `ExistsWarehouseCodeError` with an empty Warehouse,
the store is the one the two lookups left, and `Get` and the lookup are the only
repository methods invoked: repository `Update` is never called. -/
theorem update_conflict {σ : Type} (repo : WarehouseRepository σ) (id : Nat)
    (code address telephone : String) (minimumCapacity : Nat)
    (minimumTemperature : float32) (w : Warehouse) (s s1 s2 : σ)
    (hGet : repo.Get id s = ((w, none), s1))
    (hCode : repo.ExistsWarehouseCode code s1 = ((true, none), s2)) :
    warehouseService.Update repo id code address telephone minimumCapacity
        minimumTemperature s =
      ((Warehouse.empty, some GoError.ExistsWarehouseCodeError), s2) ∧
    (warehouseService.Update (recording repo) id code address telephone minimumCapacity
        minimumTemperature (s, [])).2.2 =
      [RepoCall.Get id, RepoCall.ExistsWarehouseCode code] := by
  constructor
  · simp only [warehouseService.Update, hGet, hCode]
    simp
  · simp only [warehouseService.Update, recording, hGet, hCode]
    simp

/-- C7 at the sample table: warehouse 1 is asked to take the code of warehouse 2. -/
theorem update_conflict_witness :
    warehouseService.Update tableRepository 1 "W2" "Rua F, 60" "" 0 { bits := 0 } sampleTable =
      ((Warehouse.empty, some GoError.ExistsWarehouseCodeError), sampleTable) ∧
    (warehouseService.Update (recording tableRepository) 1 "W2" "Rua F, 60" "" 0 { bits := 0 }
        (sampleTable, [])).2.2 =
      [RepoCall.Get 1, RepoCall.ExistsWarehouseCode "W2"] :=
  update_conflict tableRepository 1 "W2" "Rua F, 60" "" 0 { bits := 0 } sampleWarehouse
    sampleTable sampleTable sampleTable (by decide) (by decide)

/-! ## The controllers: theorems -/

theorem createBuyers_bind_error_iff (ctx : gin.Context createBuyersRequest) :
    (createBuyersRequest.ShouldBindJSON ctx).2 ≠ none ↔
      (∃ e, ctx.body = gin.Decoded.failure e) ∨
      (∃ req, ctx.body = gin.Decoded.value req ∧
        (req.CardNumberId = "" ∨ req.FirstName = "" ∨ req.LastName = "")) := by
  rcases ctx with ⟨p, q, body⟩
  cases body with
  | failure e => simp [createBuyersRequest.ShouldBindJSON, ShouldBindJSON]
  | value req =>
    simp only [createBuyersRequest.ShouldBindJSON, ShouldBindJSON, requiredString]
    by_cases h1 : req.CardNumberId = "" <;> by_cases h2 : req.FirstName = "" <;>
      by_cases h3 : req.LastName = "" <;> simp [h1, h2, h3]

theorem createEmployee_bind_error_iff (ctx : gin.Context CreateEmployeeRequest) :
    (CreateEmployeeRequest.ShouldBindJSON ctx).2 ≠ none ↔
      (∃ e, ctx.body = gin.Decoded.failure e) ∨
      (∃ req, ctx.body = gin.Decoded.value req ∧
        (req.CardNumberId = "" ∨ req.FirstName = "" ∨ req.LastName = "" ∨
          req.WarehouseId = 0)) := by
  rcases ctx with ⟨p, q, body⟩
  cases body with
  | failure e => simp [CreateEmployeeRequest.ShouldBindJSON, ShouldBindJSON]
  | value req =>
    simp only [CreateEmployeeRequest.ShouldBindJSON, ShouldBindJSON, requiredString,
      requiredUint]
    by_cases h1 : req.CardNumberId = "" <;> by_cases h2 : req.FirstName = "" <;>
      by_cases h3 : req.LastName = "" <;> by_cases h4 : req.WarehouseId = 0 <;>
      simp [h1, h2, h3, h4]


/-- C8. Status mapping of service errors: for every error value `e`,
`buyerErrorHandler e` is 404 when `e` is `BuyerNotFoundError`, 409 when `e` is
`ExistsBuyerCardNumberIdError` and 500 for every other error, and
`employeeErrorHandler e` is 404 when `e` is `EmployeeNotFoundError`, 409 when `e` is
`ExistsCardNumberIdError` and 500 for every other error. -/
theorem error_handler_status (e : GoError) :
    buyerErrorHandler e =
      (if e = GoError.BuyerNotFoundError then 404
       else if e = GoError.ExistsBuyerCardNumberIdError then 409 else 500) ∧
    employeeErrorHandler e =
      (if e = GoError.EmployeeNotFoundError then 404
       else if e = GoError.ExistsCardNumberIdError then 409 else 500) := by
  constructor
  · simp only [buyerErrorHandler, http.StatusNotFound, http.StatusConflict,
      http.StatusInternalServerError]
  · simp only [employeeErrorHandler, http.StatusNotFound, http.StatusConflict,
      http.StatusInternalServerError]
    by_cases h1 : e = GoError.ExistsCardNumberIdError
    · subst h1; simp
    · by_cases h2 : e = GoError.EmployeeNotFoundError
      · subst h2; simp
      · simp [h1, h2]

/-- C9. For every Create request whose body fails the binding (a decoding error or a
required field at its zero value), the buyers controller and the employees
controller both answer with status 422, the store is untouched, and no method of the
service is invoked. -/
theorem create_unprocessable {σ τ B Bs R Rs : Type} (m : ErrorTexts)
    (buyerService : BuyerService σ B Bs R Rs) (employeeService : EmployeeService τ)
    (ctxB : gin.Context createBuyersRequest) (ctxE : gin.Context CreateEmployeeRequest)
    (s : σ) (t : τ)
    (hB : (createBuyersRequest.ShouldBindJSON ctxB).2 ≠ none)
    (hE : (CreateEmployeeRequest.ShouldBindJSON ctxE).2 ≠ none) :
    ((buyerController.Create m buyerService ctxB s).1.code = 422 ∧
      (buyerController.Create m buyerService ctxB s).2 = s ∧
      (buyerController.Create m (recordingBuyers buyerService) ctxB (s, [])).2.2 = []) ∧
    ((EmployeeController.Create m employeeService ctxE t).1.code = 422 ∧
      (EmployeeController.Create m employeeService ctxE t).2 = t ∧
      (EmployeeController.Create m (recordingEmployees employeeService) ctxE (t, [])).2.2
        = []) := by
  constructor
  · rcases hres : createBuyersRequest.ShouldBindJSON ctxB with ⟨req, err⟩
    rw [hres] at hB
    cases err with
    | none => exact absurd rfl hB
    | some e =>
      simp only [buyerController.Create, hres, http.StatusUnprocessableEntity]
      simp
  · rcases hres : CreateEmployeeRequest.ShouldBindJSON ctxE with ⟨req, err⟩
    rw [hres] at hE
    cases err with
    | none => exact absurd rfl hE
    | some e =>
      simp only [EmployeeController.Create, hres, http.StatusUnprocessableEntity]
      simp

/-- C9 on two requests: a buyer without a last name and an employee without a
warehouse id, sent to services that would accept anything. -/
theorem create_unprocessable_witness :
    ((buyerController.Create sampleTexts
        (mockBuyerService "b" ["b"] (0 : Nat) [(0 : Nat)] none)
        { Param_id := "", Query_id := none,
          body := gin.Decoded.value { CardNumberId := "B-1", FirstName := "Rui", LastName := "" } }
        0).1.code = 422 ∧
      (buyerController.Create sampleTexts
        (mockBuyerService "b" ["b"] (0 : Nat) [(0 : Nat)] none)
        { Param_id := "", Query_id := none,
          body := gin.Decoded.value { CardNumberId := "B-1", FirstName := "Rui", LastName := "" } }
        0).2 = 0 ∧
      (buyerController.Create sampleTexts
        (recordingBuyers (mockBuyerService "b" ["b"] (0 : Nat) [(0 : Nat)] none))
        { Param_id := "", Query_id := none,
          body := gin.Decoded.value { CardNumberId := "B-1", FirstName := "Rui", LastName := "" } }
        (0, [])).2.2 = []) ∧
    ((EmployeeController.Create sampleTexts
        (mockEmployeeService sampleEmployee [] sampleReport [] none)
        { Param_id := "", Query_id := none,
          body := gin.Decoded.value
            { CardNumberId := "E-77", FirstName := "Ana", LastName := "Lima", WarehouseId := 0 } }
        0).1.code = 422 ∧
      (EmployeeController.Create sampleTexts
        (mockEmployeeService sampleEmployee [] sampleReport [] none)
        { Param_id := "", Query_id := none,
          body := gin.Decoded.value
            { CardNumberId := "E-77", FirstName := "Ana", LastName := "Lima", WarehouseId := 0 } }
        0).2 = 0 ∧
      (EmployeeController.Create sampleTexts
        (recordingEmployees (mockEmployeeService sampleEmployee [] sampleReport [] none))
        { Param_id := "", Query_id := none,
          body := gin.Decoded.value
            { CardNumberId := "E-77", FirstName := "Ana", LastName := "Lima", WarehouseId := 0 } }
        (0, [])).2.2 = []) :=
  create_unprocessable sampleTexts (mockBuyerService "b" ["b"] (0 : Nat) [(0 : Nat)] none)
    (mockEmployeeService sampleEmployee [] sampleReport [] none)
    { Param_id := "", Query_id := none,
      body := gin.Decoded.value { CardNumberId := "B-1", FirstName := "Rui", LastName := "" } }
    { Param_id := "", Query_id := none,
      body := gin.Decoded.value
        { CardNumberId := "E-77", FirstName := "Ana", LastName := "Lima", WarehouseId := 0 } }
    0 0 (by decide) (by decide)

/-- C10. For every well-formed request (the path id parses, the body binds) and every
value `v` the service returns with a nil error, the buyers and the employees
controllers answer 201 from Create and 200 from Get, GetAll and Update, each with the
envelope whose status is the response status, whose data is exactly `v` and whose
error string is empty; the store is the one the service left. -/
theorem success_envelope {σ τ B Bs R Rs : Type} (m : ErrorTexts)
    (buyerService : BuyerService σ B Bs R Rs) (employeeService : EmployeeService τ)
    (s : σ) (t : τ) :
    (∀ (ctx : gin.Context createBuyersRequest) (req : createBuyersRequest) (v : B) (s1 : σ),
      createBuyersRequest.ShouldBindJSON ctx = (req, none) →
      buyerService.Create req.CardNumberId req.FirstName req.LastName s = ((v, none), s1) →
      buyerController.Create m buyerService ctx s =
        ({ code := 201,
           obj := gin.Obj.response { status := 201, data := some v, error := "" } }, s1)) ∧
    (∀ (ctx : gin.Context Unit) (id : Nat) (v : B) (s1 : σ),
      strconv.ParseUint ctx.Param_id = (id, none) →
      buyerService.Get id s = ((v, none), s1) →
      buyerController.Get m buyerService ctx s =
        ({ code := 200,
           obj := gin.Obj.response { status := 200, data := some v, error := "" } }, s1)) ∧
    (∀ (ctx : gin.Context Unit) (v : Bs) (s1 : σ),
      buyerService.GetAll s = ((v, none), s1) →
      buyerController.GetAll m buyerService ctx s =
        ({ code := 200,
           obj := gin.Obj.response { status := 200, data := some v, error := "" } }, s1)) ∧
    (∀ (ctx : gin.Context updateBuyersRequest) (id : Nat) (req : updateBuyersRequest) (v : B)
        (s1 : σ),
      strconv.ParseUint ctx.Param_id = (id, none) →
      updateBuyersRequest.ShouldBindJSON ctx = (req, none) →
      buyerService.Update id req.CardNumberId req.FirstName req.LastName s = ((v, none), s1) →
      buyerController.Update m buyerService ctx s =
        ({ code := 200,
           obj := gin.Obj.response { status := 200, data := some v, error := "" } }, s1)) ∧
    (∀ (ctx : gin.Context CreateEmployeeRequest) (req : CreateEmployeeRequest) (v : Employee)
        (t1 : τ),
      CreateEmployeeRequest.ShouldBindJSON ctx = (req, none) →
      employeeService.Create req.CardNumberId req.FirstName req.LastName req.WarehouseId t =
        ((v, none), t1) →
      EmployeeController.Create m employeeService ctx t =
        ({ code := 201,
           obj := gin.Obj.response { status := 201, data := some v, error := "" } }, t1)) ∧
    (∀ (ctx : gin.Context Unit) (id : Nat) (v : Employee) (t1 : τ),
      strconv.ParseUint ctx.Param_id = (id, none) →
      employeeService.Get id t = ((v, none), t1) →
      EmployeeController.Get m employeeService ctx t =
        ({ code := 200,
           obj := gin.Obj.response { status := 200, data := some v, error := "" } }, t1)) ∧
    (∀ (ctx : gin.Context Unit) (v : List Employee) (t1 : τ),
      employeeService.GetAll t = ((v, none), t1) →
      EmployeeController.GetAll m employeeService ctx t =
        ({ code := 200,
           obj := gin.Obj.response { status := 200, data := some v, error := "" } }, t1)) ∧
    (∀ (ctx : gin.Context UpdateEmployeeRequest) (id : Nat) (req : UpdateEmployeeRequest)
        (v : Employee) (t1 : τ),
      strconv.ParseUint ctx.Param_id = (id, none) →
      UpdateEmployeeRequest.ShouldBindJSON ctx = (req, none) →
      employeeService.Update id req.CardNumberId req.FirstName req.LastName req.WarehouseId t =
        ((v, none), t1) →
      EmployeeController.Update m employeeService ctx t =
        ({ code := 200,
           obj := gin.Obj.response { status := 200, data := some v, error := "" } }, t1)) := by
  refine ⟨?_, ?_, ?_, ?_, ?_, ?_, ?_, ?_⟩
  · intro ctx req v s1 hb hs
    simp only [buyerController.Create, hb, hs, web.NewResponse, http.StatusCreated]
  · intro ctx id v s1 hp hs
    simp only [buyerController.Get, hp, hs, web.NewResponse, http.StatusOK]
  · intro ctx v s1 hs
    simp only [buyerController.GetAll, hs, web.NewResponse, http.StatusOK]
  · intro ctx id req v s1 hp hb hs
    simp only [buyerController.Update, hp, hb, hs, web.NewResponse, http.StatusOK]
  · intro ctx req v t1 hb hs
    simp only [EmployeeController.Create, hb, hs, web.NewResponse, http.StatusCreated]
  · intro ctx id v t1 hp hs
    simp only [EmployeeController.Get, hp, hs, web.NewResponse, http.StatusOK]
  · intro ctx v t1 hs
    simp only [EmployeeController.GetAll, hs, web.NewResponse, http.StatusOK]
  · intro ctx id req v t1 hp hb hs
    simp only [EmployeeController.Update, hp, hb, hs, web.NewResponse, http.StatusOK]

/-- C10 on the sample requests, with services that answer a fixed value and a nil
error. -/
theorem success_envelope_witness :
    buyerController.Create sampleTexts (mockBuyerService "b" ["b"] (0 : Nat) [(0 : Nat)] none)
        sampleBuyerCreate 0 =
      ({ code := 201,
         obj := gin.Obj.response { status := 201, data := some "b", error := "" } }, 1) ∧
    buyerController.Get sampleTexts (mockBuyerService "b" ["b"] (0 : Nat) [(0 : Nat)] none)
        sampleIdRequest 0 =
      ({ code := 200,
         obj := gin.Obj.response { status := 200, data := some "b", error := "" } }, 1) ∧
    buyerController.GetAll sampleTexts (mockBuyerService "b" ["b"] (0 : Nat) [(0 : Nat)] none)
        sampleIdRequest 0 =
      ({ code := 200,
         obj := gin.Obj.response { status := 200, data := some ["b"], error := "" } }, 1) ∧
    buyerController.Update sampleTexts (mockBuyerService "b" ["b"] (0 : Nat) [(0 : Nat)] none)
        sampleBuyerUpdate 0 =
      ({ code := 200,
         obj := gin.Obj.response { status := 200, data := some "b", error := "" } }, 1) ∧
    EmployeeController.Create sampleTexts
        (mockEmployeeService sampleEmployee [sampleEmployee] sampleReport [] none)
        sampleEmployeeCreate 0 =
      ({ code := 201,
         obj := gin.Obj.response { status := 201, data := some sampleEmployee, error := "" } },
        1) ∧
    EmployeeController.Get sampleTexts
        (mockEmployeeService sampleEmployee [sampleEmployee] sampleReport [] none)
        sampleIdRequest 0 =
      ({ code := 200,
         obj := gin.Obj.response { status := 200, data := some sampleEmployee, error := "" } },
        1) ∧
    EmployeeController.GetAll sampleTexts
        (mockEmployeeService sampleEmployee [sampleEmployee] sampleReport [] none)
        sampleIdRequest 0 =
      ({ code := 200,
         obj := gin.Obj.response
           { status := 200, data := some [sampleEmployee], error := "" } }, 1) ∧
    EmployeeController.Update sampleTexts
        (mockEmployeeService sampleEmployee [sampleEmployee] sampleReport [] none)
        sampleEmployeeUpdate 0 =
      ({ code := 200,
         obj := gin.Obj.response { status := 200, data := some sampleEmployee, error := "" } },
        1) :=
  have h := success_envelope sampleTexts
    (mockBuyerService "b" ["b"] (0 : Nat) [(0 : Nat)] none)
    (mockEmployeeService sampleEmployee [sampleEmployee] sampleReport [] none) 0 0
  ⟨h.1 sampleBuyerCreate { CardNumberId := "B-1", FirstName := "Rui", LastName := "Sa" } "b" 1
      (by decide) rfl,
    h.2.1 sampleIdRequest 12 "b" 1 (by decide) rfl,
    h.2.2.1 sampleIdRequest ["b"] 1 rfl,
    h.2.2.2.1 sampleBuyerUpdate 12 { CardNumberId := "", FirstName := "Rui", LastName := "" }
      "b" 1 (by decide) (by decide) rfl,
    h.2.2.2.2.1 sampleEmployeeCreate
      { CardNumberId := "E-77", FirstName := "Ana", LastName := "Lima", WarehouseId := 2 }
      sampleEmployee 1 (by decide) rfl,
    h.2.2.2.2.2.1 sampleIdRequest 12 sampleEmployee 1 (by decide) rfl,
    h.2.2.2.2.2.2.1 sampleIdRequest [sampleEmployee] 1 rfl,
    h.2.2.2.2.2.2.2 sampleEmployeeUpdate 12
      { CardNumberId := "", FirstName := "", LastName := "Lima", WarehouseId := 0 }
      sampleEmployee 1 (by decide) (by decide) rfl⟩

/-! ## The controllers: service errors, Delete, the shape of the bodies -/

theorem buyerErrorHandler_bodyAllowed (e : GoError) :
    gin.bodyAllowedForStatus (buyerErrorHandler e) = true := by
  unfold buyerErrorHandler
  split
  · decide
  · split <;> decide

theorem employeeErrorHandler_bodyAllowed (e : GoError) :
    gin.bodyAllowedForStatus (employeeErrorHandler e) = true := by
  unfold employeeErrorHandler
  split
  · decide
  · split <;> decide

/-- C11. For every well-formed request (the path id parses, the body binds) to
Create, Get, GetAll, Update or Delete of the buyers and of the employees controller,
when the service returns the error `e` the response status is the error handler of
the module applied to `e`, and the object handed to `ctx.JSON` is the envelope with
that status, null data and the message of `e` as its error string; that status
always allows a body, so the envelope is what is written. -/
theorem service_error_envelope {σ τ B Bs R Rs : Type} (m : ErrorTexts)
    (buyerService : BuyerService σ B Bs R Rs) (employeeService : EmployeeService τ)
    (s : σ) (t : τ) (e : GoError) :
    (∀ (ctx : gin.Context createBuyersRequest) (req : createBuyersRequest) (v : B) (s1 : σ),
      createBuyersRequest.ShouldBindJSON ctx = (req, none) →
      buyerService.Create req.CardNumberId req.FirstName req.LastName s = ((v, some e), s1) →
      buyerController.Create m buyerService ctx s =
        ({ code := buyerErrorHandler e,
           obj := gin.Obj.response
             { status := buyerErrorHandler e, data := none, error := e.Error m } }, s1)) ∧
    (∀ (ctx : gin.Context Unit) (id : Nat) (v : B) (s1 : σ),
      strconv.ParseUint ctx.Param_id = (id, none) →
      buyerService.Get id s = ((v, some e), s1) →
      buyerController.Get m buyerService ctx s =
        ({ code := buyerErrorHandler e,
           obj := gin.Obj.response
             { status := buyerErrorHandler e, data := none, error := e.Error m } }, s1)) ∧
    (∀ (ctx : gin.Context Unit) (v : Bs) (s1 : σ),
      buyerService.GetAll s = ((v, some e), s1) →
      buyerController.GetAll m buyerService ctx s =
        ({ code := buyerErrorHandler e,
           obj := gin.Obj.response
             { status := buyerErrorHandler e, data := none, error := e.Error m } }, s1)) ∧
    (∀ (ctx : gin.Context updateBuyersRequest) (id : Nat) (req : updateBuyersRequest) (v : B)
        (s1 : σ),
      strconv.ParseUint ctx.Param_id = (id, none) →
      updateBuyersRequest.ShouldBindJSON ctx = (req, none) →
      buyerService.Update id req.CardNumberId req.FirstName req.LastName s =
        ((v, some e), s1) →
      buyerController.Update m buyerService ctx s =
        ({ code := buyerErrorHandler e,
           obj := gin.Obj.response
             { status := buyerErrorHandler e, data := none, error := e.Error m } }, s1)) ∧
    (∀ (ctx : gin.Context Unit) (id : Nat) (s1 : σ),
      strconv.ParseUint ctx.Param_id = (id, none) →
      buyerService.Delete id s = (some e, s1) →
      buyerController.Delete m buyerService ctx s =
        ({ code := buyerErrorHandler e,
           obj := gin.Obj.response
             { status := buyerErrorHandler e, data := none, error := e.Error m } }, s1)) ∧
    (∀ (ctx : gin.Context CreateEmployeeRequest) (req : CreateEmployeeRequest) (v : Employee)
        (t1 : τ),
      CreateEmployeeRequest.ShouldBindJSON ctx = (req, none) →
      employeeService.Create req.CardNumberId req.FirstName req.LastName req.WarehouseId t =
        ((v, some e), t1) →
      EmployeeController.Create m employeeService ctx t =
        ({ code := employeeErrorHandler e,
           obj := gin.Obj.response
             { status := employeeErrorHandler e, data := none, error := e.Error m } }, t1)) ∧
    (∀ (ctx : gin.Context Unit) (id : Nat) (v : Employee) (t1 : τ),
      strconv.ParseUint ctx.Param_id = (id, none) →
      employeeService.Get id t = ((v, some e), t1) →
      EmployeeController.Get m employeeService ctx t =
        ({ code := employeeErrorHandler e,
           obj := gin.Obj.response
             { status := employeeErrorHandler e, data := none, error := e.Error m } }, t1)) ∧
    (∀ (ctx : gin.Context Unit) (v : List Employee) (t1 : τ),
      employeeService.GetAll t = ((v, some e), t1) →
      EmployeeController.GetAll m employeeService ctx t =
        ({ code := employeeErrorHandler e,
           obj := gin.Obj.response
             { status := employeeErrorHandler e, data := none, error := e.Error m } }, t1)) ∧
    (∀ (ctx : gin.Context UpdateEmployeeRequest) (id : Nat) (req : UpdateEmployeeRequest)
        (v : Employee) (t1 : τ),
      strconv.ParseUint ctx.Param_id = (id, none) →
      UpdateEmployeeRequest.ShouldBindJSON ctx = (req, none) →
      employeeService.Update id req.CardNumberId req.FirstName req.LastName req.WarehouseId t =
        ((v, some e), t1) →
      EmployeeController.Update m employeeService ctx t =
        ({ code := employeeErrorHandler e,
           obj := gin.Obj.response
             { status := employeeErrorHandler e, data := none, error := e.Error m } }, t1)) ∧
    (∀ (ctx : gin.Context Unit) (id : Nat) (t1 : τ),
      strconv.ParseUint ctx.Param_id = (id, none) →
      employeeService.Delete id t = (some e, t1) →
      EmployeeController.Delete m employeeService ctx t =
        ({ code := employeeErrorHandler e,
           obj := gin.Obj.response
             { status := employeeErrorHandler e, data := none, error := e.Error m } }, t1)) ∧
    gin.bodyAllowedForStatus (buyerErrorHandler e) = true ∧
    gin.bodyAllowedForStatus (employeeErrorHandler e) = true := by
  refine ⟨?_, ?_, ?_, ?_, ?_, ?_, ?_, ?_, ?_, ?_, buyerErrorHandler_bodyAllowed e,
    employeeErrorHandler_bodyAllowed e⟩
  · intro ctx req v s1 hb hs
    simp only [buyerController.Create, hb, hs, web.NewResponse]
  · intro ctx id v s1 hp hs
    simp only [buyerController.Get, hp, hs, web.NewResponse]
  · intro ctx v s1 hs
    simp only [buyerController.GetAll, hs, web.NewResponse]
  · intro ctx id req v s1 hp hb hs
    simp only [buyerController.Update, hp, hb, hs, web.NewResponse]
  · intro ctx id s1 hp hs
    simp only [buyerController.Delete, hp, hs, web.NewResponse]
  · intro ctx req v t1 hb hs
    simp only [EmployeeController.Create, hb, hs, web.NewResponse]
  · intro ctx id v t1 hp hs
    simp only [EmployeeController.Get, hp, hs, web.NewResponse]
  · intro ctx v t1 hs
    simp only [EmployeeController.GetAll, hs, web.NewResponse]
  · intro ctx id req v t1 hp hb hs
    simp only [EmployeeController.Update, hp, hb, hs, web.NewResponse]
  · intro ctx id t1 hp hs
    simp only [EmployeeController.Delete, hp, hs, web.NewResponse]

/-- C11 on the sample requests, with services that answer every call with the error
`EmployeeNotFoundError`: the employees controller answers 404, the buyers controller,
for which that value is no sentinel of its own, answers 500. -/
theorem service_error_envelope_witness :
    buyerController.Create sampleTexts
        (mockBuyerService "b" ["b"] (0 : Nat) [(0 : Nat)]
          (some GoError.EmployeeNotFoundError))
        sampleBuyerCreate 0 =
      ({ code := 500,
         obj := gin.Obj.response
           { status := 500, data := none, error := "employee not found" } }, 1) ∧
    buyerController.Get sampleTexts
        (mockBuyerService "b" ["b"] (0 : Nat) [(0 : Nat)]
          (some GoError.EmployeeNotFoundError))
        sampleIdRequest 0 =
      ({ code := 500,
         obj := gin.Obj.response
           { status := 500, data := none, error := "employee not found" } }, 1) ∧
    buyerController.GetAll sampleTexts
        (mockBuyerService "b" ["b"] (0 : Nat) [(0 : Nat)]
          (some GoError.EmployeeNotFoundError))
        sampleIdRequest 0 =
      ({ code := 500,
         obj := gin.Obj.response
           { status := 500, data := none, error := "employee not found" } }, 1) ∧
    buyerController.Update sampleTexts
        (mockBuyerService "b" ["b"] (0 : Nat) [(0 : Nat)]
          (some GoError.EmployeeNotFoundError))
        sampleBuyerUpdate 0 =
      ({ code := 500,
         obj := gin.Obj.response
           { status := 500, data := none, error := "employee not found" } }, 1) ∧
    buyerController.Delete sampleTexts
        (mockBuyerService "b" ["b"] (0 : Nat) [(0 : Nat)]
          (some GoError.EmployeeNotFoundError))
        sampleIdRequest 0 =
      ({ code := 500,
         obj := gin.Obj.response
           { status := 500, data := none, error := "employee not found" } }, 1) ∧
    EmployeeController.Create sampleTexts
        (mockEmployeeService sampleEmployee [sampleEmployee] sampleReport []
          (some GoError.EmployeeNotFoundError))
        sampleEmployeeCreate 0 =
      ({ code := 404,
         obj := gin.Obj.response
           { status := 404, data := none, error := "employee not found" } }, 1) ∧
    EmployeeController.Get sampleTexts
        (mockEmployeeService sampleEmployee [sampleEmployee] sampleReport []
          (some GoError.EmployeeNotFoundError))
        sampleIdRequest 0 =
      ({ code := 404,
         obj := gin.Obj.response
           { status := 404, data := none, error := "employee not found" } }, 1) ∧
    EmployeeController.GetAll sampleTexts
        (mockEmployeeService sampleEmployee [sampleEmployee] sampleReport []
          (some GoError.EmployeeNotFoundError))
        sampleIdRequest 0 =
      ({ code := 404,
         obj := gin.Obj.response
           { status := 404, data := none, error := "employee not found" } }, 1) ∧
    EmployeeController.Update sampleTexts
        (mockEmployeeService sampleEmployee [sampleEmployee] sampleReport []
          (some GoError.EmployeeNotFoundError))
        sampleEmployeeUpdate 0 =
      ({ code := 404,
         obj := gin.Obj.response
           { status := 404, data := none, error := "employee not found" } }, 1) ∧
    EmployeeController.Delete sampleTexts
        (mockEmployeeService sampleEmployee [sampleEmployee] sampleReport []
          (some GoError.EmployeeNotFoundError))
        sampleIdRequest 0 =
      ({ code := 404,
         obj := gin.Obj.response
           { status := 404, data := none, error := "employee not found" } }, 1) :=
  have h := service_error_envelope sampleTexts
    (mockBuyerService "b" ["b"] (0 : Nat) [(0 : Nat)] (some GoError.EmployeeNotFoundError))
    (mockEmployeeService sampleEmployee [sampleEmployee] sampleReport []
      (some GoError.EmployeeNotFoundError)) 0 0 GoError.EmployeeNotFoundError
  ⟨h.1 sampleBuyerCreate { CardNumberId := "B-1", FirstName := "Rui", LastName := "Sa" } "b" 1
      (by decide) rfl,
    h.2.1 sampleIdRequest 12 "b" 1 (by decide) rfl,
    h.2.2.1 sampleIdRequest ["b"] 1 rfl,
    h.2.2.2.1 sampleBuyerUpdate 12 { CardNumberId := "", FirstName := "Rui", LastName := "" }
      "b" 1 (by decide) (by decide) rfl,
    h.2.2.2.2.1 sampleIdRequest 12 1 (by decide) rfl,
    h.2.2.2.2.2.1 sampleEmployeeCreate
      { CardNumberId := "E-77", FirstName := "Ana", LastName := "Lima", WarehouseId := 2 }
      sampleEmployee 1 (by decide) rfl,
    h.2.2.2.2.2.2.1 sampleIdRequest 12 sampleEmployee 1 (by decide) rfl,
    h.2.2.2.2.2.2.2.1 sampleIdRequest [sampleEmployee] 1 rfl,
    h.2.2.2.2.2.2.2.2.1 sampleEmployeeUpdate 12
      { CardNumberId := "", FirstName := "", LastName := "Lima", WarehouseId := 0 }
      sampleEmployee 1 (by decide) (by decide) rfl,
    h.2.2.2.2.2.2.2.2.2.1 sampleIdRequest 12 1 (by decide) rfl⟩

/-- C12. For every path id that parses and for which `Delete` of the service returns a
nil error, the Delete handlers of the buyers and of the employees controller answer
with status 204 and write no body; the store is the one the service left. -/
theorem delete_no_content {σ τ B Bs R Rs : Type} (m : ErrorTexts)
    (buyerService : BuyerService σ B Bs R Rs) (employeeService : EmployeeService τ)
    (ctx : gin.Context Unit) (id : Nat) (s s1 : σ) (t t1 : τ)
    (hid : strconv.ParseUint ctx.Param_id = (id, none))
    (hB : buyerService.Delete id s = (none, s1))
    (hE : employeeService.Delete id t = (none, t1)) :
    ((buyerController.Delete m buyerService ctx s).1.code = 204 ∧
      (buyerController.Delete m buyerService ctx s).1.written = none ∧
      (buyerController.Delete m buyerService ctx s).2 = s1) ∧
    ((EmployeeController.Delete m employeeService ctx t).1.code = 204 ∧
      (EmployeeController.Delete m employeeService ctx t).1.written = none ∧
      (EmployeeController.Delete m employeeService ctx t).2 = t1) := by
  constructor
  · simp only [buyerController.Delete, hid, hB, gin.JSON.written, http.StatusNoContent]
    refine ⟨trivial, ?_, trivial⟩
    decide
  · simp only [EmployeeController.Delete, hid, hE, gin.JSON.written, http.StatusNoContent]
    refine ⟨trivial, ?_, trivial⟩
    decide

/-- C12 on the sample request with path id 12, with services that accept the
deletion. -/
theorem delete_no_content_witness :
    ((buyerController.Delete sampleTexts
        (mockBuyerService "b" ["b"] (0 : Nat) [(0 : Nat)] none) sampleIdRequest 0).1.code = 204 ∧
      (buyerController.Delete sampleTexts
        (mockBuyerService "b" ["b"] (0 : Nat) [(0 : Nat)] none) sampleIdRequest 0).1.written
        = none ∧
      (buyerController.Delete sampleTexts
        (mockBuyerService "b" ["b"] (0 : Nat) [(0 : Nat)] none) sampleIdRequest 0).2 = 1) ∧
    ((EmployeeController.Delete sampleTexts
        (mockEmployeeService sampleEmployee [] sampleReport [] none) sampleIdRequest 0).1.code
        = 204 ∧
      (EmployeeController.Delete sampleTexts
        (mockEmployeeService sampleEmployee [] sampleReport [] none) sampleIdRequest 0).1.written
        = none ∧
      (EmployeeController.Delete sampleTexts
        (mockEmployeeService sampleEmployee [] sampleReport [] none) sampleIdRequest 0).2 = 1) :=
  delete_no_content sampleTexts (mockBuyerService "b" ["b"] (0 : Nat) [(0 : Nat)] none)
    (mockEmployeeService sampleEmployee [] sampleReport [] none) sampleIdRequest 12 0 1 0 1
    (by decide) rfl rfl

/-- C14. For every path id string on which `strconv.ParseUint(_, 10, 64)` fails, the
buyers and the employees controllers answer 404 from Get and from Delete and 400 from
Update; in each case the store is untouched and no method of the service is
invoked. -/
theorem bad_path_id {σ τ B Bs R Rs : Type} (m : ErrorTexts)
    (buyerService : BuyerService σ B Bs R Rs) (employeeService : EmployeeService τ)
    (ctx : gin.Context Unit) (ctxB : gin.Context updateBuyersRequest)
    (ctxE : gin.Context UpdateEmployeeRequest) (s : σ) (t : τ)
    (h : (strconv.ParseUint ctx.Param_id).2 ≠ none)
    (hB : (strconv.ParseUint ctxB.Param_id).2 ≠ none)
    (hE : (strconv.ParseUint ctxE.Param_id).2 ≠ none) :
    ((buyerController.Get m buyerService ctx s).1.code = 404 ∧
      (buyerController.Get m buyerService ctx s).2 = s ∧
      (buyerController.Get m (recordingBuyers buyerService) ctx (s, [])).2.2 = []) ∧
    ((buyerController.Delete m buyerService ctx s).1.code = 404 ∧
      (buyerController.Delete m buyerService ctx s).2 = s ∧
      (buyerController.Delete m (recordingBuyers buyerService) ctx (s, [])).2.2 = []) ∧
    ((buyerController.Update m buyerService ctxB s).1.code = 400 ∧
      (buyerController.Update m buyerService ctxB s).2 = s ∧
      (buyerController.Update m (recordingBuyers buyerService) ctxB (s, [])).2.2 = []) ∧
    ((EmployeeController.Get m employeeService ctx t).1.code = 404 ∧
      (EmployeeController.Get m employeeService ctx t).2 = t ∧
      (EmployeeController.Get m (recordingEmployees employeeService) ctx (t, [])).2.2 = []) ∧
    ((EmployeeController.Delete m employeeService ctx t).1.code = 404 ∧
      (EmployeeController.Delete m employeeService ctx t).2 = t ∧
      (EmployeeController.Delete m (recordingEmployees employeeService) ctx (t, [])).2.2
        = []) ∧
    ((EmployeeController.Update m employeeService ctxE t).1.code = 400 ∧
      (EmployeeController.Update m employeeService ctxE t).2 = t ∧
      (EmployeeController.Update m (recordingEmployees employeeService) ctxE (t, [])).2.2
        = []) := by
  rcases hres : strconv.ParseUint ctx.Param_id with ⟨n, err⟩
  rcases hresB : strconv.ParseUint ctxB.Param_id with ⟨nB, errB⟩
  rcases hresE : strconv.ParseUint ctxE.Param_id with ⟨nE, errE⟩
  rw [hres] at h
  rw [hresB] at hB
  rw [hresE] at hE
  cases err with
  | none => exact absurd rfl h
  | some e =>
    cases errB with
    | none => exact absurd rfl hB
    | some eB =>
      cases errE with
      | none => exact absurd rfl hE
      | some eE =>
        simp only [buyerController.Get, buyerController.Delete, buyerController.Update,
          EmployeeController.Get, EmployeeController.Delete, EmployeeController.Update,
          hres, hresB, hresE, http.StatusNotFound, http.StatusBadRequest]
        simp

/-- C14 on three requests: the path ids `abc`, `1x` and a number one above the largest
64-bit value. -/
theorem bad_path_id_witness :
    ((buyerController.Get sampleTexts (mockBuyerService "b" ["b"] (0 : Nat) [(0 : Nat)] none)
        sampleBadId 0).1.code = 404 ∧
      (buyerController.Get sampleTexts (mockBuyerService "b" ["b"] (0 : Nat) [(0 : Nat)] none)
        sampleBadId 0).2 = 0 ∧
      (buyerController.Get sampleTexts
        (recordingBuyers (mockBuyerService "b" ["b"] (0 : Nat) [(0 : Nat)] none))
        sampleBadId (0, [])).2.2 = []) ∧
    ((buyerController.Delete sampleTexts (mockBuyerService "b" ["b"] (0 : Nat) [(0 : Nat)] none)
        sampleBadId 0).1.code = 404 ∧
      (buyerController.Delete sampleTexts (mockBuyerService "b" ["b"] (0 : Nat) [(0 : Nat)] none)
        sampleBadId 0).2 = 0 ∧
      (buyerController.Delete sampleTexts
        (recordingBuyers (mockBuyerService "b" ["b"] (0 : Nat) [(0 : Nat)] none))
        sampleBadId (0, [])).2.2 = []) ∧
    ((buyerController.Update sampleTexts (mockBuyerService "b" ["b"] (0 : Nat) [(0 : Nat)] none)
        sampleBuyerUpdateBadId 0).1.code = 400 ∧
      (buyerController.Update sampleTexts (mockBuyerService "b" ["b"] (0 : Nat) [(0 : Nat)] none)
        sampleBuyerUpdateBadId 0).2 = 0 ∧
      (buyerController.Update sampleTexts
        (recordingBuyers (mockBuyerService "b" ["b"] (0 : Nat) [(0 : Nat)] none))
        sampleBuyerUpdateBadId (0, [])).2.2 = []) ∧
    ((EmployeeController.Get sampleTexts
        (mockEmployeeService sampleEmployee [] sampleReport [] none) sampleBadId 0).1.code = 404 ∧
      (EmployeeController.Get sampleTexts
        (mockEmployeeService sampleEmployee [] sampleReport [] none) sampleBadId 0).2 = 0 ∧
      (EmployeeController.Get sampleTexts
        (recordingEmployees (mockEmployeeService sampleEmployee [] sampleReport [] none))
        sampleBadId (0, [])).2.2 = []) ∧
    ((EmployeeController.Delete sampleTexts
        (mockEmployeeService sampleEmployee [] sampleReport [] none) sampleBadId 0).1.code = 404 ∧
      (EmployeeController.Delete sampleTexts
        (mockEmployeeService sampleEmployee [] sampleReport [] none) sampleBadId 0).2 = 0 ∧
      (EmployeeController.Delete sampleTexts
        (recordingEmployees (mockEmployeeService sampleEmployee [] sampleReport [] none))
        sampleBadId (0, [])).2.2 = []) ∧
    ((EmployeeController.Update sampleTexts
        (mockEmployeeService sampleEmployee [] sampleReport [] none)
        sampleEmployeeUpdateBadId 0).1.code = 400 ∧
      (EmployeeController.Update sampleTexts
        (mockEmployeeService sampleEmployee [] sampleReport [] none)
        sampleEmployeeUpdateBadId 0).2 = 0 ∧
      (EmployeeController.Update sampleTexts
        (recordingEmployees (mockEmployeeService sampleEmployee [] sampleReport [] none))
        sampleEmployeeUpdateBadId (0, [])).2.2 = []) :=
  bad_path_id sampleTexts (mockBuyerService "b" ["b"] (0 : Nat) [(0 : Nat)] none)
    (mockEmployeeService sampleEmployee [] sampleReport [] none) sampleBadId
    sampleBuyerUpdateBadId sampleEmployeeUpdateBadId 0 0 (by decide) (by decide) (by decide)

theorem uniform_envelope {D : Type} (status : Nat) (d : Option D) (msg : String) :
    gin.JSON.uniform
      { code := status, obj := gin.Obj.response (web.NewResponse status d msg) } := by
  unfold gin.JSON.uniform gin.JSON.written
  cases gin.bodyAllowedForStatus status <;> simp [web.NewResponse]

theorem uniform_no_content {D : Type} (obj : gin.Obj D) :
    gin.JSON.uniform { code := http.StatusNoContent, obj := obj } := by
  unfold gin.JSON.uniform gin.JSON.written
  have h : gin.bodyAllowedForStatus http.StatusNoContent = false := by decide
  simp [h]

/-- C13, as stated, fails: the buyers `Get` handler answers a path id that is not a
number with status 404 and a body that is the map with the single key `error`, not
the envelope. -/
theorem bad_id_body_not_envelope :
    (buyerController.Get sampleTexts (mockBuyerService "b" ["b"] (0 : Nat) [(0 : Nat)] none)
        sampleBadId 0).1.written =
      some (gin.Obj.H "strconv.ParseUint: parsing abc: invalid syntax") ∧
    ¬ (buyerController.Get sampleTexts (mockBuyerService "b" ["b"] (0 : Nat) [(0 : Nat)] none)
        sampleBadId 0).1.uniform := by
  decide

/-- C13, amended. Once a request has passed the checks of its handler (the path id
parses where the handler reads one, the body binds where the handler reads one), the
response of every handler of the two controllers, on every outcome of the service,
is uniform: it has no body, or its body is the envelope whose status field is the
HTTP status; so is every response of the buyers `Create`, its 422 included.  A
rejection made before the service is invoked writes the map with the single key
`error` instead: on a path id that does not parse in Get, Delete and Update, on a
body that does not bind in Update, and on a body that does not bind in the employees
`Create`. -/
theorem response_shapes {σ τ B Bs R Rs : Type} (m : ErrorTexts)
    (buyerService : BuyerService σ B Bs R Rs) (employeeService : EmployeeService τ)
    (s : σ) (t : τ) :
    (∀ ctx : gin.Context createBuyersRequest,
      (buyerController.Create m buyerService ctx s).1.uniform) ∧
    (∀ ctx : gin.Context Unit,
      (buyerController.GetAll m buyerService ctx s).1.uniform ∧
      (buyerController.CountPurchaseOrdersByBuyers m buyerService ctx s).1.uniform ∧
      (EmployeeController.GetAll m employeeService ctx t).1.uniform ∧
      (EmployeeController.CountInboundOrders m employeeService ctx t).1.uniform) ∧
    (∀ ctx : gin.Context Unit, (strconv.ParseUint ctx.Param_id).2 = none →
      (buyerController.Get m buyerService ctx s).1.uniform ∧
      (buyerController.Delete m buyerService ctx s).1.uniform ∧
      (EmployeeController.Get m employeeService ctx t).1.uniform ∧
      (EmployeeController.Delete m employeeService ctx t).1.uniform) ∧
    (∀ ctx : gin.Context updateBuyersRequest, (strconv.ParseUint ctx.Param_id).2 = none →
      (updateBuyersRequest.ShouldBindJSON ctx).2 = none →
      (buyerController.Update m buyerService ctx s).1.uniform) ∧
    (∀ ctx : gin.Context UpdateEmployeeRequest, (strconv.ParseUint ctx.Param_id).2 = none →
      (UpdateEmployeeRequest.ShouldBindJSON ctx).2 = none →
      (EmployeeController.Update m employeeService ctx t).1.uniform) ∧
    (∀ ctx : gin.Context CreateEmployeeRequest,
      (CreateEmployeeRequest.ShouldBindJSON ctx).2 = none →
      (EmployeeController.Create m employeeService ctx t).1.uniform) ∧
    (∀ (ctx : gin.Context Unit) (err : GoError),
      (strconv.ParseUint ctx.Param_id).2 = some err →
      (buyerController.Get m buyerService ctx s).1.written = some (gin.Obj.H (err.Error m)) ∧
      (buyerController.Delete m buyerService ctx s).1.written =
        some (gin.Obj.H (err.Error m)) ∧
      (EmployeeController.Get m employeeService ctx t).1.written =
        some (gin.Obj.H (err.Error m)) ∧
      (EmployeeController.Delete m employeeService ctx t).1.written =
        some (gin.Obj.H (err.Error m))) ∧
    (∀ (ctx : gin.Context updateBuyersRequest) (err : GoError),
      ((strconv.ParseUint ctx.Param_id).2 = some err ∨
        ((strconv.ParseUint ctx.Param_id).2 = none ∧
          (updateBuyersRequest.ShouldBindJSON ctx).2 = some err)) →
      (buyerController.Update m buyerService ctx s).1.written =
        some (gin.Obj.H (err.Error m))) ∧
    (∀ (ctx : gin.Context UpdateEmployeeRequest) (err : GoError),
      ((strconv.ParseUint ctx.Param_id).2 = some err ∨
        ((strconv.ParseUint ctx.Param_id).2 = none ∧
          (UpdateEmployeeRequest.ShouldBindJSON ctx).2 = some err)) →
      (EmployeeController.Update m employeeService ctx t).1.written =
        some (gin.Obj.H (err.Error m))) ∧
    (∀ (ctx : gin.Context CreateEmployeeRequest) (err : GoError),
      (CreateEmployeeRequest.ShouldBindJSON ctx).2 = some err →
      (EmployeeController.Create m employeeService ctx t).1.written =
        some (gin.Obj.H (err.Error m))) := by
  refine ⟨?_, ?_, ?_, ?_, ?_, ?_, ?_, ?_, ?_, ?_⟩
  · intro ctx
    rcases hb : createBuyersRequest.ShouldBindJSON ctx with ⟨req, _ | e⟩
    · rcases hs : buyerService.Create req.CardNumberId req.FirstName req.LastName s with
        ⟨⟨v, _ | e⟩, s1⟩ <;>
      simp only [buyerController.Create, hb, hs] <;> exact uniform_envelope _ _ _
    · simp only [buyerController.Create, hb]
      exact uniform_envelope _ _ _
  · intro ctx
    refine ⟨?_, ?_, ?_, ?_⟩
    · rcases hs : buyerService.GetAll s with ⟨⟨v, _ | e⟩, s1⟩ <;>
      simp only [buyerController.GetAll, hs] <;> exact uniform_envelope _ _ _
    · cases hq : ctx.Query_id with
      | none =>
        rcases hs : buyerService.CountPurchaseOrdersByBuyers s with ⟨⟨v, _ | e⟩, s1⟩ <;>
        simp only [buyerController.CountPurchaseOrdersByBuyers, hq, hs] <;>
        exact uniform_envelope _ _ _
      | some q =>
        rcases hs : buyerService.CountPurchaseOrdersByBuyer (strconv.ParseUint q).1 s with
          ⟨⟨v, _ | e⟩, s1⟩ <;>
        simp only [buyerController.CountPurchaseOrdersByBuyers, hq, hs] <;>
        exact uniform_envelope _ _ _
    · rcases hs : employeeService.GetAll t with ⟨⟨v, _ | e⟩, t1⟩ <;>
      simp only [EmployeeController.GetAll, hs] <;> exact uniform_envelope _ _ _
    · cases hq : ctx.Query_id with
      | none =>
        rcases hs : employeeService.CountInboundOrders t with ⟨⟨v, _ | e⟩, t1⟩ <;>
        simp only [EmployeeController.CountInboundOrders, hq, hs] <;>
        exact uniform_envelope _ _ _
      | some q =>
        rcases hs : employeeService.CountInboundOrdersByEmployeeId (strconv.ParseUint q).1 t
          with ⟨⟨v, _ | e⟩, t1⟩ <;>
        simp only [EmployeeController.CountInboundOrders, hq, hs] <;>
        exact uniform_envelope _ _ _
  · intro ctx hp
    rcases hres : strconv.ParseUint ctx.Param_id with ⟨n, err⟩
    rw [hres] at hp
    simp only at hp
    subst hp
    refine ⟨?_, ?_, ?_, ?_⟩
    · rcases hs : buyerService.Get n s with ⟨⟨v, _ | e⟩, s1⟩ <;>
      simp only [buyerController.Get, hres, hs] <;> exact uniform_envelope _ _ _
    · rcases hs : buyerService.Delete n s with ⟨_ | e, s1⟩ <;>
      simp only [buyerController.Delete, hres, hs]
      · exact uniform_no_content _
      · exact uniform_envelope _ _ _
    · rcases hs : employeeService.Get n t with ⟨⟨v, _ | e⟩, t1⟩ <;>
      simp only [EmployeeController.Get, hres, hs] <;> exact uniform_envelope _ _ _
    · rcases hs : employeeService.Delete n t with ⟨_ | e, t1⟩ <;>
      simp only [EmployeeController.Delete, hres, hs] <;> exact uniform_envelope _ _ _
  · intro ctx hp hb
    rcases hres : strconv.ParseUint ctx.Param_id with ⟨n, err⟩
    rcases hbind : updateBuyersRequest.ShouldBindJSON ctx with ⟨req, berr⟩
    rw [hres] at hp
    rw [hbind] at hb
    simp only at hp hb
    subst hp hb
    rcases hs : buyerService.Update n req.CardNumberId req.FirstName req.LastName s with
      ⟨⟨v, _ | e⟩, s1⟩ <;>
    simp only [buyerController.Update, hres, hbind, hs] <;> exact uniform_envelope _ _ _
  · intro ctx hp hb
    rcases hres : strconv.ParseUint ctx.Param_id with ⟨n, err⟩
    rcases hbind : UpdateEmployeeRequest.ShouldBindJSON ctx with ⟨req, berr⟩
    rw [hres] at hp
    rw [hbind] at hb
    simp only at hp hb
    subst hp hb
    rcases hs : employeeService.Update n req.CardNumberId req.FirstName req.LastName
      req.WarehouseId t with ⟨⟨v, _ | e⟩, t1⟩ <;>
    simp only [EmployeeController.Update, hres, hbind, hs] <;> exact uniform_envelope _ _ _
  · intro ctx hb
    rcases hbind : CreateEmployeeRequest.ShouldBindJSON ctx with ⟨req, berr⟩
    rw [hbind] at hb
    simp only at hb
    subst hb
    rcases hs : employeeService.Create req.CardNumberId req.FirstName req.LastName
      req.WarehouseId t with ⟨⟨v, _ | e⟩, t1⟩ <;>
    simp only [EmployeeController.Create, hbind, hs] <;> exact uniform_envelope _ _ _
  · intro ctx err hp
    rcases hres : strconv.ParseUint ctx.Param_id with ⟨n, perr⟩
    rw [hres] at hp
    simp only at hp
    subst hp
    simp only [buyerController.Get, buyerController.Delete, EmployeeController.Get,
      EmployeeController.Delete, hres, gin.JSON.written, http.StatusNotFound]
    exact ⟨rfl, rfl, rfl, rfl⟩
  · intro ctx err h
    rcases hres : strconv.ParseUint ctx.Param_id with ⟨n, perr⟩
    rcases hbind : updateBuyersRequest.ShouldBindJSON ctx with ⟨req, berr⟩
    rw [hres, hbind] at h
    simp only at h
    rcases h with h | ⟨h1, h2⟩
    · subst h
      simp only [buyerController.Update, hres, gin.JSON.written, http.StatusBadRequest]
      rfl
    · subst h1 h2
      simp only [buyerController.Update, hres, hbind, gin.JSON.written,
        http.StatusUnprocessableEntity]
      rfl
  · intro ctx err h
    rcases hres : strconv.ParseUint ctx.Param_id with ⟨n, perr⟩
    rcases hbind : UpdateEmployeeRequest.ShouldBindJSON ctx with ⟨req, berr⟩
    rw [hres, hbind] at h
    simp only at h
    rcases h with h | ⟨h1, h2⟩
    · subst h
      simp only [EmployeeController.Update, hres, gin.JSON.written, http.StatusBadRequest]
      rfl
    · subst h1 h2
      simp only [EmployeeController.Update, hres, hbind, gin.JSON.written,
        http.StatusUnprocessableEntity]
      rfl
  · intro ctx err hb
    rcases hbind : CreateEmployeeRequest.ShouldBindJSON ctx with ⟨req, berr⟩
    rw [hbind] at hb
    simp only at hb
    subst hb
    simp only [EmployeeController.Create, hbind, gin.JSON.written,
      http.StatusUnprocessableEntity]
    rfl

/-- The amended C13 on the sample requests: the well-formed ones get uniform
responses, the rejected ones get the map with the key `error`. -/
theorem response_shapes_witness :
    ((buyerController.Get sampleTexts (mockBuyerService "b" ["b"] (0 : Nat) [(0 : Nat)] none) sampleIdRequest 0).1.uniform ∧
      (buyerController.Delete sampleTexts (mockBuyerService "b" ["b"] (0 : Nat) [(0 : Nat)] none) sampleIdRequest 0).1.uniform ∧
      (EmployeeController.Get sampleTexts (mockEmployeeService sampleEmployee [] sampleReport [] none) sampleIdRequest 0).1.uniform ∧
      (EmployeeController.Delete sampleTexts (mockEmployeeService sampleEmployee [] sampleReport [] none) sampleIdRequest 0).1.uniform) ∧
    (buyerController.Update sampleTexts (mockBuyerService "b" ["b"] (0 : Nat) [(0 : Nat)] none) sampleBuyerUpdate 0).1.uniform ∧
    (EmployeeController.Update sampleTexts (mockEmployeeService sampleEmployee [] sampleReport [] none) sampleEmployeeUpdate 0).1.uniform ∧
    (EmployeeController.Create sampleTexts (mockEmployeeService sampleEmployee [] sampleReport [] none) sampleEmployeeCreate 0).1.uniform ∧
    ((buyerController.Get sampleTexts (mockBuyerService "b" ["b"] (0 : Nat) [(0 : Nat)] none) sampleBadId 0).1.written =
        some (gin.Obj.H ((GoError.NumError "abc" false).Error sampleTexts)) ∧
      (buyerController.Delete sampleTexts (mockBuyerService "b" ["b"] (0 : Nat) [(0 : Nat)] none) sampleBadId 0).1.written =
        some (gin.Obj.H ((GoError.NumError "abc" false).Error sampleTexts)) ∧
      (EmployeeController.Get sampleTexts (mockEmployeeService sampleEmployee [] sampleReport [] none) sampleBadId 0).1.written =
        some (gin.Obj.H ((GoError.NumError "abc" false).Error sampleTexts)) ∧
      (EmployeeController.Delete sampleTexts (mockEmployeeService sampleEmployee [] sampleReport [] none) sampleBadId 0).1.written =
        some (gin.Obj.H ((GoError.NumError "abc" false).Error sampleTexts))) ∧
    (buyerController.Update sampleTexts (mockBuyerService "b" ["b"] (0 : Nat) [(0 : Nat)] none) sampleBuyerUpdateBadId 0).1.written =
      some (gin.Obj.H ((GoError.NumError "1x" false).Error sampleTexts)) ∧
    (EmployeeController.Update sampleTexts (mockEmployeeService sampleEmployee [] sampleReport [] none) sampleEmployeeUpdateBadId 0).1.written =
      some (gin.Obj.H ((GoError.NumError "18446744073709551616" true).Error sampleTexts)) ∧
    (EmployeeController.Create sampleTexts (mockEmployeeService sampleEmployee [] sampleReport [] none) sampleEmployeeCreateNoWarehouse 0).1.written =
      some (gin.Obj.H
        ((GoError.ValidationErrors "CreateEmployeeRequest" ["WarehouseId"]).Error sampleTexts)) :=
  have h := response_shapes sampleTexts (mockBuyerService "b" ["b"] (0 : Nat) [(0 : Nat)] none) (mockEmployeeService sampleEmployee [] sampleReport [] none) 0 0
  ⟨h.2.2.1 sampleIdRequest (by decide),
    h.2.2.2.1 sampleBuyerUpdate (by decide) (by decide),
    h.2.2.2.2.1 sampleEmployeeUpdate (by decide) (by decide),
    h.2.2.2.2.2.1 sampleEmployeeCreate (by decide),
    h.2.2.2.2.2.2.1 sampleBadId (GoError.NumError "abc" false) (by decide),
    h.2.2.2.2.2.2.2.1 sampleBuyerUpdateBadId (GoError.NumError "1x" false)
      (Or.inl (by decide)),
    h.2.2.2.2.2.2.2.2.1 sampleEmployeeUpdateBadId
      (GoError.NumError "18446744073709551616" true) (Or.inl (by decide)),
    h.2.2.2.2.2.2.2.2.2 sampleEmployeeCreateNoWarehouse
      (GoError.ValidationErrors "CreateEmployeeRequest" ["WarehouseId"]) (by decide)⟩

/-- C15 at a failing input. The query value `abc` does not parse, yet both report
handlers discard the parse error, invoke the single-owner operation of the service
with the value `ParseUint` returned (0) and answer whatever follows from the
service: 200 with the report when the service succeeds, 500 when the service fails
with a store error. -/
theorem report_bad_query_served :
    strconv.ParseUint "abc" = (0, some (GoError.NumError "abc" false)) ∧
    buyerController.CountPurchaseOrdersByBuyers sampleTexts
        (recordingBuyers (mockBuyerService "b" ["b"] (7 : Nat) [(7 : Nat)] none))
        sampleBadQuery (0, []) =
      ({ code := 200,
         obj := gin.Obj.response { status := 200, data := some (Sum.inl 7), error := "" } },
        (1, [BuyerCall.CountPurchaseOrdersByBuyer 0])) ∧
    EmployeeController.CountInboundOrders sampleTexts
        (recordingEmployees (mockEmployeeService sampleEmployee [] sampleReport [] none))
        sampleBadQuery (0, []) =
      ({ code := 200,
         obj := gin.Obj.response
           { status := 200, data := some (Sum.inl sampleReport), error := "" } },
        (1, [EmployeeCall.CountInboundOrdersByEmployeeId 0])) ∧
    (buyerController.CountPurchaseOrdersByBuyers sampleTexts
        (mockBuyerService "b" ["b"] (7 : Nat) [(7 : Nat)] (some (GoError.other "bad connection")))
        sampleBadQuery 0).1.code = 500 ∧
    (EmployeeController.CountInboundOrders sampleTexts
        (mockEmployeeService sampleEmployee [] sampleReport []
          (some (GoError.other "bad connection")))
        sampleBadQuery 0).1.code = 500 := by
  refine ⟨?_, ?_, ?_, ?_, ?_⟩
  · decide
  · decide
  · decide
  · decide
  · decide

/-- C16. In the report endpoints of the two controllers the `id` query parameter
selects the aggregation.  When it is present and parses to `n`, the single-owner
operation of the service is invoked with `n` and is the only method invoked; when it
is absent, the all-owners operation is the only method invoked.  In both cases a
result the service returns with a nil error is answered with status 200 as the data
of the envelope, with an empty error string. -/
theorem report_selection {σ τ B Bs R Rs : Type} (m : ErrorTexts)
    (buyerService : BuyerService σ B Bs R Rs) (employeeService : EmployeeService τ)
    (ctx : gin.Context Unit) (s : σ) (t : τ) :
    (∀ (q : String) (n : Nat), ctx.Query_id = some q → strconv.ParseUint q = (n, none) →
      (buyerController.CountPurchaseOrdersByBuyers m (recordingBuyers buyerService) ctx
          (s, [])).2.2 = [BuyerCall.CountPurchaseOrdersByBuyer n] ∧
      (∀ (v : R) (s1 : σ), buyerService.CountPurchaseOrdersByBuyer n s = ((v, none), s1) →
        buyerController.CountPurchaseOrdersByBuyers m buyerService ctx s =
          ({ code := 200,
             obj := gin.Obj.response
               { status := 200, data := some (Sum.inl v), error := "" } }, s1)) ∧
      (EmployeeController.CountInboundOrders m (recordingEmployees employeeService) ctx
          (t, [])).2.2 = [EmployeeCall.CountInboundOrdersByEmployeeId n] ∧
      (∀ (v : ReportInboundOrders) (t1 : τ),
        employeeService.CountInboundOrdersByEmployeeId n t = ((v, none), t1) →
        EmployeeController.CountInboundOrders m employeeService ctx t =
          ({ code := 200,
             obj := gin.Obj.response
               { status := 200, data := some (Sum.inl v), error := "" } }, t1))) ∧
    (ctx.Query_id = none →
      (buyerController.CountPurchaseOrdersByBuyers m (recordingBuyers buyerService) ctx
          (s, [])).2.2 = [BuyerCall.CountPurchaseOrdersByBuyers] ∧
      (∀ (v : Rs) (s1 : σ), buyerService.CountPurchaseOrdersByBuyers s = ((v, none), s1) →
        buyerController.CountPurchaseOrdersByBuyers m buyerService ctx s =
          ({ code := 200,
             obj := gin.Obj.response
               { status := 200, data := some (Sum.inr v), error := "" } }, s1)) ∧
      (EmployeeController.CountInboundOrders m (recordingEmployees employeeService) ctx
          (t, [])).2.2 = [EmployeeCall.CountInboundOrders] ∧
      (∀ (v : List ReportInboundOrders) (t1 : τ),
        employeeService.CountInboundOrders t = ((v, none), t1) →
        EmployeeController.CountInboundOrders m employeeService ctx t =
          ({ code := 200,
             obj := gin.Obj.response
               { status := 200, data := some (Sum.inr v), error := "" } }, t1))) := by
  constructor
  · intro q n hq hp
    refine ⟨?_, ?_, ?_, ?_⟩
    · rcases hs : buyerService.CountPurchaseOrdersByBuyer n s with ⟨⟨v, _ | e⟩, s1⟩ <;>
      simp [buyerController.CountPurchaseOrdersByBuyers, recordingBuyers, hq, hp, hs]
    · intro v s1 hs
      simp only [buyerController.CountPurchaseOrdersByBuyers, hq, hp, hs, web.NewResponse,
        http.StatusOK]
    · rcases hs : employeeService.CountInboundOrdersByEmployeeId n t with
        ⟨⟨v, _ | e⟩, t1⟩ <;>
      simp [EmployeeController.CountInboundOrders, recordingEmployees, hq, hp, hs]
    · intro v t1 hs
      simp only [EmployeeController.CountInboundOrders, hq, hp, hs, web.NewResponse,
        http.StatusOK]
  · intro hq
    refine ⟨?_, ?_, ?_, ?_⟩
    · rcases hs : buyerService.CountPurchaseOrdersByBuyers s with ⟨⟨v, _ | e⟩, s1⟩ <;>
      simp [buyerController.CountPurchaseOrdersByBuyers, recordingBuyers, hq, hs]
    · intro v s1 hs
      simp only [buyerController.CountPurchaseOrdersByBuyers, hq, hs, web.NewResponse,
        http.StatusOK]
    · rcases hs : employeeService.CountInboundOrders t with ⟨⟨v, _ | e⟩, t1⟩ <;>
      simp [EmployeeController.CountInboundOrders, recordingEmployees, hq, hs]
    · intro v t1 hs
      simp only [EmployeeController.CountInboundOrders, hq, hs, web.NewResponse,
        http.StatusOK]

/-- C16 on two sample requests: one with the query `id=12`, one without a query. -/
theorem report_selection_witness :
    ((buyerController.CountPurchaseOrdersByBuyers sampleTexts (recordingBuyers (mockBuyerService "b" ["b"] (7 : Nat) [(7 : Nat), (8 : Nat)] none)) sampleQuery
          (0, [])).2.2 = [BuyerCall.CountPurchaseOrdersByBuyer 12] ∧
      buyerController.CountPurchaseOrdersByBuyers sampleTexts (mockBuyerService "b" ["b"] (7 : Nat) [(7 : Nat), (8 : Nat)] none) sampleQuery 0 =
        ({ code := 200,
           obj := gin.Obj.response { status := 200, data := some (Sum.inl 7), error := "" } },
          1) ∧
      (EmployeeController.CountInboundOrders sampleTexts (recordingEmployees (mockEmployeeService sampleEmployee [] sampleReport [sampleReport] none)) sampleQuery
          (0, [])).2.2 = [EmployeeCall.CountInboundOrdersByEmployeeId 12] ∧
      EmployeeController.CountInboundOrders sampleTexts (mockEmployeeService sampleEmployee [] sampleReport [sampleReport] none) sampleQuery 0 =
        ({ code := 200,
           obj := gin.Obj.response
             { status := 200, data := some (Sum.inl sampleReport), error := "" } }, 1)) ∧
    ((buyerController.CountPurchaseOrdersByBuyers sampleTexts (recordingBuyers (mockBuyerService "b" ["b"] (7 : Nat) [(7 : Nat), (8 : Nat)] none)) sampleNoQuery
          (0, [])).2.2 = [BuyerCall.CountPurchaseOrdersByBuyers] ∧
      buyerController.CountPurchaseOrdersByBuyers sampleTexts (mockBuyerService "b" ["b"] (7 : Nat) [(7 : Nat), (8 : Nat)] none) sampleNoQuery 0 =
        ({ code := 200,
           obj := gin.Obj.response
             { status := 200, data := some (Sum.inr [7, 8]), error := "" } }, 1) ∧
      (EmployeeController.CountInboundOrders sampleTexts (recordingEmployees (mockEmployeeService sampleEmployee [] sampleReport [sampleReport] none)) sampleNoQuery
          (0, [])).2.2 = [EmployeeCall.CountInboundOrders] ∧
      EmployeeController.CountInboundOrders sampleTexts (mockEmployeeService sampleEmployee [] sampleReport [sampleReport] none) sampleNoQuery 0 =
        ({ code := 200,
           obj := gin.Obj.response
             { status := 200, data := some (Sum.inr [sampleReport]), error := "" } }, 1)) :=
  have h1 := (report_selection sampleTexts (mockBuyerService "b" ["b"] (7 : Nat) [(7 : Nat), (8 : Nat)] none) (mockEmployeeService sampleEmployee [] sampleReport [sampleReport] none) sampleQuery 0 0).1 "12" 12 rfl (by decide)
  have h2 := (report_selection sampleTexts (mockBuyerService "b" ["b"] (7 : Nat) [(7 : Nat), (8 : Nat)] none) (mockEmployeeService sampleEmployee [] sampleReport [sampleReport] none) sampleNoQuery 0 0).2 rfl
  ⟨⟨h1.1, h1.2.1 7 1 rfl, h1.2.2.1, h1.2.2.2 sampleReport 1 rfl⟩,
    ⟨h2.1, h2.2.1 [7, 8] 1 rfl, h2.2.2.1, h2.2.2.2 [sampleReport] 1 rfl⟩⟩

/-- C17, as stated, fails: with a repository whose `Update` fails with the driver error
`driver: bad connection`, the service does not hand that error back; it returns a new
error with the message `error: internal server error`. -/
theorem update_store_error_replaced :
    brokenUpdateRepository.Get 1 sampleTable = ((sampleWarehouse, none), sampleTable) ∧
    brokenUpdateRepository.ExistsWarehouseCode "W9" sampleTable = ((false, none), sampleTable) ∧
    (brokenUpdateRepository.Update
        (mergoMergeWithOverride sampleWarehouse
          (warehouseService.updatedWarehouse 1 "W9" "" "" 0 { bits := 0 })) sampleTable).1.2 =
      some (GoError.other "driver: bad connection") ∧
    (warehouseService.Update brokenUpdateRepository 1 "W9" "" "" 0 { bits := 0 } sampleTable).1.2 =
      some (GoError.other "error: internal server error") ∧
    (warehouseService.Update brokenUpdateRepository 1 "W9" "" "" 0 { bits := 0 } sampleTable).1.2 ≠
      some (GoError.other "driver: bad connection") := by
  decide

/-- C17, amended. When the record exists, the code is unused and repository `Update`
fails with an error `e`, `warehouseService.Update` drops `e`: it returns an empty
Warehouse with a new error whose message is `error: internal server error`, and the
store is the one the failed `Update` left. -/
theorem update_store_error {σ : Type} (repo : WarehouseRepository σ) (id : Nat)
    (code address telephone : String) (minimumCapacity : Nat)
    (minimumTemperature : float32) (w r : Warehouse) (e : GoError) (s s1 s2 s3 : σ)
    (hGet : repo.Get id s = ((w, none), s1))
    (hCode : repo.ExistsWarehouseCode code s1 = ((false, none), s2))
    (hUpdate : repo.Update
        (mergoMergeWithOverride w
          (warehouseService.updatedWarehouse id code address telephone minimumCapacity
            minimumTemperature)) s2 = ((r, some e), s3)) :
    warehouseService.Update repo id code address telephone minimumCapacity
        minimumTemperature s =
      ((Warehouse.empty, some (GoError.other "error: internal server error")), s3) := by
  simp only [warehouseService.Update, hGet, hCode, hUpdate]
  simp

/-- The amended C17 at the sample table, with the repository whose `Update` fails. -/
theorem update_store_error_witness :
    warehouseService.Update brokenUpdateRepository 1 "W9" "" "" 0 { bits := 0 } sampleTable =
      ((Warehouse.empty, some (GoError.other "error: internal server error")), sampleTable) :=
  update_store_error brokenUpdateRepository 1 "W9" "" "" 0 { bits := 0 } sampleWarehouse
    Warehouse.empty (GoError.other "driver: bad connection") sampleTable sampleTable sampleTable
    sampleTable (by decide) (by decide) (by decide)

/-! ## The employees repository: the report queries -/

theorem call_no_faults (db : sql.DB) (h : db.faults = []) : db.call = (none, db) := by
  unfold sql.DB.call
  rw [h]

theorem scanRows_no_faults {α : Type} (rows acc : List α) (db : sql.DB)
    (h : db.faults = []) : sql.scanRows rows acc db = ((acc ++ rows, none), db) := by
  induction rows generalizing acc with
  | nil => simp [sql.scanRows, call_no_faults db h]
  | cons row rest ih =>
    simp only [sql.scanRows, call_no_faults db h]
    rw [ih]
    simp

theorem mem_distinct (k : Nat) (l : List Nat) : k ∈ sql.distinct l ↔ k ∈ l := by
  induction l with
  | nil => simp [sql.distinct]
  | cons a l ih =>
    simp only [sql.distinct, List.mem_cons, List.mem_filter, ih]
    by_cases hk : k = a
    · simp [hk]
    · simp [hk]

theorem filter_distinct (k : Nat) (l : List Nat) :
    (sql.distinct l).filter (fun x => !decide (x = k)) =
      sql.distinct (l.filter (fun x => !decide (x = k))) := by
  induction l with
  | nil => simp [sql.distinct]
  | cons a l ih =>
    by_cases ha : a = k
    · subst ha
      simp only [sql.distinct, List.filter_cons, decide_True, Bool.not_true, Bool.false_eq_true,
        if_false, List.filter_filter, Bool.and_self]
      exact ih
    · have hcomm : ((sql.distinct l).filter (fun x => !decide (x = a))).filter
            (fun x => !decide (x = k)) =
          ((sql.distinct l).filter (fun x => !decide (x = k))).filter
            (fun x => !decide (x = a)) := by
        simp only [List.filter_filter]
        congr 1
        funext x
        exact Bool.and_comm _ _
      simp only [sql.distinct, List.filter_cons, ha, decide_False, Bool.not_false, if_true]
      rw [hcomm, ih]

theorem groupBy_block (B J : List (Employee × Option InboundOrder)) (k : Nat)
    (hB : B ≠ []) (hBk : ∀ r ∈ B, r.1.Id = k) (hJ : ∀ r ∈ J, r.1.Id ≠ k) :
    sql.groupByEmployeeId (B ++ J) = B :: sql.groupByEmployeeId J := by
  cases B with
  | nil => exact absurd rfl hB
  | cons b B' =>
    have hb : b.1.Id = k := hBk b (List.mem_cons_self _ _)
    have hkeys : (((B' ++ J).map (fun r => r.1.Id)).filter (fun x => !decide (x = k))) =
        J.map (fun r => r.1.Id) := by
      rw [List.map_append, List.filter_append]
      have h1 : ((B'.map (fun r => r.1.Id)).filter (fun x => !decide (x = k))) = [] := by
        rw [List.filter_eq_nil_iff]
        intro x hx
        rcases List.mem_map.mp hx with ⟨r, hr, rfl⟩
        simp [hBk r (List.mem_cons_of_mem _ hr)]
      have h2 : ((J.map (fun r => r.1.Id)).filter (fun x => !decide (x = k))) =
          J.map (fun r => r.1.Id) := by
        rw [List.filter_eq_self]
        intro x hx
        rcases List.mem_map.mp hx with ⟨r, hr, rfl⟩
        simp [hJ r hr]
      rw [h1, h2, List.nil_append]
    have hfirst : (b :: B' ++ J).filter (fun r => decide (r.1.Id = k)) = b :: B' := by
      rw [List.filter_append]
      have h1 : (b :: B').filter (fun r => decide (r.1.Id = k)) = b :: B' := by
        rw [List.filter_eq_self]
        intro r hr
        simp [hBk r hr]
      have h2 : J.filter (fun r => decide (r.1.Id = k)) = [] := by
        rw [List.filter_eq_nil_iff]
        intro r hr
        simp [hJ r hr]
      rw [h1, h2, List.append_nil]
    have hrest : ∀ x ∈ sql.distinct (J.map (fun r => r.1.Id)),
        (b :: B' ++ J).filter (fun r => decide (r.1.Id = x)) =
          J.filter (fun r => decide (r.1.Id = x)) := by
      intro x hx
      have hxk : x ≠ k := by
        rcases List.mem_map.mp ((mem_distinct x _).mp hx) with ⟨r, hr, rfl⟩
        exact hJ r hr
      rw [List.filter_append]
      have h1 : (b :: B').filter (fun r => decide (r.1.Id = x)) = [] := by
        rw [List.filter_eq_nil_iff]
        intro r hr
        simp only [decide_eq_true_eq]
        rw [hBk r hr]
        exact fun h => hxk h.symm
      rw [h1, List.nil_append]
    unfold sql.groupByEmployeeId
    rw [List.cons_append, List.map_cons, sql.distinct, filter_distinct, hb, hkeys, List.map_cons,
      ← List.cons_append, hfirst]
    congr 1
    exact List.map_congr_left hrest

theorem joinRows_ne_nil (orders : List InboundOrder) (e : Employee) :
    sql.joinRows orders e ≠ [] := by
  unfold sql.joinRows
  split <;> simp

theorem joinRows_fst (orders : List InboundOrder) (e : Employee) :
    ∀ r ∈ sql.joinRows orders e, r.1 = e := by
  unfold sql.joinRows
  split
  · intro r hr
    simp only [List.mem_singleton] at hr
    rw [hr]
  · intro r hr
    rcases List.mem_map.mp hr with ⟨x, _, rfl⟩
    rfl

theorem leftJoin_fst_mem (employees : List Employee) (orders : List InboundOrder) :
    ∀ r ∈ sql.leftJoin employees orders, r.1 ∈ employees := by
  intro r hr
  unfold sql.leftJoin at hr
  rcases List.mem_flatMap.mp hr with ⟨e, he, hre⟩
  rw [joinRows_fst orders e r hre]
  exact he

theorem selectReport_joinRows (orders : List InboundOrder) (e : Employee) :
    sql.selectReport (sql.joinRows orders e) = [sql.expectedReport orders e] := by
  unfold sql.joinRows sql.expectedReport
  split
  · next h => simp [sql.selectReport, sql.countOrderId, h]
  · next o os h =>
    have hall : ∀ l : List InboundOrder,
        ((l.map (fun x => (e, some x))).filter
          (fun r : Employee × Option InboundOrder => r.2.isSome)).length = l.length := by
      intro l
      induction l with
      | nil => rfl
      | cons a l ih => simp [List.filter_cons, ih]
    simp [sql.selectReport, sql.countOrderId, h, hall os]

theorem groupBy_leftJoin (employees : List Employee) (orders : List InboundOrder)
    (hu : (employees.map (fun e => e.Id)).Nodup) :
    sql.groupByEmployeeId (sql.leftJoin employees orders) =
      employees.map (sql.joinRows orders) := by
  induction employees with
  | nil => rfl
  | cons e es ih =>
    rw [List.map_cons, List.nodup_cons] at hu
    have hJ : ∀ r ∈ sql.leftJoin es orders, r.1.Id ≠ e.Id := by
      intro r hr heq
      apply hu.1
      rw [← heq]
      exact List.mem_map.mpr ⟨r.1, leftJoin_fst_mem es orders r hr, rfl⟩
    have hB : ∀ r ∈ sql.joinRows orders e, r.1.Id = e.Id := by
      intro r hr
      rw [joinRows_fst orders e r hr]
    have hsplit : sql.leftJoin (e :: es) orders =
        sql.joinRows orders e ++ sql.leftJoin es orders := by
      unfold sql.leftJoin
      rw [List.flatMap_cons]
    rw [hsplit, groupBy_block _ _ e.Id (joinRows_ne_nil orders e) hB hJ, ih hu.2, List.map_cons]

theorem query_all_eq (employees : List Employee) (orders : List InboundOrder)
    (hu : (employees.map (fun e => e.Id)).Nodup) :
    (sql.groupByEmployeeId (sql.leftJoin employees orders)).flatMap sql.selectReport =
      employees.map (sql.expectedReport orders) := by
  rw [groupBy_leftJoin employees orders hu]
  induction employees with
  | nil => rfl
  | cons e es ih =>
    rw [List.map_cons, List.nodup_cons] at hu
    rw [List.map_cons, List.flatMap_cons, selectReport_joinRows, ih hu.2, List.map_cons]
    rfl

theorem filter_leftJoin (employees : List Employee) (orders : List InboundOrder) (id : Nat) :
    (sql.leftJoin employees orders).filter (fun r => decide (r.1.Id = id)) =
      sql.leftJoin (employees.filter (fun e => decide (e.Id = id))) orders := by
  induction employees with
  | nil => rfl
  | cons e es ih =>
    have hsplit : ∀ l : List Employee, sql.leftJoin (e :: l) orders =
        sql.joinRows orders e ++ sql.leftJoin l orders := by
      intro l
      unfold sql.leftJoin
      rw [List.flatMap_cons]
    rw [hsplit, List.filter_append, ih, List.filter_cons]
    by_cases he : e.Id = id
    · have h1 : (sql.joinRows orders e).filter (fun r => decide (r.1.Id = id)) =
          sql.joinRows orders e := by
        rw [List.filter_eq_self]
        intro r hr
        rw [joinRows_fst orders e r hr]
        simp [he]
      rw [h1]
      simp only [he, decide_True, if_true]
      rw [hsplit]
    · have h1 : (sql.joinRows orders e).filter (fun r => decide (r.1.Id = id)) = [] := by
        rw [List.filter_eq_nil_iff]
        intro r hr
        rw [joinRows_fst orders e r hr]
        simp [he]
      rw [h1]
      simp [he]

theorem query_by_id_eq (db : sql.DB) (id : Nat) (hu : db.uniqueEmployeeIds) :
    db.queryCountInboundOrdersByEmployeeId id =
      (db.employees.filter (fun e => decide (e.Id = id))).map
        (sql.expectedReport db.inbound_orders) := by
  unfold sql.DB.queryCountInboundOrdersByEmployeeId
  rw [filter_leftJoin]
  apply query_all_eq
  exact List.Nodup.sublist (List.Sublist.map _ (List.filter_sublist _)) hu

theorem countInboundOrders_eq (db : sql.DB) (hf : db.faults = [])
    (hu : db.uniqueEmployeeIds) :
    employeeRepository.CountInboundOrders db =
      ((db.employees.map (sql.expectedReport db.inbound_orders), none), db) := by
  unfold employeeRepository.CountInboundOrders
  rw [call_no_faults db hf]
  simp only
  rw [scanRows_no_faults _ _ db hf]
  unfold sql.DB.queryCountInboundOrders
  rw [query_all_eq db.employees db.inbound_orders hu, List.nil_append]

/-- C18. Over a store without driver failures whose table `employees` has `id` as its
key, `employeeRepository.CountInboundOrders` returns, with a nil error and the store
unchanged, exactly one row per employee, in the order of the table: the row of an
employee carries its fields and the number of inbound orders whose `employee_id` is
its id (0, not an omitted row, for an employee without orders); no two rows of the
result share an employee id. -/
theorem count_inbound_orders (db : sql.DB) (hf : db.faults = [])
    (hu : db.uniqueEmployeeIds) :
    employeeRepository.CountInboundOrders db =
      ((db.employees.map (fun e =>
          { Id := e.Id, CardNumberId := e.CardNumberId, FirstName := e.FirstName,
            LastName := e.LastName, WarehouseId := e.WarehouseId,
            InboundOrdersCount :=
              (db.inbound_orders.filter (fun o => decide (o.EmployeeId = e.Id))).length }),
        none), db) ∧
    ((employeeRepository.CountInboundOrders db).1.1.map (fun r => r.Id)).Nodup ∧
    (employeeRepository.CountInboundOrders db).1.1.length = db.employees.length := by
  have hmain := countInboundOrders_eq db hf hu
  refine ⟨hmain, ?_, ?_⟩
  · rw [hmain]
    simp only [List.map_map]
    exact hu
  · rw [hmain]
    simp

/-- C18 at the sample store: three employees, the second without orders, and one
order of an employee that is not in the table. -/
theorem count_inbound_orders_witness :
    employeeRepository.CountInboundOrders sampleDB =
      (([{ Id := 1, CardNumberId := "E-77", FirstName := "Ana", LastName := "Lima",
           WarehouseId := 2, InboundOrdersCount := 2 },
         { Id := 2, CardNumberId := "E-78", FirstName := "Rui", LastName := "Sa",
           WarehouseId := 2, InboundOrdersCount := 0 },
         { Id := 5, CardNumberId := "E-79", FirstName := "Eva", LastName := "Reis",
           WarehouseId := 1, InboundOrdersCount := 1 }], none), sampleDB) :=
  (count_inbound_orders sampleDB rfl (by decide)).1

theorem filter_id_of_mem_unique (employees : List Employee) (e : Employee)
    (he : e ∈ employees) (hu : (employees.map (fun x => x.Id)).Nodup) :
    employees.filter (fun x => decide (x.Id = e.Id)) = [e] := by
  induction employees with
  | nil => cases he
  | cons a es ih =>
    rw [List.map_cons, List.nodup_cons] at hu
    rcases List.mem_cons.mp he with h | h
    · subst h
      have hrest : es.filter (fun x => decide (x.Id = e.Id)) = [] := by
        rw [List.filter_eq_nil_iff]
        intro x hx
        simp only [decide_eq_true_eq]
        intro hxe
        apply hu.1
        rw [← hxe]
        exact List.mem_map.mpr ⟨x, hx, rfl⟩
      simp [List.filter_cons, hrest]
    · have hne : a.Id ≠ e.Id := by
        intro hae
        apply hu.1
        rw [hae]
        exact List.mem_map.mpr ⟨e, h, rfl⟩
      simp only [List.filter_cons, hne, decide_False, Bool.false_eq_true, if_false]
      exact ih h hu.2

/-- C19, as stated, fails: at the sample store no employee has id 9, and
`CountInboundOrdersByEmployeeId 9` fails with the driver value `sql.ErrNoRows`, not
with the NotFound sentinel of the module; `employeeErrorHandler` maps that value to
500. -/
theorem count_by_absent_id_no_rows :
    (∀ e ∈ sampleDB.employees, e.Id ≠ 9) ∧
    employeeRepository.CountInboundOrdersByEmployeeId 9 sampleDB =
      ((ReportInboundOrders.empty, some GoError.ErrNoRows), sampleDB) ∧
    (employeeRepository.CountInboundOrdersByEmployeeId 9 sampleDB).1.2 ≠
      some GoError.EmployeeNotFoundError ∧
    employeeErrorHandler GoError.ErrNoRows = 500 := by
  decide

/-- C19, amended. Over a store without driver failures whose table `employees` has
`id` as its key: when an employee has the id, `CountInboundOrdersByEmployeeId id`
returns, with a nil error, exactly the one row that `CountInboundOrders` reports for
that id (the fields of the employee and the number of its inbound orders); when no
employee has the id, it fails with the driver value `sql.ErrNoRows` and an empty
row.  The store is unchanged in both cases. -/
theorem count_by_employee_id (db : sql.DB) (id : Nat) (hf : db.faults = [])
    (hu : db.uniqueEmployeeIds) :
    (∀ e ∈ db.employees, e.Id = id →
      employeeRepository.CountInboundOrdersByEmployeeId id db =
        (({ Id := e.Id, CardNumberId := e.CardNumberId, FirstName := e.FirstName,
            LastName := e.LastName, WarehouseId := e.WarehouseId,
            InboundOrdersCount :=
              (db.inbound_orders.filter (fun o => decide (o.EmployeeId = e.Id))).length },
          none), db) ∧
      (employeeRepository.CountInboundOrders db).1.1.filter (fun r => decide (r.Id = id)) =
        [(employeeRepository.CountInboundOrdersByEmployeeId id db).1.1]) ∧
    ((∀ e ∈ db.employees, e.Id ≠ id) →
      employeeRepository.CountInboundOrdersByEmployeeId id db =
        ((ReportInboundOrders.empty, some GoError.ErrNoRows), db)) := by
  have hq := query_by_id_eq db id hu
  constructor
  · intro e he heid
    subst heid
    have hfilter := filter_id_of_mem_unique db.employees e he hu
    have hone : employeeRepository.CountInboundOrdersByEmployeeId e.Id db =
        ((sql.expectedReport db.inbound_orders e, none), db) := by
      unfold employeeRepository.CountInboundOrdersByEmployeeId
      rw [call_no_faults db hf]
      simp only
      rw [hq, hfilter]
      rfl
    refine ⟨hone, ?_⟩
    rw [countInboundOrders_eq db hf hu, hone]
    simp only
    rw [List.filter_map]
    have hcomp : ((fun r : ReportInboundOrders => decide (r.Id = e.Id)) ∘
        sql.expectedReport db.inbound_orders) =
        (fun x : Employee => decide (x.Id = e.Id)) := rfl
    rw [hcomp, hfilter]
    rfl
  · intro habsent
    have hfilter : db.employees.filter (fun e => decide (e.Id = id)) = [] := by
      rw [List.filter_eq_nil_iff]
      intro e he
      simpa using habsent e he
    unfold employeeRepository.CountInboundOrdersByEmployeeId
    rw [call_no_faults db hf]
    simp only
    rw [hq, hfilter]
    rfl

/-- The amended C19 at the sample store: employee 5 has one order, employee 2 has
none, and no employee has id 9. -/
theorem count_by_employee_id_witness :
    (employeeRepository.CountInboundOrdersByEmployeeId 5 sampleDB =
        (({ Id := 5, CardNumberId := "E-79", FirstName := "Eva", LastName := "Reis",
            WarehouseId := 1, InboundOrdersCount := 1 }, none), sampleDB) ∧
      (employeeRepository.CountInboundOrders sampleDB).1.1.filter
          (fun r => decide (r.Id = 5)) =
        [(employeeRepository.CountInboundOrdersByEmployeeId 5 sampleDB).1.1]) ∧
    (employeeRepository.CountInboundOrdersByEmployeeId 2 sampleDB).1 =
      ({ Id := 2, CardNumberId := "E-78", FirstName := "Rui", LastName := "Sa",
         WarehouseId := 2, InboundOrdersCount := 0 }, none) ∧
    employeeRepository.CountInboundOrdersByEmployeeId 9 sampleDB =
      ((ReportInboundOrders.empty, some GoError.ErrNoRows), sampleDB) :=
  ⟨(count_by_employee_id sampleDB 5 rfl (by decide)).1
      { Id := 5, CardNumberId := "E-79", FirstName := "Eva", LastName := "Reis",
        WarehouseId := 1 } (by decide) rfl,
    congrArg Prod.fst ((count_by_employee_id sampleDB 2 rfl (by decide)).1
      { Id := 2, CardNumberId := "E-78", FirstName := "Rui", LastName := "Sa",
        WarehouseId := 2 } (by decide) rfl).1,
    (count_by_employee_id sampleDB 9 rfl (by decide)).2 (by decide)⟩

/-- When the three driver calls of `employeeRepository.Create` succeed (`Prepare`,
`Exec` and `LastInsertId`), `Create` returns with a nil error an Employee whose
CardNumberId, FirstName, LastName and WarehouseId are the arguments and whose Id is
the identifier the store generated for the inserted row: the returned record is the
row appended to the table `employees`. -/
theorem create_returns_inserted (cardNumberId firstName lastName : String)
    (wareHouseId : Nat) (db : sql.DB) (hf : ∀ f ∈ db.faults.take 3, f = none) :
    employeeRepository.Create cardNumberId firstName lastName wareHouseId db =
      (({ Id := db.lastInsertId + 1, CardNumberId := cardNumberId, FirstName := firstName,
          LastName := lastName, WarehouseId := wareHouseId }, none),
        { employees := db.employees ++
            [{ Id := db.lastInsertId + 1, CardNumberId := cardNumberId,
               FirstName := firstName, LastName := lastName, WarehouseId := wareHouseId }]
          inbound_orders := db.inbound_orders
          lastInsertId := db.lastInsertId + 1
          faults := db.faults.drop 3 }) := by
  rcases db with ⟨es, os, last, faults⟩
  rcases faults with _ | ⟨f1, _ | ⟨f2, _ | ⟨f3, rest⟩⟩⟩
  · rfl
  · have h1 : f1 = none := hf f1 (by simp)
    subst h1
    rfl
  · have h1 : f1 = none := hf f1 (by simp)
    have h2 : f2 = none := hf f2 (by simp)
    subst h1 h2
    rfl
  · have h1 : f1 = none := hf f1 (by simp)
    have h2 : f2 = none := hf f2 (by simp)
    have h3 : f3 = none := hf f3 (by simp)
    subst h1 h2 h3
    rfl

/-- The three driver calls succeed at the sample store, whose last generated
identifier is 5: the employee returned is the row stored, with id 6. -/
theorem create_returns_inserted_witness :
    employeeRepository.Create "E-80" "Ivo" "Paz" 3 sampleDB =
      (({ Id := 6, CardNumberId := "E-80", FirstName := "Ivo", LastName := "Paz",
          WarehouseId := 3 }, none),
        { employees := sampleDB.employees ++
            [{ Id := 6, CardNumberId := "E-80", FirstName := "Ivo", LastName := "Paz",
               WarehouseId := 3 }]
          inbound_orders := sampleDB.inbound_orders
          lastInsertId := 6
          faults := [] }) :=
  create_returns_inserted "E-80" "Ivo" "Paz" 3 sampleDB (by decide)

/-- C20 at a failing input. At the sample store, whose last generated identifier is 5,
`Prepare` and `Exec` of `employeeRepository.Create` succeed, so the INSERT succeeds
and the row is stored with the generated identifier 6; the third driver call,
`LastInsertId`, fails, the source discards its error, and `Create` returns with a nil
error an Employee that carries the four arguments and the Id 0, which is not the
identifier of the inserted row. -/
theorem create_drops_insert_id_error :
    (sampleDBThirdCallFails.call).1 = none ∧
    ((sampleDBThirdCallFails.call).2.call).1 = none ∧
    (employeeRepository.Create "E-80" "Ivo" "Paz" 3 sampleDBThirdCallFails).1 =
      ({ Id := 0, CardNumberId := "E-80", FirstName := "Ivo", LastName := "Paz",
         WarehouseId := 3 }, none) ∧
    (employeeRepository.Create "E-80" "Ivo" "Paz" 3 sampleDBThirdCallFails).2.employees =
      sampleDB.employees ++
        [{ Id := 6, CardNumberId := "E-80", FirstName := "Ivo", LastName := "Paz",
           WarehouseId := 3 }] ∧
    (employeeRepository.Create "E-80" "Ivo" "Paz" 3 sampleDBThirdCallFails).1.1.Id ≠ 6 := by
  refine ⟨?_, ?_, ?_, ?_, ?_⟩
  · decide
  · decide
  · decide
  · decide
  · decide

/-! ## The route table: theorems -/

/-- C22, as stated, fails: `main.go` creates the route group `/api/v1/carries`, and
that group registers two routes only, a report and the create route; it has no list,
fetch, update or delete route. -/
theorem carries_group_not_crud :
    "/api/v1/carries" ∈ main.groups ∧
    main.routesOf "/api/v1/carries" = [("GET", "/reportCarries"), ("POST", "/")] ∧
    main.registersAllFive "/api/v1/carries" = false := by
  decide

/-- C22, amended. `main.go` creates twelve route groups, all under `/api/v1`.  Six of
them, those of sellers, warehouses, sections, products, buyers and employees,
register all five routes of the common shape (`GET /`, `GET /:id`, `POST /`,
`PATCH /:id`, `DELETE /:id`).  The other six, those of inbound orders, localities,
carries, product batches, product records and purchase orders, register a create
route (`POST /`, for purchase orders `POST /purchaseOrders`) and none of `GET /`,
`GET /:id`, `PATCH /:id` and `DELETE /:id`; the only other routes on these six groups
are one report each for carries (`GET /reportCarries`) and for localities
(`GET /reportSellers`). -/
theorem route_groups :
    main.groups.length = 12 ∧
    main.groups.all (fun g => ("/api/v1".toList).isPrefixOf g.toList) = true ∧
    main.groups.filter (fun g => main.registersAllFive g) =
      ["/api/v1/sellers", "/api/v1/warehouses", "/api/v1/sections", "/api/v1/products",
       "/api/v1/buyers", "/api/v1/employees"] ∧
    main.groups.filter (fun g => !main.registersAllFive g) =
      ["/api/v1/inboundOrders", "/api/v1/localities", "/api/v1/carries",
       "/api/v1/productBatches", "/api/v1/productRecords", "/api/v1/"] ∧
    (main.groups.filter (fun g => !main.registersAllFive g)).all (fun g =>
      (main.registers g "POST" "/" || main.registers g "POST" "/purchaseOrders") &&
        !main.registers g "GET" "/" && !main.registers g "GET" "/:id" &&
        !main.registers g "PATCH" "/:id" && !main.registers g "DELETE" "/:id") = true ∧
    (main.groups.filter (fun g => !main.registersAllFive g)).map
        (fun g => (g, main.routesOf g)) =
      [("/api/v1/inboundOrders", [("POST", "/")]),
       ("/api/v1/localities", [("POST", "/"), ("GET", "/reportSellers")]),
       ("/api/v1/carries", [("GET", "/reportCarries"), ("POST", "/")]),
       ("/api/v1/productBatches", [("POST", "/")]),
       ("/api/v1/productRecords", [("POST", "/")]),
       ("/api/v1/", [("POST", "/purchaseOrders")])] ∧
    main.registers "/api/v1/carries" "GET" "/reportCarries" = true ∧
    main.registers "/api/v1/localities" "GET" "/reportSellers" = true := by
  refine ⟨?_, ?_, ?_, ?_, ?_, ?_, ?_, ?_⟩
  · decide
  · decide
  · decide
  · decide
  · decide
  · decide
  · decide
  · decide

/-! ## The employees repository: Delete -/

theorem filter_id_ne_eq_erase (employees : List Employee) (e : Employee)
    (he : e ∈ employees) (hu : (employees.map (fun x => x.Id)).Nodup) :
    employees.filter (fun x => !decide (x.Id = e.Id)) = employees.erase e := by
  induction employees with
  | nil => cases he
  | cons a es ih =>
    rw [List.map_cons, List.nodup_cons] at hu
    by_cases hae : a = e
    · subst hae
      have hrest : es.filter (fun x => !decide (x.Id = a.Id)) = es := by
        rw [List.filter_eq_self]
        intro x hx
        have hne : x.Id ≠ a.Id := by
          intro hxe
          apply hu.1
          rw [← hxe]
          exact List.mem_map.mpr ⟨x, hx, rfl⟩
        simp [hne]
      simp [List.filter_cons, hrest]
    · have hmem : e ∈ es := by
        rcases List.mem_cons.mp he with h | h
        · exact absurd h.symm hae
        · exact h
      have hne : a.Id ≠ e.Id := by
        intro hid
        apply hu.1
        rw [hid]
        exact List.mem_map.mpr ⟨e, hmem, rfl⟩
      have hbeq : (a == e) = false := by simpa using hae
      rw [List.erase_cons, hbeq]
      simp only [List.filter_cons, hne, decide_False, Bool.not_false, if_true, Bool.false_eq_true,
        if_false]
      rw [ih hmem hu.2]

/-- C23. Over a store without driver failures, `employeeRepository.Delete id` always
returns a nil error and leaves in the table `employees` the rows whose id is not
`id`.  For an id that no employee has it so succeeds silently and the store is
unchanged; for the id of an employee, with `id` the key of the table, exactly the row
of that employee is removed. -/
theorem delete_silent (db : sql.DB) (id : Nat) (hf : db.faults = []) :
    employeeRepository.Delete id db =
      (none, { db with employees := db.employees.filter (fun e => !decide (e.Id = id)) }) ∧
    ((∀ e ∈ db.employees, e.Id ≠ id) → employeeRepository.Delete id db = (none, db)) ∧
    (∀ e ∈ db.employees, e.Id = id → db.uniqueEmployeeIds →
      employeeRepository.Delete id db =
        (none, { db with employees := db.employees.erase e })) := by
  have hmain : employeeRepository.Delete id db =
      (none, { db with employees := db.employees.filter (fun e => !decide (e.Id = id)) }) := by
    unfold employeeRepository.Delete
    rw [call_no_faults db hf]
    simp only
    rw [call_no_faults db hf]
  refine ⟨hmain, ?_, ?_⟩
  · intro habsent
    have hfilter : db.employees.filter (fun e => !decide (e.Id = id)) = db.employees := by
      rw [List.filter_eq_self]
      intro e he
      simp [habsent e he]
    rw [hmain, hfilter]
  · intro e he heid hu
    subst heid
    rw [hmain, filter_id_ne_eq_erase db.employees e he hu]

/-- C23 at the sample store: no employee has id 9, and employee 2 is the second row. -/
theorem delete_silent_witness :
    (∀ e ∈ sampleDB.employees, e.Id ≠ 9) ∧
    employeeRepository.Delete 9 sampleDB = (none, sampleDB) ∧
    employeeRepository.Delete 2 sampleDB =
      (none,
        { sampleDB with
          employees :=
            [{ Id := 1, CardNumberId := "E-77", FirstName := "Ana", LastName := "Lima",
               WarehouseId := 2 },
             { Id := 5, CardNumberId := "E-79", FirstName := "Eva", LastName := "Reis",
               WarehouseId := 1 }] }) :=
  ⟨by decide, (delete_silent sampleDB 9 rfl).2.1 (by decide),
    (delete_silent sampleDB 2 rfl).2.2
      { Id := 2, CardNumberId := "E-78", FirstName := "Rui", LastName := "Sa", WarehouseId := 2 }
      (by decide) rfl (by decide)⟩

/-! ## The warehouses service: the locality -/

/-- C24. When repository `Get id` returns the stored record `w` and the code lookup
reports the payload code as unused, the record that `warehouseService.Update` hands to
repository `Update`, whatever the payload, has the LocalityId of `w`; and when
repository `Update` stores and returns the record it is handed, that record is the
one the service returns.  No update payload changes the locality of a warehouse. -/
theorem update_keeps_locality {σ : Type} (repo : WarehouseRepository σ) (id : Nat)
    (code address telephone : String) (minimumCapacity : Nat)
    (minimumTemperature : float32) (w : Warehouse) (s s1 s2 : σ)
    (hGet : repo.Get id s = ((w, none), s1))
    (hCode : repo.ExistsWarehouseCode code s1 = ((false, none), s2)) :
    ∃ m : Warehouse,
      m.LocalityId = w.LocalityId ∧
      (warehouseService.Update (recording repo) id code address telephone minimumCapacity
          minimumTemperature (s, [])).2.2 =
        [RepoCall.Get id, RepoCall.ExistsWarehouseCode code, RepoCall.Update m] ∧
      (∀ s3 : σ, repo.Update m s2 = ((m, none), s3) →
        warehouseService.Update repo id code address telephone minimumCapacity
          minimumTemperature s = ((m, none), s3)) := by
  refine ⟨mergoMergeWithOverride w
    (warehouseService.updatedWarehouse id code address telephone minimumCapacity
      minimumTemperature), ?_, ?_, ?_⟩
  · simp only [mergoMergeWithOverride, warehouseService.updatedWarehouse]
    exact mergeLeaf_empty_src isEmptyString w.LocalityId "" (by decide)
  · rcases hU : repo.Update (mergoMergeWithOverride w
        (warehouseService.updatedWarehouse id code address telephone minimumCapacity
          minimumTemperature)) s2 with ⟨⟨r, _ | e⟩, s3⟩ <;>
    simp [warehouseService.Update, recording, hGet, hCode, hU]
  · intro s3 hU
    simp only [warehouseService.Update, hGet, hCode, hU]
    simp

/-- C24 at the sample table: a payload that sets every field of warehouse 1 leaves
its locality `6700` in place. -/
theorem update_keeps_locality_witness :
    ∃ m : Warehouse,
      m.LocalityId = sampleWarehouse.LocalityId ∧
      (warehouseService.Update (recording tableRepository) 1 "W9" "Rua G, 70" "1166" 8
          { bits := 1073741824 } (sampleTable, [])).2.2 =
        [RepoCall.Get 1, RepoCall.ExistsWarehouseCode "W9", RepoCall.Update m] ∧
      (∀ t : WarehouseTable, tableRepository.Update m sampleTable = ((m, none), t) →
        warehouseService.Update tableRepository 1 "W9" "Rua G, 70" "1166" 8
          { bits := 1073741824 } sampleTable = ((m, none), t)) :=
  update_keeps_locality tableRepository 1 "W9" "Rua G, 70" "1166" 8 { bits := 1073741824 }
    sampleWarehouse sampleTable sampleTable sampleTable (by decide) (by decide)

/-! ## The employees repository: driver errors -/

theorem call_cons (db : sql.DB) (f : Option GoError) (fs : List (Option GoError))
    (h : db.faults = f :: fs) : db.call = (f, { db with faults := fs }) := by
  unfold sql.DB.call
  rw [h]

theorem scanRows_scan_fault {α : Type} (rows : List α) (e : GoError)
    (rest : List (Option GoError)) :
    ∀ (k : Nat) (acc : List α) (db : sql.DB), k < rows.length →
      db.faults = List.replicate (2 * k + 1) none ++ some e :: rest →
      (sql.scanRows rows acc db).1 = ([], some e) := by
  induction rows with
  | nil => intro k acc db hk; exact absurd hk (Nat.not_lt_zero k)
  | cons row tl ih =>
    intro k acc db hk hf
    cases k with
    | zero =>
      have h1 : db.faults = none :: some e :: rest := by simpa using hf
      simp only [sql.scanRows, call_cons db _ _ h1]
      rw [call_cons { db with faults := some e :: rest } (some e) rest rfl]
    | succ k =>
      have h1 : db.faults = none :: none :: (List.replicate (2 * k + 1) none ++ some e :: rest) := by
        rw [hf]
        have hk2 : 2 * (k + 1) + 1 = (2 * k + 1) + 1 + 1 := by omega
        rw [hk2, List.replicate_succ, List.replicate_succ]
        rfl
      simp only [sql.scanRows, call_cons db _ _ h1]
      rw [call_cons { db with faults := none :: (List.replicate (2 * k + 1) none ++ some e :: rest) }
        none _ rfl]
      simp only
      exact ih k _ _ (Nat.lt_of_succ_lt_succ hk) rfl

/-- C21, as stated, fails: `ExistsEmployee` has a bool as its only result.  At the
sample store employee 1 exists; when the driver call of the query fails,
`ExistsEmployee 1` answers false and no error reaches the caller. -/
theorem exists_employee_hides_error :
    (sampleDBFirstCallFails.call).1 = some (GoError.other "driver: bad connection") ∧
    (employeeRepository.ExistsEmployee 1 sampleDB).1 = true ∧
    (employeeRepository.ExistsEmployee 1 sampleDBFirstCallFails).1 = false := by
  decide

/-- C21, amended. Every operation of the employee repository that has an error result
(all but `ExistsEmployee`) returns the driver error `e` unmodified, with the zero value
of its other result, when `e` is the error of its `Prepare`, `Exec`, `Query` or
`Scan`: (a) the first driver call, which is `Prepare` for Create, Update and Delete,
`Query` for GetAll, ExistsEmployeeCardNumberId and CountInboundOrders, and the
`QueryRow` with its `Scan` for Get and CountInboundOrdersByEmployeeId; (b) `Exec`, the
second driver call of Create, Update and Delete; (c) the `Scan` of any row in the
loops of GetAll and CountInboundOrders; (d) the `Scan` of
ExistsEmployeeCardNumberId.  `ExistsEmployee` has no error result and answers false
when its query fails. -/
theorem driver_errors_returned (cardNumberId firstName lastName : String)
    (wareHouseId id : Nat) (updatedEmployee : Employee) (db : sql.DB) (e : GoError)
    (rest : List (Option GoError)) :
    (db.faults = some e :: rest →
      (employeeRepository.Create cardNumberId firstName lastName wareHouseId db).1 =
        (Employee.empty, some e) ∧
      (employeeRepository.Get id db).1 = (Employee.empty, some e) ∧
      (employeeRepository.GetAll db).1 = ([], some e) ∧
      (employeeRepository.Update updatedEmployee db).1 = (Employee.empty, some e) ∧
      (employeeRepository.Delete id db).1 = some e ∧
      (employeeRepository.ExistsEmployeeCardNumberId cardNumberId db).1 = (false, some e) ∧
      (employeeRepository.CountInboundOrdersByEmployeeId id db).1 =
        (ReportInboundOrders.empty, some e) ∧
      (employeeRepository.CountInboundOrders db).1 = ([], some e) ∧
      (employeeRepository.ExistsEmployee id db).1 = false) ∧
    (db.faults = none :: some e :: rest →
      (employeeRepository.Create cardNumberId firstName lastName wareHouseId db).1 =
        (Employee.empty, some e) ∧
      (employeeRepository.Update updatedEmployee db).1 = (Employee.empty, some e) ∧
      (employeeRepository.Delete id db).1 = some e) ∧
    (∀ k : Nat, db.faults = List.replicate (2 * k + 2) none ++ some e :: rest →
      (k < db.employees.length → (employeeRepository.GetAll db).1 = ([], some e)) ∧
      (k < db.queryCountInboundOrders.length →
        (employeeRepository.CountInboundOrders db).1 = ([], some e))) ∧
    (db.faults = none :: none :: some e :: rest →
      (∃ x ∈ db.employees, x.CardNumberId = cardNumberId) →
      (employeeRepository.ExistsEmployeeCardNumberId cardNumberId db).1 = (false, some e)) := by
  refine ⟨?_, ?_, ?_, ?_⟩
  · intro hf
    have hc := call_cons db _ _ hf
    simp only [employeeRepository.Create, employeeRepository.Get, employeeRepository.GetAll,
      employeeRepository.Update, employeeRepository.Delete,
      employeeRepository.ExistsEmployeeCardNumberId,
      employeeRepository.CountInboundOrdersByEmployeeId, employeeRepository.CountInboundOrders,
      employeeRepository.ExistsEmployee, hc]
    simp
  · intro hf
    have hc := call_cons db _ _ hf
    have hc2 := call_cons { db with faults := some e :: rest } (some e) rest rfl
    simp only [employeeRepository.Create, employeeRepository.Update, employeeRepository.Delete,
      hc, hc2]
    simp
  · intro k hf
    have h1 : db.faults = none :: (List.replicate (2 * k + 1) none ++ some e :: rest) := by
      rw [hf]
      have hk2 : 2 * k + 2 = (2 * k + 1) + 1 := by omega
      rw [hk2, List.replicate_succ]
      rfl
    have hc := call_cons db _ _ h1
    constructor
    · intro hk
      simp only [employeeRepository.GetAll, hc]
      exact scanRows_scan_fault _ e rest k [] _ hk rfl
    · intro hk
      simp only [employeeRepository.CountInboundOrders, hc]
      exact scanRows_scan_fault _ e rest k [] _ hk rfl
  · intro hf hex
    have hc := call_cons db _ _ hf
    have hc2 := call_cons { db with faults := none :: some e :: rest } none _ rfl
    have hc3 := call_cons { db with faults := some e :: rest } (some e) rest rfl
    rcases hex with ⟨x, hx, hxc⟩
    have hne : db.employees.filter (fun y => decide (y.CardNumberId = cardNumberId)) ≠ [] := by
      intro hnil
      rw [List.filter_eq_nil_iff] at hnil
      exact hnil x hx (by simpa using hxc)
    simp only [employeeRepository.ExistsEmployeeCardNumberId, hc]
    cases hfil : db.employees.filter (fun y => decide (y.CardNumberId = cardNumberId)) with
    | nil => exact absurd hfil hne
    | cons a tl =>
      simp only
      rw [hc2]
      simp only
      rw [hc3]

/-- The amended C21 at the sample store, with scripts in which the first, the second,
the fifth (the `Scan` of the second row of a loop) and the third driver call fail. -/
theorem driver_errors_returned_witness :
    ((employeeRepository.Create "E-80" "Ivo" "Paz" 3 sampleDBFirstCallFails).1 =
        (Employee.empty, some (GoError.other "driver: bad connection")) ∧
      (employeeRepository.Get 1 sampleDBFirstCallFails).1 = (Employee.empty, some (GoError.other "driver: bad connection")) ∧
      (employeeRepository.GetAll sampleDBFirstCallFails).1 = ([], some (GoError.other "driver: bad connection")) ∧
      (employeeRepository.Update sampleEmployee sampleDBFirstCallFails).1 =
        (Employee.empty, some (GoError.other "driver: bad connection")) ∧
      (employeeRepository.Delete 1 sampleDBFirstCallFails).1 = some (GoError.other "driver: bad connection") ∧
      (employeeRepository.ExistsEmployeeCardNumberId "E-78" sampleDBFirstCallFails).1 =
        (false, some (GoError.other "driver: bad connection")) ∧
      (employeeRepository.CountInboundOrdersByEmployeeId 1 sampleDBFirstCallFails).1 =
        (ReportInboundOrders.empty, some (GoError.other "driver: bad connection")) ∧
      (employeeRepository.CountInboundOrders sampleDBFirstCallFails).1 = ([], some (GoError.other "driver: bad connection")) ∧
      (employeeRepository.ExistsEmployee 1 sampleDBFirstCallFails).1 = false) ∧
    ((employeeRepository.Create "E-80" "Ivo" "Paz" 3 sampleDBSecondCallFails).1 =
        (Employee.empty, some (GoError.other "driver: bad connection")) ∧
      (employeeRepository.Update sampleEmployee sampleDBSecondCallFails).1 =
        (Employee.empty, some (GoError.other "driver: bad connection")) ∧
      (employeeRepository.Delete 1 sampleDBSecondCallFails).1 = some (GoError.other "driver: bad connection")) ∧
    ((employeeRepository.GetAll sampleDBFifthCallFails).1 = ([], some (GoError.other "driver: bad connection")) ∧
      (employeeRepository.CountInboundOrders sampleDBFifthCallFails).1 = ([], some (GoError.other "driver: bad connection"))) ∧
    (employeeRepository.ExistsEmployeeCardNumberId "E-78" sampleDBThirdCallFails).1 =
      (false, some (GoError.other "driver: bad connection")) :=
  ⟨(driver_errors_returned "E-80" "Ivo" "Paz" 3 1 sampleEmployee sampleDBFirstCallFails
      (GoError.other "driver: bad connection") []).1 rfl,
    (driver_errors_returned "E-80" "Ivo" "Paz" 3 1 sampleEmployee sampleDBSecondCallFails
      (GoError.other "driver: bad connection") []).2.1 rfl,
    ⟨((driver_errors_returned "E-80" "Ivo" "Paz" 3 1 sampleEmployee sampleDBFifthCallFails
        (GoError.other "driver: bad connection") []).2.2.1 1 rfl).1 (by decide),
      ((driver_errors_returned "E-80" "Ivo" "Paz" 3 1 sampleEmployee sampleDBFifthCallFails
        (GoError.other "driver: bad connection") []).2.2.1 1 rfl).2 (by decide)⟩,
    (driver_errors_returned "E-78" "Ivo" "Paz" 3 1 sampleEmployee sampleDBThirdCallFails
      (GoError.other "driver: bad connection") []).2.2.2 rfl
      ⟨{ Id := 2, CardNumberId := "E-78", FirstName := "Rui", LastName := "Sa",
         WarehouseId := 2 }, by decide, rfl⟩⟩

end MercadoFresh
